import Mathlib

/-! Data-model adapter (`aiot_dm_api.c`, `dm_private.h`): embedding and verification

The C functions are embedded as Lean functions over an explicit `World`:
the process-wide request-id counter, the outcomes the platform will give to
future allocations and publishes, and the trace of every call made on an
external collaborator.  C strings are `List Char`, a nullable pointer is an
`Option`, machine integers are `Nat` or `Int` with the reduction modulo
`2^w` written out where the C type can wrap.  A result of `none` stands for
undefined behaviour in C (a read outside the buffer, a null template handed
to the renderer, a call through a null function pointer).

The outbound side is `aiot_dm_send` with its table `g_dm_send_topic_mapping`;
the inbound side is the four handlers of `g_dm_recv_topic_mapping`, which
return the context and the world, the invocation of the registered callback
being one more event of the trace.
-/

namespace AiotDm

/-! ## Status codes (`aiot_state_api.h`, `aiot_dm_api.h`) -/

/-- Modelled from the spec: the headers declaring the status codes are absent.
The spec fixes that success is zero and every failure is a negative code; the
numeric values below are representative and only their sign and their being
distinct is used. -/
def STATE_SUCCESS : Int := 0

/-- Modelled from the spec: invalid-argument, null handle or message. -/
def STATE_USER_INPUT_NULL_POINTER : Int := -0x0101

/-- Modelled from the spec: invalid-argument, kind or option out of range. -/
def STATE_USER_INPUT_OUT_RANGE : Int := -0x0102

/-- Modelled from the spec: missing-device-identity. -/
def STATE_USER_INPUT_MISSING_DEVICE_NAME : Int := -0x0105

/-- Modelled from the spec: allocation-failure. -/
def STATE_SYS_DEPEND_MALLOC_FAILED : Int := -0x0201

/-- Modelled from the spec: message-invalid, parameters absent. -/
def STATE_DM_MSG_PARAMS_IS_NULL : Int := -0x0A04

/-- Modelled from the spec: message-invalid, reply data absent. -/
def STATE_DM_MSG_DATA_IS_NULL : Int := -0x0A05

/-- Modelled from the spec: structural-topic-error. -/
def STATE_DM_INTERNAL_TOPIC_ERROR : Int := -0x0A06

/-- Modelled from the spec: transport-unavailable. -/
def STATE_DM_MQTT_HANDLE_IS_NULL : Int := -0x0A07

/-- Modelled from the spec: field-missing, the status of the field store
accessor for a key the payload does not hold. -/
def STATE_USER_INPUT_JSON_PARSE_FAILED : Int := -0x0104

/-! ## The inbound decoded message (`aiot_dm_api.h`) -/

/-- A heap buffer: its address and the characters stored in it. -/
structure Buf where
  addr : Nat
  data : List Char
deriving DecidableEq

/-- Modelled from the spec: the kinds of inbound decoded message
(`aiot_dm_recv_type_t`) that the four handlers assign. -/
inductive aiot_dm_recv_type_t where
  | AIOT_DMRECV_REGISTER_INFO
  | AIOT_DMRECV_GENERIC_REPLY
  | AIOT_DMRECV_PROPERTY_SET
  | AIOT_DMRECV_ASYNC_SERVICE_INVOKE
deriving DecidableEq

/-- The member `data.register_info` of `aiot_dm_recv_t`, as the handler uses
it: a `uint32_t` id, and a value inside the payload with its length. -/
structure dm_recv_register_info where
  msg_id : Nat
  params : Option (List Char)
  params_len : Nat
deriving DecidableEq

/-- The member `data.generic_reply` of `aiot_dm_recv_t`. -/
structure dm_recv_generic_reply where
  msg_id : Nat
  code : Nat
  data : Option (List Char)
  data_len : Nat
  message : Option (List Char)
  message_len : Nat
deriving DecidableEq

/-- The member `data.xjt_property` of `aiot_dm_recv_t`; `msg_id` is a
`uint64_t`. -/
structure dm_recv_xjt_property where
  msg_id : Nat
  serviceId : Option (List Char)
  eid : Option (List Char)
  params : Option (List Char)
  params_len : Nat
deriving DecidableEq

/-- The member `data.service_down` of `aiot_dm_recv_t`; `msg_id` is a
`uint64_t`. -/
structure dm_recv_service_down where
  msg_id : Nat
  identifier : Option (List Char)
  params : Option (List Char)
  params_len : Nat
deriving DecidableEq

/-- Modelled from the spec: the member `data` of `aiot_dm_recv_t`.  The
declaration is in the absent header; the decoded message is a tagged union
(section 3 of the specification), so the members of `data` share their
storage.  A handler
writes one member after the `memset` and the callback reads the member of
the kind it is given, so each member written is kept as a field of its own.
The one access through another member than the one written, the pointer
`data.async_service_invoke.service_id` of the service-invoke handler, is
`dm_recv_data.async_service_invoke_service_id`. -/
structure dm_recv_data where
  register_info : dm_recv_register_info
  generic_reply : dm_recv_generic_reply
  xjt_property : dm_recv_xjt_property
  service_down : dm_recv_service_down
deriving DecidableEq

/-- Modelled from the spec: the pointer
`data.async_service_invoke.service_id` of `aiot_dm_recv_t`.  In the union the
member `async_service_invoke` shares the storage of `service_down`: both
start with the `uint64_t` id, after which the pointer `service_id` lies on
the pointer `identifier`, so reading one gives what was stored in the other. -/
def dm_recv_data.async_service_invoke_service_id (d : dm_recv_data) : Option (List Char) :=
  d.service_down.identifier

/-- The decoded message `aiot_dm_recv_t` handed to the callback. -/
structure aiot_dm_recv_t where
  type : aiot_dm_recv_type_t
  product_key : Option Buf
  device_name : Option Buf
  data : dm_recv_data
deriving DecidableEq

/-! ## The world outside the module -/

/-- One call on an external collaborator, in the order the code makes it. -/
inductive Event where
  /-- The call `core_mqtt_get_device_name(handle)`. -/
  | get_device_name (mqtt : Option Nat)
  /-- The call `core_global_alink_id_next`, with the id it produced. -/
  | alink_id_next (id : Int)
  /-- The call `core_diag` with the record bytes. -/
  | diag (data : List Nat)
  /-- The call `core_sysdep_malloc(size, ..)` and the address it returned. -/
  | malloc (size : Nat) (addr : Option Nat)
  /-- The call `core_sysdep_free(ptr)`. -/
  | free (addr : Nat)
  /-- The call `core_sysdep_free(ptr)` with a pointer into the payload of the
  inbound message, which the allocator did not return; `text` is the value
  the pointer is at. -/
  | free_payload_ptr (text : List Char)
  /-- The call `aiot_mqtt_pub(handle, topic, payload, len, 0)` and its status. -/
  | mqtt_pub (mqtt : Option Nat) (topic : Option (List Char)) (payload : List Char) (res : Int)
  /-- The call `dm_handle->recv_handler(dm_handle, &recv, dm_handle->userdata)`:
  the callback, the decoded message it is shown and the user data. -/
  | recv_handler (callback : Nat) (recv : aiot_dm_recv_t) (userdata : Option Nat)
  /-- The call `aiot_mqtt_setopt(handle, AIOT_MQTTOPT_APPEND_TOPIC_MAP, &map)`
  (`append` true) or `aiot_mqtt_setopt(handle, AIOT_MQTTOPT_REMOVE_TOPIC_MAP,
  &map)` (`append` false): the string `map.topic`, the handler `map.handler`
  named by the index of its element of `g_dm_recv_topic_mapping`, whether
  `map.userdata` is the context, and the status. -/
  | topic_map (mqtt : Option Nat) (append : Bool) (topic : List Char) (handler : Nat)
      (userdata : Bool) (res : Int)
  /-- The call `core_mqtt_setopt(handle, option, &process_data)` with the
  option `CORE_MQTTOPT_APPEND_PROCESS_HANDLER` (`append` true) or
  `CORE_MQTTOPT_REMOVE_PROCESS_HANDLER`, and its status. -/
  | process_handler (mqtt : Option Nat) (append : Bool) (res : Int)
  /-- The call `sysdep->core_sysdep_free(dm_handle)` of `aiot_dm_deinit`. -/
  | free_context
  /-- The call `core_global_deinit(sysdep)`. -/
  | global_deinit
deriving DecidableEq

/-- State of the collaborators: `alink_id` is the global request-id counter,
`alloc_plan` and `pub_plan` give the outcome of the next allocations and of
the next calls on the transport that return a status, publishes and option
settings (an exhausted plan means success), `next_addr` is the next fresh
heap address and `trace` records the calls made so far, oldest first. -/
structure World where
  alink_id : Int
  alloc_plan : List Bool
  pub_plan : List Int
  next_addr : Nat
  trace : List Event
deriving DecidableEq

/-- Modelled from the spec: the allocator `alloc` of the platform port
(`sysdep->core_sysdep_malloc`), absent from the sources.  It returns a fresh
address or null, as the plan says. -/
def core_sysdep_malloc (size : Nat) (w : World) : Option Nat × World :=
  match w.alloc_plan with
  | false :: rest =>
    (none, { w with alloc_plan := rest, trace := w.trace ++ [Event.malloc size none] })
  | _ =>
    (some w.next_addr,
      { w with alloc_plan := w.alloc_plan.tail, next_addr := w.next_addr + 1,
               trace := w.trace ++ [Event.malloc size (some w.next_addr)] })

/-- Modelled from the spec: the allocator's `free` (`sysdep->core_sysdep_free`). -/
def core_sysdep_free (addr : Nat) (w : World) : World :=
  { w with trace := w.trace ++ [Event.free addr] }

/-! ## Topic level parser -/

/-- Locals of the loop in `_dm_get_topic_level`: `level_curr` (a `uint16_t`),
`p_open` and `p_close` as offsets from `topic` (`none` is `NULL`). -/
structure TopicScan where
  level_curr : Nat
  p_open : Option Nat
  p_close : Option Nat
deriving DecidableEq

/-- Body of the loop of `_dm_get_topic_level` at index `i`; `none` when
`topic[i]` lies outside the buffer. -/
def topic_scan_step (topic : List Char) (level : Nat) (i : Nat) (s : TopicScan) :
    Option TopicScan :=
  match topic[i]? with
  | none => none
  | some c =>
    if c = '/' then
      let level_curr := (s.level_curr + 1) % 65536
      let p_open := if level_curr = level ∧ s.p_open = none then some (i + 1) else s.p_open
      let p_close := if level_curr = level + 1 ∧ s.p_close = none then some i else s.p_close
      some { level_curr := level_curr, p_open := p_open, p_close := p_close }
    else some s

/-- The loop `for (i = ..; i < bound; i++)` of `_dm_get_topic_level`, with
`n = bound - i` iterations left. -/
def topic_scan_loop (topic : List Char) (level : Nat) : Nat → Nat → TopicScan → Option TopicScan
  | 0, _, s => some s
  | n + 1, i, s =>
    match topic_scan_step topic level i s with
    | none => none
    | some s1 => topic_scan_loop topic level n (i + 1) s1

/-- The function `_dm_get_topic_level(sysdep, topic, topic_len, level, level_name)`.
`topic` is the buffer, `topic_len` the `uint32_t` length passed with it and
`level` the `uint8_t` segment index; the loop bound `topic_len - 1` and
`name_len` are reduced modulo `2^32` and `2^16` as their C types do.  The result is the status, the buffer
stored through `level_name` (`none`: the output pointer is not written) and
the new world. -/
def _dm_get_topic_level (topic : List Char) (topic_len : Nat) (level : Nat) (w : World) :
    Option (Int × Option Buf × World) :=
  match topic_scan_loop topic level (((topic_len : Int) - 1) % 4294967296).toNat 0
      { level_curr := 0, p_open := none, p_close := none } with
  | none => none
  | some s =>
    match s.p_open with
    | none => some (STATE_DM_INTERNAL_TOPIC_ERROR, none, w)
    | some p_open =>
      let p_close := s.p_close.getD topic_len
      let name_len := (((p_close : Int) - (p_open : Int)) % 65536).toNat
      match core_sysdep_malloc (name_len + 1) w with
      | (none, w1) => some (STATE_SYS_DEPEND_MALLOC_FAILED, none, w1)
      | (some addr, w1) =>
        if p_open + name_len ≤ topic.length then
          some (STATE_SUCCESS, some { addr := addr, data := (topic.drop p_open).take name_len }, w1)
        else none

/-- Specification side: the rest of the topic after its `n`-th `/`, when
there is one. -/
def afterSlash : Nat → List Char → Option (List Char)
  | 0, t => some t
  | _ + 1, [] => none
  | n + 1, c :: t => if c = '/' then afterSlash n t else afterSlash (n + 1) t

/-- Specification side: the characters strictly between the `level`-th `/`
and the next `/`, or up to the end of the topic when no `/` follows. -/
def levelSegment (level : Nat) (topic : List Char) : Option (List Char) :=
  (afterSlash level topic).map (List.takeWhile (fun c => c != '/'))

/-- Specification side: what the loop of `_dm_get_topic_level` has established
once the characters below index `i` are examined: `level_curr` counts their
`/` (as a `uint16_t`), the opening end is set exactly when `level` of them
were met and lies at most at `i`, and a closing end lies at or after the
opening end and below `i`. -/
def scan_inv (topic : List Char) (level i : Nat) (s : TopicScan) : Prop :=
  s.level_curr = (topic.take i).count '/' % 65536 ∧
  (s.p_open = none ↔ (topic.take i).count '/' < level) ∧
  (∀ a, s.p_open = some a → 1 ≤ a ∧ a ≤ i) ∧
  (∀ b, s.p_close = some b → ∃ a, s.p_open = some a ∧ a ≤ b ∧ b < i)

/-! ## Transport, request ids, diagnostics, rendering -/

/-- Modelled from the spec: the transport handle behind `void *mqtt_handle`
(declared in the absent `core_mqtt.h`): an identity and the default device
name it was configured with, null when it has none. -/
structure MqttHandle where
  id : Nat
  device_name : Option (List Char)
deriving DecidableEq

/-- The context `dm_handle_t` of `dm_private.h`.  The `sysdep` field is the
`World`; the callback and the user data are kept by identity. -/
structure dm_handle_t where
  mqtt_handle : Option MqttHandle
  recv_handler : Option Nat
  userdata : Option Nat
  post_reply : Nat
deriving DecidableEq

/-- Modelled from the spec: `getDefaultDeviceName() -> string|null` of the
transport (`core_mqtt_get_device_name`), null on a null handle. -/
def core_mqtt_get_device_name (mqtt_handle : Option MqttHandle) (w : World) :
    Option (List Char) × World :=
  (mqtt_handle.bind (fun h => h.device_name),
    { w with trace := w.trace ++ [Event.get_device_name (mqtt_handle.map (fun h => h.id))] })

/-- Modelled from the spec: `publish(topic, payload, qos) -> status` of the
transport (`aiot_mqtt_pub`); the status is the one the plan holds for this
call, success when the plan is exhausted. -/
def aiot_mqtt_pub (mqtt_handle : Option MqttHandle) (topic : Option (List Char))
    (payload : List Char) (w : World) : Int × World :=
  let res := w.pub_plan.headD STATE_SUCCESS
  (res, { w with pub_plan := w.pub_plan.tail,
                 trace := w.trace ++
                   [Event.mqtt_pub (mqtt_handle.map (fun h => h.id)) topic payload res] })

/-- Modelled from the spec: the request-id generator `next() -> integer`
(`core_global_alink_id_next`), a counter that never wraps: each call returns
a value one larger than the previous one. -/
def core_global_alink_id_next (w : World) : Int × World :=
  (w.alink_id + 1,
    { w with alink_id := w.alink_id + 1, trace := w.trace ++ [Event.alink_id_next (w.alink_id + 1)] })

/-- Modelled from the spec: decimal text of a signed id (`core_int2str`). -/
def core_int2str (input : Int) : List Char := (Int.repr input).toList

/-- Modelled from the spec: decimal text of an unsigned value
(`core_uint2str`, `core_uint642str`). -/
def core_uint2str (input : Nat) : List Char := (Nat.repr input).toList

/-- Modelled from the spec: the diagnostic sink `record(bytes)` (`core_diag`). -/
def core_diag (data : List Nat) (w : World) : World :=
  { w with trace := w.trace ++ [Event.diag data] }

/-- The constant `DM_DIAG_MSG_TYPE_REQ`. -/
def DM_DIAG_MSG_TYPE_REQ : Nat := 0x00

/-- The constant `DM_DIAG_MSG_TYPE_RSP`. -/
def DM_DIAG_MSG_TYPE_RSP : Nat := 0x01

/-- The array `diag_data` of `_append_diag_data` after its five assignments:
`msg_id` is an `int32_t`, `x >> k` is the floor division by `2^k` and
`& 0xFF` the remainder modulo 256. -/
def diag_record (msg_type : Nat) (msg_id : Int) : List Nat :=
  [0x00, 0x30, 0x01, msg_type, 0x00, 0x31, 0x04,
    ((msg_id / 16777216) % 256).toNat, ((msg_id / 65536) % 256).toNat,
    ((msg_id / 256) % 256).toNat, (msg_id % 256).toNat]

/-- The function `_append_diag_data(dm_handle, msg_type, msg_id)`. -/
def _append_diag_data (msg_type : Nat) (msg_id : Int) (w : World) : World :=
  core_diag (diag_record msg_type msg_id) w

/-- Modelled from the spec: the substitution done by the template renderer:
each `%s` of the template, in order, is replaced by the next value; a null
value renders as the empty text. -/
def render_fmt : List Char → List (Option (List Char)) → List Char
  | [], _ => []
  | '%' :: 's' :: rest, v :: vs => v.getD [] ++ render_fmt rest vs
  | c :: rest, vs => c :: render_fmt rest vs

/-- Modelled from the spec: the template renderer `core_sprintf(sysdep, dest,
fmt, src, count, module)`: it allocates the rendered string and fails with
the allocation status when the allocator does.  A null template is outside
its contract (`none`). -/
def core_sprintf (fmt : Option (List Char)) (src : List (Option (List Char))) (w : World) :
    Option (Int × Option Buf × World) :=
  match fmt with
  | none => none
  | some f =>
    match core_sysdep_malloc ((render_fmt f src).length + 1) w with
    | (none, w1) => some (STATE_SYS_DEPEND_MALLOC_FAILED, none, w1)
    | (some addr, w1) => some (STATE_SUCCESS, some { addr := addr, data := render_fmt f src }, w1)

/-! ## Outbound messages -/

/-- Payload templates of `dm_private.h`. -/
def XJT_GET_DEVICE : List Char := "\x7b\"id\":\"%s\",\"eventTime\":,\"%s\"\x7d".toList

/-- The template `XJT_PROP_POST`. -/
def XJT_PROP_POST : List Char := "\x7b\"id\":\"%s\",\"devices\":[%s]\x7d".toList

/-- The template `XJT_EVENT_POST`. -/
def XJT_EVENT_POST : List Char :=
  "\x7b\"id\":\"%s\",\"time\":\"%s\",\"identifier\":\"%s\",\"data\":%s\x7d".toList

/-- The template `XJT_SERVICE_REPLY`. -/
def XJT_SERVICE_REPLY : List Char :=
  "\x7b\"id\":\"%s\",\"code\":\"%s\",\"message\":\"%s\"\x7d".toList

/-- The template `ALINK_RESPONSE_FMT`. -/
def ALINK_RESPONSE_FMT : List Char := "\x7b\"id\":\"%s\",\"code\":%s,\"data\":%s\x7d".toList

/-- Member `data.get_reg_post` of `aiot_dm_msg_t`. -/
structure dm_msg_get_reg_post where
  time : Option (List Char)
deriving DecidableEq

/-- Member `data.property_post` of `aiot_dm_msg_t`. -/
structure dm_msg_property_post where
  params : Option (List Char)
deriving DecidableEq

/-- Member `data.xjt_event_post` of `aiot_dm_msg_t`. -/
structure dm_msg_xjt_event_post where
  time : Option (List Char)
  event_id : Option (List Char)
  params : Option (List Char)
deriving DecidableEq

/-- Member `data.xjt_service_rep` of `aiot_dm_msg_t`. -/
structure dm_msg_xjt_service_rep where
  code : Option (List Char)
  params : Option (List Char)
deriving DecidableEq

/-- Member `data.property_set_reply` of `aiot_dm_msg_t`: `msg_id` is a
`uint64_t`, `code` a `uint32_t`. -/
structure dm_msg_property_set_reply where
  msg_id : Nat
  code : Nat
  data : Option (List Char)
deriving DecidableEq

/-- Modelled from the spec: the member `data` of `aiot_dm_msg_t`, whose
declaration (`aiot_dm_api.h`) is absent.  Every member path the code reads
is a field of its own, so the overlap of the members of the C union is not
modelled. -/
structure dm_msg_data where
  get_reg_post : dm_msg_get_reg_post
  property_post : dm_msg_property_post
  xjt_event_post : dm_msg_xjt_event_post
  xjt_service_rep : dm_msg_xjt_service_rep
  property_set_reply : dm_msg_property_set_reply
deriving DecidableEq

/-- Modelled from the spec: the outbound message `aiot_dm_msg_t` with the
fields the code reads: the optional device-name override, the tag and the
data. -/
structure aiot_dm_msg_t where
  device_name : Option (List Char)
  type : Nat
  data : dm_msg_data
deriving DecidableEq

/-- Modelled from the spec: the enumeration `aiot_dm_msg_type_t`, whose
declaration (`aiot_dm_api.h`) is absent: the value of each tag the code
names, and of `AIOT_DMMSG_MAX`. -/
structure DmMsgEnum where
  AIOT_DMMSG_PROPERTY_POST : Nat
  AIOT_DMMSG_PROPERTY_BATCH_POST : Nat
  AIOT_DMMSG_PROPERTY_SET_REPLY : Nat
  AIOT_DMMSG_GET_DESIRED : Nat
  AIOT_DMMSG_DELETE_DESIRED : Nat
  AIOT_DMMSG_RAW_DATA : Nat
  AIOT_DMMSG_EVENT_POST : Nat
  AIOT_DMMSG_ASYNC_SERVICE_REPLY : Nat
  AIOT_DMMSG_SYNC_SERVICE_REPLY : Nat
  AIOT_DMMSG_RAW_SERVICE_REPLY : Nat
  AIOT_DMMSG_MAX : Nat
deriving DecidableEq

/-- The tags named by the `case` labels of `_dm_prepare_send_topic`. -/
def DmMsgEnum.caseLabels (E : DmMsgEnum) : List Nat :=
  [E.AIOT_DMMSG_PROPERTY_POST, E.AIOT_DMMSG_PROPERTY_BATCH_POST, E.AIOT_DMMSG_PROPERTY_SET_REPLY,
   E.AIOT_DMMSG_GET_DESIRED, E.AIOT_DMMSG_DELETE_DESIRED, E.AIOT_DMMSG_RAW_DATA,
   E.AIOT_DMMSG_EVENT_POST, E.AIOT_DMMSG_ASYNC_SERVICE_REPLY, E.AIOT_DMMSG_SYNC_SERVICE_REPLY,
   E.AIOT_DMMSG_RAW_SERVICE_REPLY]

/-- What the code needs of the enumeration to compile and to mean what its
names say: the `case` labels of one `switch` are pairwise distinct, and every
message tag lies below `AIOT_DMMSG_MAX`. -/
def DmMsgEnum.wf (E : DmMsgEnum) : Prop :=
  E.caseLabels.Nodup ∧ (∀ t ∈ E.caseLabels, t < E.AIOT_DMMSG_MAX)

instance (E : DmMsgEnum) : Decidable E.wf := by
  unfold DmMsgEnum.wf; infer_instance

/-- Modelled from the spec: one declaration of `aiot_dm_msg_type_t` that the
code admits, used where a concrete tag is needed: the registration request
first, then the tags in the order of the dispatch table, then the others. -/
def DmMsgEnum.sample : DmMsgEnum :=
  { AIOT_DMMSG_PROPERTY_POST := 1
    AIOT_DMMSG_EVENT_POST := 2
    AIOT_DMMSG_PROPERTY_SET_REPLY := 3
    AIOT_DMMSG_ASYNC_SERVICE_REPLY := 4
    AIOT_DMMSG_PROPERTY_BATCH_POST := 5
    AIOT_DMMSG_SYNC_SERVICE_REPLY := 6
    AIOT_DMMSG_RAW_SERVICE_REPLY := 7
    AIOT_DMMSG_RAW_DATA := 8
    AIOT_DMMSG_GET_DESIRED := 9
    AIOT_DMMSG_DELETE_DESIRED := 10
    AIOT_DMMSG_MAX := 11 }

/-- The function `_dm_send_reg_req(handle, topic, msg)`. -/
def _dm_send_reg_req (handle : dm_handle_t) (topic : Option Buf) (msg : Option aiot_dm_msg_t)
    (w : World) : Option (Int × World) :=
  match msg with
  | none => some (STATE_DM_MSG_PARAMS_IS_NULL, w)
  | some msg =>
    let (id, w1) := core_global_alink_id_next w
    let id_string := core_int2str id
    let w2 := _append_diag_data DM_DIAG_MSG_TYPE_REQ id w1
    let src := [some id_string, msg.data.get_reg_post.time]
    match core_sprintf (some XJT_GET_DEVICE) src w2 with
    | none => none
    | some (res, payload, w3) =>
      if res < 0 then some (res, w3)
      else
        match payload with
        | none => none
        | some payload =>
          let (res, w4) :=
            aiot_mqtt_pub handle.mqtt_handle (topic.map Buf.data) payload.data w3
          let w5 := core_sysdep_free payload.addr w4
          if STATE_SUCCESS = res then some (id, w5) else some (res, w5)

/-- The function `_dm_send_prop_req(handle, topic, msg)`. -/
def _dm_send_prop_req (handle : dm_handle_t) (topic : Option Buf) (msg : Option aiot_dm_msg_t)
    (w : World) : Option (Int × World) :=
  match msg with
  | none => some (STATE_DM_MSG_PARAMS_IS_NULL, w)
  | some msg =>
    let (id, w1) := core_global_alink_id_next w
    let id_string := core_int2str id
    let w2 := _append_diag_data DM_DIAG_MSG_TYPE_REQ id w1
    let src := [some id_string, msg.data.property_post.params]
    match core_sprintf (some XJT_PROP_POST) src w2 with
    | none => none
    | some (res, payload, w3) =>
      if res < 0 then some (res, w3)
      else
        match payload with
        | none => none
        | some payload =>
          let (res, w4) :=
            aiot_mqtt_pub handle.mqtt_handle (topic.map Buf.data) payload.data w3
          let w5 := core_sysdep_free payload.addr w4
          if STATE_SUCCESS = res then some (id, w5) else some (res, w5)

/-- The function `_dm_send_event_req(handle, topic, msg)`. -/
def _dm_send_event_req (handle : dm_handle_t) (topic : Option Buf) (msg : Option aiot_dm_msg_t)
    (w : World) : Option (Int × World) :=
  match msg with
  | none => some (STATE_DM_MSG_PARAMS_IS_NULL, w)
  | some msg =>
    let (id, w1) := core_global_alink_id_next w
    let id_string := core_int2str id
    let w2 := _append_diag_data DM_DIAG_MSG_TYPE_REQ id w1
    let src := [some id_string, msg.data.xjt_event_post.time, msg.data.xjt_event_post.event_id,
                msg.data.xjt_event_post.params]
    match core_sprintf (some XJT_EVENT_POST) src w2 with
    | none => none
    | some (res, payload, w3) =>
      if res < 0 then some (res, w3)
      else
        match payload with
        | none => none
        | some payload =>
          let (res, w4) :=
            aiot_mqtt_pub handle.mqtt_handle (topic.map Buf.data) payload.data w3
          let w5 := core_sysdep_free payload.addr w4
          if STATE_SUCCESS = res then some (id, w5) else some (res, w5)

/-- The function `_dm_send_service_req(handle, topic, msg)`. -/
def _dm_send_service_req (handle : dm_handle_t) (topic : Option Buf)
    (msg : Option aiot_dm_msg_t) (w : World) : Option (Int × World) :=
  match msg with
  | none => some (STATE_DM_MSG_PARAMS_IS_NULL, w)
  | some msg =>
    let (id, w1) := core_global_alink_id_next w
    let id_string := core_int2str id
    let w2 := _append_diag_data DM_DIAG_MSG_TYPE_REQ id w1
    let src := [some id_string, msg.data.xjt_service_rep.code, msg.data.xjt_service_rep.params]
    match core_sprintf (some XJT_SERVICE_REPLY) src w2 with
    | none => none
    | some (res, payload, w3) =>
      if res < 0 then some (res, w3)
      else
        match payload with
        | none => none
        | some payload =>
          let (res, w4) :=
            aiot_mqtt_pub handle.mqtt_handle (topic.map Buf.data) payload.data w3
          let w5 := core_sysdep_free payload.addr w4
          if STATE_SUCCESS = res then some (id, w5) else some (res, w5)

/-- The function `_dm_send_alink_rsp(handle, topic, msg_id, code, data)`. -/
def _dm_send_alink_rsp (handle : dm_handle_t) (topic : Option Buf) (msg_id : Nat) (code : Nat)
    (data : Option (List Char)) (w : World) : Option (Int × World) :=
  match data with
  | none => some (STATE_DM_MSG_DATA_IS_NULL, w)
  | some data =>
    let id_string := core_uint2str msg_id
    let code_string := core_uint2str code
    let src := [some id_string, some code_string, some data]
    match core_sprintf (some ALINK_RESPONSE_FMT) src w with
    | none => none
    | some (res, payload, w1) =>
      if res < 0 then some (res, w1)
      else
        match payload with
        | none => none
        | some payload =>
          let (res, w2) :=
            aiot_mqtt_pub handle.mqtt_handle (topic.map Buf.data) payload.data w1
          let w3 := core_sysdep_free payload.addr w2
          some (res, w3)

/-- The function `_dm_send_get_reg_post`. -/
def _dm_send_get_reg_post (handle : dm_handle_t) (topic : Option Buf)
    (msg : Option aiot_dm_msg_t) (w : World) : Option (Int × World) :=
  _dm_send_reg_req handle topic msg w

/-- The function `_dm_send_property_post`. -/
def _dm_send_property_post (handle : dm_handle_t) (topic : Option Buf)
    (msg : Option aiot_dm_msg_t) (w : World) : Option (Int × World) :=
  _dm_send_prop_req handle topic msg w

/-- The function `_dm_send_event_post`. -/
def _dm_send_event_post (handle : dm_handle_t) (topic : Option Buf)
    (msg : Option aiot_dm_msg_t) (w : World) : Option (Int × World) :=
  _dm_send_event_req handle topic msg w

/-- The function `_dm_send_service_reply`. -/
def _dm_send_service_reply (handle : dm_handle_t) (topic : Option Buf)
    (msg : Option aiot_dm_msg_t) (w : World) : Option (Int × World) :=
  _dm_send_service_req handle topic msg w

/-- The function `_dm_send_property_set_reply`; it reads through `msg`
without a null test. -/
def _dm_send_property_set_reply (handle : dm_handle_t) (topic : Option Buf)
    (msg : Option aiot_dm_msg_t) (w : World) : Option (Int × World) :=
  match msg with
  | none => none
  | some msg =>
    _dm_send_alink_rsp handle topic msg.data.property_set_reply.msg_id
      msg.data.property_set_reply.code msg.data.property_set_reply.data w

/-- The function `_dm_send_property_batch_post`. -/
def _dm_send_property_batch_post (handle : dm_handle_t) (topic : Option Buf)
    (msg : Option aiot_dm_msg_t) (w : World) : Option (Int × World) :=
  _dm_send_prop_req handle topic msg w

/-- The type `dm_send_topic_map_t`: a topic template and an encode function,
either of which is null in an element without initialiser. -/
structure dm_send_topic_map_t where
  topic : Option (List Char)
  func : Option (dm_handle_t → Option Buf → Option aiot_dm_msg_t → World → Option (Int × World))

/-- The table `g_dm_send_topic_mapping[AIOT_DMMSG_MAX]`: six initialisers;
the elements after them are zero-initialised. -/
def g_dm_send_topic_mapping (i : Nat) : dm_send_topic_map_t :=
  match i with
  | 0 => { topic := some "/v1/device/up/getDeviceInfo/%s".toList, func := some _dm_send_get_reg_post }
  | 1 => { topic := some "/v1/device/up/datas/%s".toList, func := some _dm_send_property_post }
  | 2 => { topic := some "/v1/device/up/event/%s".toList, func := some _dm_send_event_post }
  | 3 => { topic := some "/v1/device/up/set_reply/%s".toList,
           func := some _dm_send_property_set_reply }
  | 4 => { topic := some "/v1/device/up/service_reply/%s".toList,
           func := some _dm_send_service_reply }
  | 5 => { topic := some "/v1/device/up/datas/%s".toList,
           func := some _dm_send_property_batch_post }
  | _ => { topic := none, func := none }

/-- The function `_dm_prepare_send_topic(dm_handle, msg, topic)`: the status,
the rendered topic stored through `topic`, and the new world. -/
def _dm_prepare_send_topic (E : DmMsgEnum) (dm_handle : dm_handle_t) (msg : aiot_dm_msg_t)
    (w : World) : Option (Int × Option Buf × World) :=
  let (missing, w1) :=
    match msg.device_name with
    | some _ => (false, w)
    | none =>
      let (d, w1) := core_mqtt_get_device_name dm_handle.mqtt_handle w
      (d.isNone, w1)
  if missing then some (STATE_USER_INPUT_MISSING_DEVICE_NAME, none, w1)
  else
    let (dn, w2) :=
      match msg.device_name with
      | some d => (some d, w1)
      | none => core_mqtt_get_device_name dm_handle.mqtt_handle w1
    let src : Option (List (Option (List Char))) :=
      if msg.type = E.AIOT_DMMSG_PROPERTY_POST ∨ msg.type = E.AIOT_DMMSG_PROPERTY_BATCH_POST ∨
         msg.type = E.AIOT_DMMSG_PROPERTY_SET_REPLY ∨ msg.type = E.AIOT_DMMSG_GET_DESIRED ∨
         msg.type = E.AIOT_DMMSG_DELETE_DESIRED ∨ msg.type = E.AIOT_DMMSG_RAW_DATA then some [dn]
      else if msg.type = E.AIOT_DMMSG_EVENT_POST then some [dn]
      else if msg.type = E.AIOT_DMMSG_ASYNC_SERVICE_REPLY then some [dn]
      else if msg.type = E.AIOT_DMMSG_SYNC_SERVICE_REPLY then some [dn]
      else if msg.type = E.AIOT_DMMSG_RAW_SERVICE_REPLY then some [dn]
      else none
    match src with
    | none => some (STATE_USER_INPUT_OUT_RANGE, none, w2)
    | some src => core_sprintf (g_dm_send_topic_mapping msg.type).topic src w2

/-- The function `aiot_dm_send(handle, msg)`. -/
def aiot_dm_send (E : DmMsgEnum) (handle : Option dm_handle_t) (msg : Option aiot_dm_msg_t)
    (w : World) : Option (Int × World) :=
  match handle, msg with
  | none, _ => some (STATE_USER_INPUT_NULL_POINTER, w)
  | _, none => some (STATE_USER_INPUT_NULL_POINTER, w)
  | some dm_handle, some m =>
    if m.type ≥ E.AIOT_DMMSG_MAX then some (STATE_USER_INPUT_OUT_RANGE, w)
    else
      match dm_handle.mqtt_handle with
      | none => some (STATE_DM_MQTT_HANDLE_IS_NULL, w)
      | some _ =>
        match _dm_prepare_send_topic E dm_handle m w with
        | none => none
        | some (res, topic, w1) =>
          if res < 0 then some (res, w1)
          else
            match (g_dm_send_topic_mapping m.type).func with
            | none => none
            | some func =>
              match func dm_handle topic msg w1 with
              | none => none
              | some (res, w2) =>
                match topic with
                | none => some (res, w2)
                | some t => some (res, core_sysdep_free t.addr w2)

/-- Specification side: the `<operation>` in the literal topic template
`/v1/device/up/<operation>/%s` of table entry `i`. -/
def send_operation : Nat → List Char
  | 0 => "getDeviceInfo".toList
  | 1 => "datas".toList
  | 2 => "event".toList
  | 3 => "set_reply".toList
  | 4 => "service_reply".toList
  | 5 => "datas".toList
  | _ => []

/-- Specification side: the message fields whose value the payload template
of table entry `m.type` takes; for the set-reply the id and the code enter as
their decimal text. -/
def required_fields (m : aiot_dm_msg_t) : List (Option (List Char)) :=
  match m.type with
  | 0 => [m.data.get_reg_post.time]
  | 1 => [m.data.property_post.params]
  | 2 => [m.data.xjt_event_post.time, m.data.xjt_event_post.event_id,
          m.data.xjt_event_post.params]
  | 3 => [some (core_uint2str m.data.property_set_reply.msg_id),
          some (core_uint2str m.data.property_set_reply.code), m.data.property_set_reply.data]
  | 4 => [m.data.xjt_service_rep.code, m.data.xjt_service_rep.params]
  | 5 => [m.data.property_post.params]
  | _ => []

/-! ## Transport events -/

/-- Modelled from the spec: the event kinds of `core_mqtt_event_t` the
handler tells apart: the transport's deinit, and any other. -/
inductive core_mqtt_event_type_t where
  | CORE_MQTTEVT_DEINIT
  | other
deriving DecidableEq

/-- The function `_dm_core_mqtt_process_handler(context, event, core_event)`;
`core_event` is `none` for a null pointer, else the event's `type`. -/
def _dm_core_mqtt_process_handler (dm_handle : dm_handle_t)
    (core_event : Option core_mqtt_event_type_t) : dm_handle_t :=
  match core_event with
  | none => dm_handle
  | some core_mqtt_event_type_t.CORE_MQTTEVT_DEINIT => { dm_handle with mqtt_handle := none }
  | some _ => dm_handle

/-! ## Observing a call through the trace -/

/-- The calls a step from `w` to `w1` added to the trace. -/
def newEvents (w w1 : World) : List Event := w1.trace.drop w.trace.length

/-- The statuses of the publishes among some events, in order. -/
def pubStatuses (es : List Event) : List Int :=
  es.filterMap (fun e => match e with
    | Event.mqtt_pub _ _ _ res => some res
    | _ => none)

/-- The topic and payload of the publishes among some events, in order. -/
def publishes (es : List Event) : List (Option (List Char) × List Char) :=
  es.filterMap (fun e => match e with
    | Event.mqtt_pub _ topic payload _ => some (topic, payload)
    | _ => none)

/-- The ids drawn from the generator among some events, in order. -/
def drawnIds (es : List Event) : List Int :=
  es.filterMap (fun e => match e with
    | Event.alink_id_next id => some id
    | _ => none)

/-- The addresses returned by the allocations among some events, in order
(`none` for a failed allocation). -/
def allocations (es : List Event) : List (Option Nat) :=
  es.filterMap (fun e => match e with
    | Event.malloc _ addr => some addr
    | _ => none)

/-- A run of sends, one after the other, on one world. -/
def aiot_dm_send_all (E : DmMsgEnum) :
    List (Option dm_handle_t × Option aiot_dm_msg_t) → World → Option World
  | [], w => some w
  | (handle, msg) :: rest, w =>
    match aiot_dm_send E handle msg w with
    | none => none
    | some (_, w1) => aiot_dm_send_all E rest w1

/-! ## Concrete inputs -/

/-- A world whose allocator and transport never fail. -/
def World.init : World :=
  { alink_id := 0, alloc_plan := [], pub_plan := [], next_addr := 0, trace := [] }

/-- A transport whose default device name is `devA`. -/
def sample_transport : MqttHandle := { id := 7, device_name := some "devA".toList }

/-- A context attached to `sample_transport`. -/
def sample_handle : dm_handle_t :=
  { mqtt_handle := some sample_transport, recv_handler := none, userdata := none,
    post_reply := 1 }

/-- Message data with every field present. -/
def sample_data : dm_msg_data :=
  { get_reg_post := { time := some "1700000000".toList }
    property_post := { params := some "\x7b\"temp\":21\x7d".toList }
    xjt_event_post := { time := some "1700000000".toList, event_id := some "alarm".toList,
                        params := some "\x7b\x7d".toList }
    xjt_service_rep := { code := some "200".toList, params := some "ok".toList }
    property_set_reply := { msg_id := 42, code := 200, data := some "\x7b\x7d".toList } }

/-- A message of tag `t` without device-name override. -/
def sample_msg (t : Nat) : aiot_dm_msg_t :=
  { device_name := none, type := t, data := sample_data }

/-- A property post whose `params` pointer is null. -/
def null_params_msg : aiot_dm_msg_t :=
  { device_name := none, type := DmMsgEnum.sample.AIOT_DMMSG_PROPERTY_POST,
    data := { sample_data with property_post := { params := none } } }

/-- The world a send leaves behind (the world it started from when the send
is undefined). -/
def world_after_send (E : DmMsgEnum) (h : dm_handle_t) (m : aiot_dm_msg_t) (w : World) : World :=
  match aiot_dm_send E (some h) (some m) w with
  | some (_, w1) => w1
  | none => w

/-- A world in which the second publish fails with status `-3`. -/
def sample_w0 : World := { World.init with pub_plan := [0, -3, 0] }

/-- The world after a property post sent from `sample_w0`. -/
def sample_w1 : World := world_after_send DmMsgEnum.sample sample_handle (sample_msg 1) sample_w0

/-- The world after an event post sent from `sample_w1`. -/
def sample_w2 : World := world_after_send DmMsgEnum.sample sample_handle (sample_msg 2) sample_w1

/-- The world after a batch post sent from `sample_w2`. -/
def sample_w3 : World := world_after_send DmMsgEnum.sample sample_handle (sample_msg 5) sample_w2

/-- The world after the query `core_mqtt_get_device_name(handle)`. -/
def queried (mqtt_handle : Option MqttHandle) (w : World) : World :=
  { w with trace := w.trace ++ [Event.get_device_name (mqtt_handle.map (fun h => h.id))] }

/-- The common body of the four request encoders `_dm_send_reg_req`,
`_dm_send_prop_req`, `_dm_send_event_req` and `_dm_send_service_req`, which
differ in the payload template and in the message fields that follow the id. -/
def send_req_common (tpl : List Char) (fields : List (Option (List Char))) (handle : dm_handle_t)
    (topic : Option Buf) (w : World) : Option (Int × World) :=
  let (id, w1) := core_global_alink_id_next w
  let id_string := core_int2str id
  let w2 := _append_diag_data DM_DIAG_MSG_TYPE_REQ id w1
  match core_sprintf (some tpl) (some id_string :: fields) w2 with
  | none => none
  | some (res, payload, w3) =>
    if res < 0 then some (res, w3)
    else
      match payload with
      | none => none
      | some payload =>
        let (res, w4) := aiot_mqtt_pub handle.mqtt_handle (topic.map Buf.data) payload.data w3
        let w5 := core_sysdep_free payload.addr w4
        if STATE_SUCCESS = res then some (id, w5) else some (res, w5)

/-! ## Inbound messages -/

/-- The constant `ALINK_JSON_KEY_ID`. -/
def ALINK_JSON_KEY_ID : List Char := "id".toList

/-- The constant `ALINK_JSON_KEY_CODE`. -/
def ALINK_JSON_KEY_CODE : List Char := "code".toList

/-- The constant `ALINK_JSON_KEY_DATA`. -/
def ALINK_JSON_KEY_DATA : List Char := "data".toList

/-- The constant `ALINK_JSON_KEY_MESSAGE`. -/
def ALINK_JSON_KEY_MESSAGE : List Char := "message".toList

/-- The constant `XJT_JSON_KEY_ID`. -/
def XJT_JSON_KEY_ID : List Char := "id".toList

/-- The constant `XJT_JSON_KEY_DEV_INFO`. -/
def XJT_JSON_KEY_DEV_INFO : List Char := "deviceInfos".toList

/-- The constant `XJT_JSON_KEY_SERVICE_ID`. -/
def XJT_JSON_KEY_SERVICE_ID : List Char := "serviceId".toList

/-- The constant `XJT_JSON_KEY_EID`. -/
def XJT_JSON_KEY_EID : List Char := "eid".toList

/-- The constant `XJT_JSON_KEY_PARAMS`. -/
def XJT_JSON_KEY_PARAMS : List Char := "params".toList

/-- The constant `XJT_JSON_KEY_IDENTIFIER`. -/
def XJT_JSON_KEY_IDENTIFIER : List Char := "identifier".toList

/-- The constant `XJT_JSON_KEY_DATA`. -/
def XJT_JSON_KEY_DATA : List Char := "data".toList

/-- Modelled from the spec: the text that follows the first `"key":` of a
payload, when the payload holds that key. -/
def json_after_key (key : List Char) : List Char → Option (List Char)
  | [] => none
  | c :: t =>
    if ('"' :: (key ++ ['"', ':'])).isPrefixOf (c :: t) then
      some ((c :: t).drop (key.length + 3))
    else json_after_key key t

/-- Modelled from the spec: a bracketed value, from its opening bracket to
the bracket that closes it; `d` is the number of brackets open. -/
def json_balanced : Nat → List Char → List Char
  | _, [] => []
  | d, c :: t =>
    if c = '\x7b' ∨ c = '[' then c :: json_balanced (d + 1) t
    else if c = '\x7d' ∨ c = ']' then (if d ≤ 1 then [c] else c :: json_balanced (d - 1) t)
    else c :: json_balanced d t

/-- Modelled from the spec: the value that starts a text: the content of a
quoted string without its quotes, a bracketed value with its brackets, or a
bare scalar up to the next separator. -/
def json_value_at : List Char → Option (List Char)
  | [] => none
  | c :: t =>
    if c = '"' then some (t.takeWhile (fun x => x != '"'))
    else if c = '\x7b' ∨ c = '[' then some (json_balanced 0 (c :: t))
    else some ((c :: t).takeWhile (fun x => x != ',' && x != '\x7d' && x != ']'))

/-- Modelled from the spec: the field store accessor `lookup(payload, key) ->
(value, status)` (`core_json_value`, absent from the sources), on the first
`input_len` characters of the payload: the status is zero and the value is
set when the key is found, and the status is negative otherwise.  The length
stored with the value is the length of the list. -/
def core_json_value (input : List Char) (input_len : Nat) (key : List Char) :
    Int × Option (List Char) :=
  match (json_after_key key (input.take input_len)).bind json_value_at with
  | some v => (STATE_SUCCESS, some v)
  | none => (STATE_USER_INPUT_JSON_PARSE_FAILED, none)

/-- Modelled from the spec: the digits of a decimal text folded into a value
of `bits` bits; `none` at a character that is not a decimal digit. -/
def str2uint_loop (bits : Nat) : List Char → Nat → Option Nat
  | [], acc => some acc
  | c :: t, acc =>
    if 48 ≤ c.toNat ∧ c.toNat ≤ 57 then
      str2uint_loop bits t ((acc * 10 + (c.toNat - 48)) % 2 ^ bits)
    else none

/-- Specification side: the number a decimal text denotes, read after the
digits already folded into `acc`. -/
def decimal_value (digits : List Char) (acc : Nat) : Nat :=
  digits.foldl (fun a c => a * 10 + (c.toNat - 48)) acc

/-- Modelled from the spec: conversion of a numeric field from its textual
form to a `uint32_t` (`core_str2uint`, absent from the sources): the status
and the value stored through the output pointer. -/
def core_str2uint (input : List Char) : Int × Nat :=
  match str2uint_loop 32 input 0 with
  | some n => (STATE_SUCCESS, n)
  | none => (STATE_USER_INPUT_OUT_RANGE, 0)

/-- Modelled from the spec: conversion of a numeric field from its textual
form to a `uint64_t` (`core_str2uint64`, absent from the sources). -/
def core_str2uint64 (input : List Char) : Int × Nat :=
  match str2uint_loop 64 input 0 with
  | some n => (STATE_SUCCESS, n)
  | none => (STATE_USER_INPUT_OUT_RANGE, 0)

/-- The fields of `msg->data.pub` of the transport's `aiot_mqtt_recv_t` that
the handlers read. -/
structure aiot_mqtt_recv_t where
  topic : List Char
  topic_len : Nat
  payload : List Char
  payload_len : Nat
deriving DecidableEq

/-- The state of `recv` after `memset(&recv, 0, sizeof(aiot_dm_recv_t))` and
the assignment of `recv.type`. -/
def aiot_dm_recv_t.zero (type : aiot_dm_recv_type_t) : aiot_dm_recv_t :=
  { type := type, product_key := none, device_name := none,
    data :=
      { register_info := { msg_id := 0, params := none, params_len := 0 }
        generic_reply := { msg_id := 0, code := 0, data := none, data_len := 0,
                           message := none, message_len := 0 }
        xjt_property := { msg_id := 0, serviceId := none, eid := none, params := none,
                          params_len := 0 }
        service_down := { msg_id := 0, identifier := none, params := none,
                          params_len := 0 } } }

/-- The macro `DM_FREE(ptr)`: a non-null pointer is released. -/
def DM_FREE (ptr : Option Buf) (w : World) : World :=
  match ptr with
  | some b => core_sysdep_free b.addr w
  | none => w

/-- The macro `DM_FREE(ptr)` on a pointer that holds the place of a value in
the payload: when it is not null, `core_sysdep_free` is called with it. -/
def DM_FREE_payload_ptr (ptr : Option (List Char)) (w : World) : World :=
  match ptr with
  | some text => { w with trace := w.trace ++ [Event.free_payload_ptr text] }
  | none => w

/-- Modelled from the spec: the registered callback is code of the
application; of the call `dm_handle->recv_handler(dm_handle, &recv,
dm_handle->userdata)` the trace keeps the callback, the decoded message as it
is at the call, and the user data. -/
def recv_handler_call (callback : Nat) (recv : aiot_dm_recv_t) (userdata : Option Nat)
    (w : World) : World :=
  { w with trace := w.trace ++ [Event.recv_handler callback recv userdata] }

/-- The value an `int32_t` parameter takes from a `uint32_t` argument. -/
def int32_of_uint32 (u : Nat) : Int :=
  if u < 2147483648 then (u : Int) else (u : Int) - 4294967296

/-- The function `_dm_parse_xjt_prop_request(payload, payload_len, msg_id,
se_id, eid, params, params_len)`: the status and the fields of `out` as the
stores through the five output pointers leave them. -/
def _dm_parse_xjt_prop_request (payload : List Char) (payload_len : Nat)
    (out : dm_recv_xjt_property) : Int × dm_recv_xjt_property :=
  let r := core_json_value payload payload_len XJT_JSON_KEY_ID
  if r.1 < 0 then (r.1, out)
  else
    let n := core_str2uint64 (r.2.getD [])
    if n.1 < 0 then (n.1, out)
    else
      let out := { out with msg_id := n.2 }
      let r := core_json_value payload payload_len XJT_JSON_KEY_SERVICE_ID
      if r.1 < 0 then (r.1, out)
      else
        let out := { out with serviceId := r.2 }
        let r := core_json_value payload payload_len XJT_JSON_KEY_EID
        if r.1 < 0 then (r.1, out)
        else
          let out := { out with eid := r.2 }
          let r := core_json_value payload payload_len XJT_JSON_KEY_PARAMS
          if r.1 < 0 then (r.1, out)
          else (r.1, { out with params := r.2, params_len := (r.2.getD []).length })

/-- The function `_dm_parse_xjt_service_request(payload, payload_len, msg_id,
ident, params, params_len)`. -/
def _dm_parse_xjt_service_request (payload : List Char) (payload_len : Nat)
    (out : dm_recv_service_down) : Int × dm_recv_service_down :=
  let r := core_json_value payload payload_len XJT_JSON_KEY_ID
  if r.1 < 0 then (r.1, out)
  else
    let n := core_str2uint64 (r.2.getD [])
    if n.1 < 0 then (n.1, out)
    else
      let out := { out with msg_id := n.2 }
      let r := core_json_value payload payload_len XJT_JSON_KEY_IDENTIFIER
      if r.1 < 0 then (r.1, out)
      else
        let out := { out with identifier := r.2 }
        let r := core_json_value payload payload_len XJT_JSON_KEY_DATA
        if r.1 < 0 then (r.1, out)
        else (r.1, { out with params := r.2, params_len := (r.2.getD []).length })

/-- The function `_dm_recv_register_handler(handle, msg, userdata)`, with
`userdata` the context.  The result is the context and the world after the
call.  `recv` is a local of the function: what is stored in it before an
abort is seen by nobody, and the calls to `core_log` are not traced. -/
def _dm_recv_register_handler (msg : aiot_mqtt_recv_t) (dm_handle : dm_handle_t) (w : World) :
    Option (dm_handle_t × World) :=
  match dm_handle.recv_handler with
  | none => some (dm_handle, w)
  | some recv_handler =>
    let recv := aiot_dm_recv_t.zero aiot_dm_recv_type_t.AIOT_DMRECV_REGISTER_INFO
    match _dm_get_topic_level msg.topic msg.topic_len 5 w with
    | none => none
    | some (res, level_name, w1) =>
      let recv := { recv with device_name := level_name }
      let w2 :=
        if res < 0 then w1
        else
          let r := core_json_value msg.payload msg.payload_len XJT_JSON_KEY_ID
          if r.1 < 0 then w1
          else
            let n := core_str2uint (r.2.getD [])
            if n.1 < 0 then w1
            else
              let p := core_json_value msg.payload msg.payload_len XJT_JSON_KEY_DEV_INFO
              let info : dm_recv_register_info :=
                if p.1 ≠ STATE_SUCCESS then { msg_id := n.2, params := none, params_len := 0 }
                else { msg_id := n.2, params := p.2, params_len := (p.2.getD []).length }
              let recv := { recv with data := { recv.data with register_info := info } }
              let w2 := _append_diag_data DM_DIAG_MSG_TYPE_RSP (int32_of_uint32 info.msg_id) w1
              recv_handler_call recv_handler recv dm_handle.userdata w2
      some (dm_handle, DM_FREE recv.device_name w2)

/-- The function `_dm_recv_generic_reply_handler(handle, msg, userdata)`. -/
def _dm_recv_generic_reply_handler (msg : aiot_mqtt_recv_t) (dm_handle : dm_handle_t)
    (w : World) : Option (dm_handle_t × World) :=
  match dm_handle.recv_handler with
  | none => some (dm_handle, w)
  | some recv_handler =>
    let recv := aiot_dm_recv_t.zero aiot_dm_recv_type_t.AIOT_DMRECV_GENERIC_REPLY
    match _dm_get_topic_level msg.topic msg.topic_len 2 w with
    | none => none
    | some (res, level_name, w1) =>
      let recv := { recv with product_key := level_name }
      if res < 0 then some (dm_handle, DM_FREE recv.device_name (DM_FREE recv.product_key w1))
      else
        match _dm_get_topic_level msg.topic msg.topic_len 3 w1 with
        | none => none
        | some (res, level_name, w2) =>
          let recv := { recv with device_name := level_name }
          let w3 :=
            if res < 0 then w2
            else
              let r := core_json_value msg.payload msg.payload_len ALINK_JSON_KEY_ID
              if r.1 < 0 then w2
              else
                let n := core_str2uint (r.2.getD [])
                if n.1 < 0 then w2
                else
                  let r := core_json_value msg.payload msg.payload_len ALINK_JSON_KEY_CODE
                  if r.1 < 0 then w2
                  else
                    let c := core_str2uint (r.2.getD [])
                    if c.1 < 0 then w2
                    else
                      let d := core_json_value msg.payload msg.payload_len ALINK_JSON_KEY_DATA
                      if d.1 < 0 then w2
                      else
                        let p := core_json_value msg.payload msg.payload_len
                          ALINK_JSON_KEY_MESSAGE
                        let reply : dm_recv_generic_reply :=
                          if p.1 ≠ STATE_SUCCESS then
                            { msg_id := n.2, code := c.2, data := d.2,
                              data_len := (d.2.getD []).length, message := none,
                              message_len := 0 }
                          else
                            { msg_id := n.2, code := c.2, data := d.2,
                              data_len := (d.2.getD []).length, message := p.2,
                              message_len := (p.2.getD []).length }
                        let recv := { recv with data := { recv.data with generic_reply := reply } }
                        let w3 := _append_diag_data DM_DIAG_MSG_TYPE_RSP
                          (int32_of_uint32 reply.msg_id) w2
                        recv_handler_call recv_handler recv dm_handle.userdata w3
          some (dm_handle, DM_FREE recv.device_name (DM_FREE recv.product_key w3))

/-- The function `_dm_recv_property_set_handler(handle, msg, userdata)`. -/
def _dm_recv_property_set_handler (msg : aiot_mqtt_recv_t) (dm_handle : dm_handle_t)
    (w : World) : Option (dm_handle_t × World) :=
  match dm_handle.recv_handler with
  | none => some (dm_handle, w)
  | some recv_handler =>
    let recv := aiot_dm_recv_t.zero aiot_dm_recv_type_t.AIOT_DMRECV_PROPERTY_SET
    match _dm_get_topic_level msg.topic msg.topic_len 5 w with
    | none => none
    | some (res, level_name, w1) =>
      let recv := { recv with device_name := level_name }
      let w2 :=
        if res < 0 then w1
        else
          let r := _dm_parse_xjt_prop_request msg.payload msg.payload_len recv.data.xjt_property
          let recv := { recv with data := { recv.data with xjt_property := r.2 } }
          if r.1 < 0 then w1
          else recv_handler_call recv_handler recv dm_handle.userdata w1
      some (dm_handle, DM_FREE recv.device_name w2)

/-- The function `_dm_recv_async_service_invoke_handler(handle, msg,
userdata)`.  The pointer `recv.data.async_service_invoke.service_id` released
at the end lies on `recv.data.service_down.identifier`, which the payload
parser has set to the place of the value in the payload when it found the
field, also when it fails at a later field. -/
def _dm_recv_async_service_invoke_handler (msg : aiot_mqtt_recv_t) (dm_handle : dm_handle_t)
    (w : World) : Option (dm_handle_t × World) :=
  match dm_handle.recv_handler with
  | none => some (dm_handle, w)
  | some recv_handler =>
    let recv := aiot_dm_recv_t.zero aiot_dm_recv_type_t.AIOT_DMRECV_ASYNC_SERVICE_INVOKE
    match _dm_get_topic_level msg.topic msg.topic_len 5 w with
    | none => none
    | some (res, level_name, w1) =>
      let recv := { recv with device_name := level_name }
      let q : aiot_dm_recv_t × World :=
        if res < 0 then (recv, w1)
        else
          let r := _dm_parse_xjt_service_request msg.payload msg.payload_len
            recv.data.service_down
          let recv := { recv with data := { recv.data with service_down := r.2 } }
          if r.1 < 0 then (recv, w1)
          else (recv, recv_handler_call recv_handler recv dm_handle.userdata w1)
      some (dm_handle,
        DM_FREE_payload_ptr q.1.data.async_service_invoke_service_id
          (DM_FREE q.1.device_name q.2))

/-- The type `dm_recv_topic_map_t`: a subscription pattern and its handler. -/
structure dm_recv_topic_map_t where
  topic : List Char
  func : aiot_mqtt_recv_t → dm_handle_t → World → Option (dm_handle_t × World)

/-- The table `g_dm_recv_topic_mapping[]`. -/
def g_dm_recv_topic_mapping : List dm_recv_topic_map_t :=
  [ { topic := "/v1/device/down/registerInfo/%s".toList, func := _dm_recv_register_handler },
    { topic := "/v1/device/down/set/%s".toList, func := _dm_recv_property_set_handler },
    { topic := "/v1/device/down/service/%s".toList,
      func := _dm_recv_async_service_invoke_handler },
    { topic := "/v1/device/down/event_reply/%s".toList,
      func := _dm_recv_generic_reply_handler } ]

/-- The transport delivering the message `msg` to the handler of element `i`
of `g_dm_recv_topic_mapping`, registered with the context as user data. -/
def dm_recv_deliver (i : Nat) (msg : aiot_mqtt_recv_t) (dm_handle : dm_handle_t) (w : World) :
    Option (dm_handle_t × World) :=
  match g_dm_recv_topic_mapping[i]? with
  | some e => e.func msg dm_handle w
  | none => none

/-- Specification side: the payload of `msg` holds the field `key`. -/
def field_present (msg : aiot_mqtt_recv_t) (key : List Char) : Bool :=
  decide (0 ≤ (core_json_value msg.payload msg.payload_len key).1)

/-- Specification side: the text of the field `key` of the payload, empty
when the field is absent. -/
def field_text (msg : aiot_mqtt_recv_t) (key : List Char) : List Char :=
  (core_json_value msg.payload msg.payload_len key).2.getD []

/-- Specification side: the field `key` is present and converts to a
`uint32_t`. -/
def field_uint32 (msg : aiot_mqtt_recv_t) (key : List Char) : Bool :=
  field_present msg key && decide (0 ≤ (core_str2uint (field_text msg key)).1)

/-- Specification side: the field `key` is present and converts to a
`uint64_t`. -/
def field_uint64 (msg : aiot_mqtt_recv_t) (key : List Char) : Bool :=
  field_present msg key && decide (0 ≤ (core_str2uint64 (field_text msg key)).1)

/-- Specification side: the value of a field as the decoded message carries
it: the value found, a null pointer when the accessor does not succeed. -/
def field_value (msg : aiot_mqtt_recv_t) (key : List Char) : Option (List Char) :=
  if (core_json_value msg.payload msg.payload_len key).1 = STATE_SUCCESS then
    (core_json_value msg.payload msg.payload_len key).2
  else none

/-- Specification side: every field that the handler of element `i` of
`g_dm_recv_topic_mapping` requires is in the payload and, for ids and status
codes, converts to a number: id for register-info (0); id, serviceId, eid and
params for property-set (1); id, identifier and data for service-invoke (2);
id, code and data for generic-reply (3). -/
def recv_required_decode (i : Nat) (msg : aiot_mqtt_recv_t) : Bool :=
  match i with
  | 0 => field_uint32 msg XJT_JSON_KEY_ID
  | 1 => field_uint64 msg XJT_JSON_KEY_ID && field_present msg XJT_JSON_KEY_SERVICE_ID &&
         field_present msg XJT_JSON_KEY_EID && field_present msg XJT_JSON_KEY_PARAMS
  | 2 => field_uint64 msg XJT_JSON_KEY_ID && field_present msg XJT_JSON_KEY_IDENTIFIER &&
         field_present msg XJT_JSON_KEY_DATA
  | 3 => field_uint32 msg ALINK_JSON_KEY_ID && field_uint32 msg ALINK_JSON_KEY_CODE &&
         field_present msg ALINK_JSON_KEY_DATA
  | _ => false

/-- Specification side: the kind of decoded message the handler of element
`i` of `g_dm_recv_topic_mapping` builds. -/
def recv_kind (i : Nat) : aiot_dm_recv_type_t :=
  match i with
  | 0 => aiot_dm_recv_type_t.AIOT_DMRECV_REGISTER_INFO
  | 1 => aiot_dm_recv_type_t.AIOT_DMRECV_PROPERTY_SET
  | 2 => aiot_dm_recv_type_t.AIOT_DMRECV_ASYNC_SERVICE_INVOKE
  | _ => aiot_dm_recv_type_t.AIOT_DMRECV_GENERIC_REPLY

/-- Specification side: the fully constructed decoded message of kind `i`
for the payload of `msg`, with the strings recovered from the topic: the id
(and status code) converted from text, the required fields as found, and an
optional field (`deviceInfos`, `message`) as found or null with length 0. -/
def recv_decoded (i : Nat) (msg : aiot_mqtt_recv_t) (product_key device_name : Option Buf) :
    aiot_dm_recv_t :=
  let z := aiot_dm_recv_t.zero (recv_kind i)
  match i with
  | 0 =>
    { z with
      device_name := device_name
      data := { z.data with
        register_info :=
          { msg_id := (core_str2uint (field_text msg XJT_JSON_KEY_ID)).2
            params := field_value msg XJT_JSON_KEY_DEV_INFO
            params_len := ((field_value msg XJT_JSON_KEY_DEV_INFO).getD []).length } } }
  | 1 =>
    { z with
      device_name := device_name
      data := { z.data with
        xjt_property :=
          { msg_id := (core_str2uint64 (field_text msg XJT_JSON_KEY_ID)).2
            serviceId := field_value msg XJT_JSON_KEY_SERVICE_ID
            eid := field_value msg XJT_JSON_KEY_EID
            params := field_value msg XJT_JSON_KEY_PARAMS
            params_len := ((field_value msg XJT_JSON_KEY_PARAMS).getD []).length } } }
  | 2 =>
    { z with
      device_name := device_name
      data := { z.data with
        service_down :=
          { msg_id := (core_str2uint64 (field_text msg XJT_JSON_KEY_ID)).2
            identifier := field_value msg XJT_JSON_KEY_IDENTIFIER
            params := field_value msg XJT_JSON_KEY_DATA
            params_len := ((field_value msg XJT_JSON_KEY_DATA).getD []).length } } }
  | _ =>
    { z with
      product_key := product_key
      device_name := device_name
      data := { z.data with
        generic_reply :=
          { msg_id := (core_str2uint (field_text msg ALINK_JSON_KEY_ID)).2
            code := (core_str2uint (field_text msg ALINK_JSON_KEY_CODE)).2
            data := field_value msg ALINK_JSON_KEY_DATA
            data_len := ((field_value msg ALINK_JSON_KEY_DATA).getD []).length
            message := field_value msg ALINK_JSON_KEY_MESSAGE
            message_len := ((field_value msg ALINK_JSON_KEY_MESSAGE).getD []).length } } }

/-- Specification side: the pointer `identifier` as the payload parser of the
service-invoke handler leaves it: the place of the value of `identifier` in
the payload once the id is decoded and the field is found, also when `data`
is missing after it; null otherwise. -/
def recv_identifier_ptr (msg : aiot_mqtt_recv_t) : Option (List Char) :=
  if field_uint64 msg XJT_JSON_KEY_ID then field_value msg XJT_JSON_KEY_IDENTIFIER else none

/-- Specification side: the topic levels the handler of element `i` of
`g_dm_recv_topic_mapping` asks of the topic parser, in order: levels 2 and 3
for generic-reply (3), level 5 for the others. -/
def recv_topic_levels (i : Nat) : List Nat :=
  match i with
  | 3 => [2, 3]
  | _ => [5]

/-- Specification side: the response records the handler of element `i`
appends for a message it delivers: one, of type response and carrying the
message id, for register-info (0) and generic-reply (3); none for
property-set (1) and service-invoke (2). -/
def recv_diag (i : Nat) (msg : aiot_mqtt_recv_t) : List (List Nat) :=
  match i with
  | 0 => [diag_record DM_DIAG_MSG_TYPE_RSP
            (int32_of_uint32 (core_str2uint (field_text msg XJT_JSON_KEY_ID)).2)]
  | 3 => [diag_record DM_DIAG_MSG_TYPE_RSP
            (int32_of_uint32 (core_str2uint (field_text msg ALINK_JSON_KEY_ID)).2)]
  | _ => []

/-- The callback invocations among some events, in order. -/
def callbacks (es : List Event) : List (Nat × aiot_dm_recv_t × Option Nat) :=
  es.filterMap (fun e => match e with
    | Event.recv_handler callback recv userdata => some (callback, recv, userdata)
    | _ => none)

/-- The records forwarded to the diagnostic sink among some events, in order. -/
def diagRecords (es : List Event) : List (List Nat) :=
  es.filterMap (fun e => match e with
    | Event.diag data => some data
    | _ => none)

/-- The diagnostic records and callback invocations among some events, in the
order they were made. -/
def deliveries (es : List Event) : List Event :=
  es.filter (fun e => match e with
    | Event.diag _ => true
    | Event.recv_handler _ _ _ => true
    | _ => false)

/-! ## Configuration and teardown -/

/-- The values of the enumeration `aiot_dm_option_t`.  The header that
declares it is absent, so the values are a parameter. -/
structure DmOptEnum where
  AIOT_DMOPT_MQTT_HANDLE : Nat
  AIOT_DMOPT_RECV_HANDLER : Nat
  AIOT_DMOPT_USERDATA : Nat
  AIOT_DMOPT_POST_REPLY : Nat
  AIOT_DMOPT_MAX : Nat
deriving DecidableEq

/-- The labels of the `switch` of `aiot_dm_setopt`, in the order of the source. -/
def DmOptEnum.caseLabels (O : DmOptEnum) : List Nat :=
  [O.AIOT_DMOPT_MQTT_HANDLE, O.AIOT_DMOPT_RECV_HANDLER, O.AIOT_DMOPT_USERDATA,
   O.AIOT_DMOPT_POST_REPLY]

/-- What C and the name `AIOT_DMOPT_MAX` require of the values: the case
labels are distinct and below `AIOT_DMOPT_MAX`. -/
def DmOptEnum.wf (O : DmOptEnum) : Prop :=
  O.caseLabels.Nodup ∧ ∀ t ∈ O.caseLabels, t < O.AIOT_DMOPT_MAX

instance (O : DmOptEnum) : Decidable O.wf := by
  unfold DmOptEnum.wf
  infer_instance

/-- A numbering of the options, for concrete runs. -/
def DmOptEnum.sample : DmOptEnum :=
  { AIOT_DMOPT_MQTT_HANDLE := 0, AIOT_DMOPT_RECV_HANDLER := 1, AIOT_DMOPT_USERDATA := 2,
    AIOT_DMOPT_POST_REPLY := 3, AIOT_DMOPT_MAX := 4 }

/-- The argument `void *data` of `aiot_dm_setopt` when it is not null, under
the readings the function makes of it: the pointer itself (stored as the
callback or as the user data), the transport it is the handle of, and the
`uint8_t` it points to. -/
structure dm_opt_data where
  ptr : Nat
  mqtt : MqttHandle
  uint8 : Nat
deriving DecidableEq

/-- Modelled from the spec: `registerPattern(pattern, handler)` and
`deregisterPattern(pattern)` of the transport (`aiot_mqtt_setopt` with the
options `AIOT_MQTTOPT_APPEND_TOPIC_MAP` and `AIOT_MQTTOPT_REMOVE_TOPIC_MAP`);
the status is the one the plan holds for this call. -/
def aiot_mqtt_setopt (mqtt_handle : Option MqttHandle) (append : Bool) (topic : List Char)
    (handler : Nat) (userdata : Bool) (w : World) : Int × World :=
  let res := w.pub_plan.headD STATE_SUCCESS
  (res, { w with pub_plan := w.pub_plan.tail,
                 trace := w.trace ++
                   [Event.topic_map (mqtt_handle.map (fun h => h.id)) append topic handler
                     userdata res] })

/-- Modelled from the spec: the transport's registration of a process
handler (`core_mqtt_setopt` with `CORE_MQTTOPT_APPEND_PROCESS_HANDLER` or
`CORE_MQTTOPT_REMOVE_PROCESS_HANDLER`). -/
def core_mqtt_setopt (mqtt_handle : Option MqttHandle) (append : Bool) (w : World) :
    Int × World :=
  let res := w.pub_plan.headD STATE_SUCCESS
  (res, { w with pub_plan := w.pub_plan.tail,
                 trace := w.trace ++
                   [Event.process_handler (mqtt_handle.map (fun h => h.id)) append res] })

/-- The loop of `_dm_setup_topic_mapping` from element `i` of the table on,
with `res` the value of the local of that name.  The status of `core_sprintf`
is not looked at; when it stores no string, `topic_mapping.topic` is
indeterminate (`none`). -/
def _dm_setup_topic_mapping_loop (mqtt_handle : Option MqttHandle) (dn : List Char) :
    List dm_recv_topic_map_t → Nat → Int → World → Option (Int × World)
  | [], _, res, w => some (res, w)
  | e :: rest, i, _, w =>
    match core_sprintf (some e.topic) [some dn] w with
    | none => none
    | some (_, topic, w1) =>
      match topic with
      | none => none
      | some t =>
        let r := aiot_mqtt_setopt mqtt_handle true t.data i true w1
        if r.1 < 0 then some (r.1, r.2)
        else _dm_setup_topic_mapping_loop mqtt_handle dn rest (i + 1) r.1 r.2

/-- The function `_dm_setup_topic_mapping(mqtt_handle, dm_handle)`. -/
def _dm_setup_topic_mapping (mqtt_handle : Option MqttHandle) (dm_handle : dm_handle_t)
    (w : World) : Option (Int × World) :=
  let q := core_mqtt_get_device_name dm_handle.mqtt_handle w
  match q.1 with
  | none => some (STATE_USER_INPUT_MISSING_DEVICE_NAME, q.2)
  | some dn => _dm_setup_topic_mapping_loop mqtt_handle dn g_dm_recv_topic_mapping 0
      STATE_SUCCESS q.2

/-- The function `_dm_core_mqtt_operate_process_handler(dm_handle, option)`;
`append` tells `CORE_MQTTOPT_APPEND_PROCESS_HANDLER` from
`CORE_MQTTOPT_REMOVE_PROCESS_HANDLER`. -/
def _dm_core_mqtt_operate_process_handler (dm_handle : dm_handle_t) (append : Bool)
    (w : World) : Int × World :=
  core_mqtt_setopt dm_handle.mqtt_handle append w

/-- The function `aiot_dm_setopt(handle, option, data)`: the status, the
context after the call and the new world. -/
def aiot_dm_setopt (O : DmOptEnum) (handle : Option dm_handle_t) (option : Nat)
    (data : Option dm_opt_data) (w : World) : Option (Int × Option dm_handle_t × World) :=
  match handle, data with
  | none, _ => some (STATE_USER_INPUT_NULL_POINTER, handle, w)
  | _, none => some (STATE_USER_INPUT_NULL_POINTER, handle, w)
  | some dm_handle, some d =>
    if option ≥ O.AIOT_DMOPT_MAX then some (STATE_USER_INPUT_OUT_RANGE, handle, w)
    else if option = O.AIOT_DMOPT_MQTT_HANDLE then
      let dm_handle := { dm_handle with mqtt_handle := some d.mqtt }
      match _dm_setup_topic_mapping (some d.mqtt) dm_handle w with
      | none => none
      | some (res, w1) =>
        if res ≥ STATE_SUCCESS then
          let r := _dm_core_mqtt_operate_process_handler dm_handle true w1
          some (r.1, some dm_handle, r.2)
        else some (res, some dm_handle, w1)
    else if option = O.AIOT_DMOPT_RECV_HANDLER then
      some (STATE_SUCCESS, some { dm_handle with recv_handler := some d.ptr }, w)
    else if option = O.AIOT_DMOPT_USERDATA then
      some (STATE_SUCCESS, some { dm_handle with userdata := some d.ptr }, w)
    else if option = O.AIOT_DMOPT_POST_REPLY then
      some (STATE_SUCCESS, some { dm_handle with post_reply := d.uint8 % 256 }, w)
    else some (STATE_SUCCESS, some dm_handle, w)

/-- The loop of `aiot_dm_deinit` from element `i` of the table on:
`topic_mapping` is zeroed, then given the `topic` and the `func` of the
element. -/
def aiot_dm_deinit_loop (mqtt_handle : Option MqttHandle) :
    List dm_recv_topic_map_t → Nat → World → World
  | [], _, w => w
  | e :: rest, i, w =>
    aiot_dm_deinit_loop mqtt_handle rest (i + 1)
      (aiot_mqtt_setopt mqtt_handle false e.topic i false w).2

/-- The function `aiot_dm_deinit(p_handle)`; `p_handle` is `none` for a null
pointer and `some none` for a pointer to a null handle.  The result is the
status, `p_handle` after the call and the new world. -/
def aiot_dm_deinit (p_handle : Option (Option dm_handle_t)) (w : World) :
    Int × Option (Option dm_handle_t) × World :=
  match p_handle with
  | none => (STATE_USER_INPUT_NULL_POINTER, none, w)
  | some none => (STATE_USER_INPUT_NULL_POINTER, some none, w)
  | some (some dm_handle) =>
    let w1 := (_dm_core_mqtt_operate_process_handler dm_handle false w).2
    let w2 := aiot_dm_deinit_loop dm_handle.mqtt_handle g_dm_recv_topic_mapping 0 w1
    let w3 := { w2 with trace := w2.trace ++ [Event.free_context] }
    let w4 := { w3 with trace := w3.trace ++ [Event.global_deinit] }
    (STATE_SUCCESS, some none, w4)

/-- The topic strings and handlers the transport was asked to add among some
events, in order. -/
def topicsAdded (es : List Event) : List (List Char × Nat) :=
  es.filterMap (fun e => match e with
    | Event.topic_map _ true topic handler _ _ => some (topic, handler)
    | _ => none)

/-- The topic strings and handlers the transport was asked to remove among
some events, in order. -/
def topicsRemoved (es : List Event) : List (List Char × Nat) :=
  es.filterMap (fun e => match e with
    | Event.topic_map _ false topic handler _ _ => some (topic, handler)
    | _ => none)

/-- The registrations of a process handler asked of the transport among some
events. -/
def processHandlers (es : List Event) : List Bool :=
  es.filterMap (fun e => match e with
    | Event.process_handler _ append _ => some append
    | _ => none)

/-- Modelled from the spec: the subscription table of the transport after
some events, from the table `tbl` before them: a pattern registered with
success is in the table with its handler until a deregistration of the same
string and handler succeeds. -/
def topic_table : List Event → List (List Char × Nat) → List (List Char × Nat)
  | [], tbl => tbl
  | Event.topic_map _ true topic handler _ res :: es, tbl =>
    topic_table es (if res < 0 then tbl else tbl ++ [(topic, handler)])
  | Event.topic_map _ false topic handler _ res :: es, tbl =>
    topic_table es (if res < 0 then tbl else tbl.filter (fun p => p != (topic, handler)))
  | _ :: es, tbl => topic_table es tbl

/-- The releases, among some events, of pointers into the payload of the
inbound message, in order. -/
def payloadReleases (es : List Event) : List (List Char) :=
  es.filterMap (fun e => match e with
    | Event.free_payload_ptr text => some text
    | _ => none)

/-- Some events without the releases of pointers into the payload. -/
def withoutPayloadReleases (es : List Event) : List Event :=
  es.filter (fun e => match e with
    | Event.free_payload_ptr _ => false
    | _ => true)

/-- Specification side: the buffers allocated and not yet released after
some events, from the buffers `live` before them; `none` when something is
released that is not a live buffer (a buffer never allocated or released
before, or a pointer into the payload). -/
def live_buffers : List Event → List Nat → Option (List Nat)
  | [], live => some live
  | Event.malloc _ (some a) :: es, live => live_buffers es (a :: live)
  | Event.free a :: es, live => if a ∈ live then live_buffers es (live.erase a) else none
  | Event.free_payload_ptr _ :: _, _ => none
  | _ :: es, live => live_buffers es live

/-- The context after `aiot_dm_setopt` (the context before it when the call
is undefined or the handle null). -/
def handle_after_setopt (O : DmOptEnum) (h : dm_handle_t) (option : Nat) (d : dm_opt_data)
    (w : World) : dm_handle_t :=
  match aiot_dm_setopt O (some h) option (some d) w with
  | some (_, some h1, _) => h1
  | _ => h

/-- The world after `aiot_dm_setopt` (the world before it when the call is
undefined). -/
def world_after_setopt (O : DmOptEnum) (h : dm_handle_t) (option : Nat) (d : dm_opt_data)
    (w : World) : World :=
  match aiot_dm_setopt O (some h) option (some d) w with
  | some (_, _, w1) => w1
  | none => w

/-- A transport without default device name. -/
def nameless_transport : MqttHandle := { id := 8, device_name := none }

/-- A context that was never attached. -/
def fresh_handle : dm_handle_t :=
  { mqtt_handle := none, recv_handler := none, userdata := none, post_reply := 1 }

/-- The argument `data` that is the handle of the transport `m`. -/
def data_of_transport (m : MqttHandle) : dm_opt_data := { ptr := 100, mqtt := m, uint8 := 0 }

/-- A topic of 65538 characters: `/`, `x`, 65535 times `/`, and `y`; it holds
`2^16` delimiters, the first at index 0 and the last at index 65536. -/
def wrap_topic : List Char := '/' :: 'x' :: (List.replicate 65534 '/' ++ [ '/', 'y' ])

/-! ## Concrete inbound messages -/

/-- A context with a callback (number 9) and user data (number 5). -/
def sample_recv_handle : dm_handle_t :=
  { mqtt_handle := some sample_transport, recv_handler := some 9, userdata := some 5,
    post_reply := 1 }

/-- The message made of a topic and a payload, with their lengths. -/
def recv_msg (topic payload : List Char) : aiot_mqtt_recv_t :=
  { topic := topic, topic_len := topic.length, payload := payload,
    payload_len := payload.length }

/-- An event reply for `devA` with id 7, code 200 and data, without message. -/
def event_reply_msg : aiot_mqtt_recv_t :=
  recv_msg "/v1/device/down/event_reply/devA".toList
    "\x7b\"id\":\"7\",\"code\":200,\"data\":\x7b\x7d\x7d".toList

/-- An event reply for `devA` whose payload has no `code`. -/
def event_reply_no_code_msg : aiot_mqtt_recv_t :=
  recv_msg "/v1/device/down/event_reply/devA".toList
    "\x7b\"id\":\"7\",\"data\":\x7b\x7d\x7d".toList

/-- A register-info message for `devA` with id 7 and no `deviceInfos`. -/
def register_info_msg : aiot_mqtt_recv_t :=
  recv_msg "/v1/device/down/registerInfo/devA".toList "\x7b\"id\":\"7\"\x7d".toList

/-- A property-set message for `devA` with every required field. -/
def property_set_msg : aiot_mqtt_recv_t :=
  recv_msg "/v1/device/down/set/devA".toList
    "\x7b\"id\":\"7\",\"serviceId\":\"s\",\"eid\":\"e\",\"params\":[1,2]\x7d".toList

/-- A service-invoke message for `devA` with every required field. -/
def service_invoke_msg : aiot_mqtt_recv_t :=
  recv_msg "/v1/device/down/service/devA".toList
    "\x7b\"id\":\"7\",\"identifier\":\"reboot\",\"data\":[1]\x7d".toList

/-- A service-invoke message for `devA` that lacks the field `data`. -/
def service_invoke_no_data_msg : aiot_mqtt_recv_t :=
  recv_msg "/v1/device/down/service/devA".toList
    "\x7b\"id\":\"7\",\"identifier\":\"reboot\"\x7d".toList

/-- The world a delivery leaves behind (the world it started from when the
delivery is undefined). -/
def world_after_deliver (i : Nat) (msg : aiot_mqtt_recv_t) (h : dm_handle_t) (w : World) :
    World :=
  match dm_recv_deliver i msg h w with
  | some (_, w1) => w1
  | none => w

/-! ## Theorems -/


/-! ### The scanning loop -/

theorem topic_scan_loop_add (topic : List Char) (level : Nat) (n1 n2 : Nat) :
    ∀ (i : Nat) (s : TopicScan),
      topic_scan_loop topic level (n1 + n2) i s =
        (topic_scan_loop topic level n1 i s).bind (topic_scan_loop topic level n2 (i + n1)) := by
  induction n1 with
  | zero => intro i s; simp [topic_scan_loop]
  | succ n ih =>
    intro i s
    have e : n + 1 + n2 = (n + n2) + 1 := by omega
    rw [e]
    simp only [topic_scan_loop]
    cases h : topic_scan_step topic level i s with
    | none => simp
    | some s1 =>
      simp only []
      rw [ih (i + 1) s1]
      have e2 : i + 1 + n = i + (n + 1) := by omega
      rw [e2]

theorem getElem?_mid (pre l post : List Char) (c : Char) :
    (pre ++ c :: l ++ post)[pre.length]? = some c := by
  rw [List.append_assoc, List.getElem?_append_right (Nat.le_refl _)]
  simp

theorem topic_scan_step_other (topic : List Char) (level i : Nat) (s : TopicScan) (c : Char)
    (h : topic[i]? = some c) (hc : c ≠ '/') : topic_scan_step topic level i s = some s := by
  simp [topic_scan_step, h, hc]

theorem topic_scan_step_slash (topic : List Char) (level i : Nat) (s : TopicScan)
    (h : topic[i]? = some '/') :
    topic_scan_step topic level i s =
      some { level_curr := (s.level_curr + 1) % 65536,
             p_open := if (s.level_curr + 1) % 65536 = level ∧ s.p_open = none
                       then some (i + 1) else s.p_open,
             p_close := if (s.level_curr + 1) % 65536 = level + 1 ∧ s.p_close = none
                        then some i else s.p_close } := by
  simp [topic_scan_step, h]

/-- Scanning a stretch without `/` leaves the locals as they are. -/
theorem topic_scan_loop_no_slash (level : Nat) (l : List Char) :
    ∀ (pre post : List Char) (s : TopicScan), (∀ c ∈ l, c ≠ '/') →
      topic_scan_loop (pre ++ l ++ post) level l.length pre.length s = some s := by
  induction l with
  | nil => intro pre post s _; simp [topic_scan_loop]
  | cons c l ih =>
    intro pre post s h
    have hc : c ≠ '/' := h c (by simp)
    have hl : ∀ d ∈ l, d ≠ '/' := fun d hd => h d (by simp [hd])
    simp only [List.length_cons, topic_scan_loop]
    rw [topic_scan_step_other _ _ _ _ c (getElem?_mid pre l post c) hc]
    have e : pre ++ c :: l ++ post = (pre ++ [c]) ++ l ++ post := by simp
    have e2 : pre.length + 1 = (pre ++ [c]).length := by simp
    simp only []
    rw [e, e2]
    exact ih (pre ++ [c]) post s hl

/-- While fewer than `level` delimiters have been seen, only `level_curr` moves. -/
theorem topic_scan_loop_below (level : Nat) (hlevel : level < 65536) (l : List Char) :
    ∀ (pre post : List Char) (s : TopicScan), s.level_curr + l.count '/' < level →
      topic_scan_loop (pre ++ l ++ post) level l.length pre.length s =
        some { s with level_curr := s.level_curr + l.count '/' } := by
  induction l with
  | nil => intro pre post s _; simp [topic_scan_loop]
  | cons c l ih =>
    intro pre post s h
    have e : pre ++ c :: l ++ post = (pre ++ [c]) ++ l ++ post := by simp
    have e2 : pre.length + 1 = (pre ++ [c]).length := by simp
    simp only [List.length_cons, topic_scan_loop]
    by_cases hc : c = '/'
    · subst hc
      simp only [List.count_cons_self] at h
      rw [topic_scan_step_slash _ _ _ _ (getElem?_mid pre l post '/')]
      have hm : (s.level_curr + 1) % 65536 = s.level_curr + 1 := Nat.mod_eq_of_lt (by omega)
      have h1 : ¬ (s.level_curr + 1 = level) := by omega
      have h2 : ¬ (s.level_curr + 1 = level + 1) := by omega
      simp only [hm, h1, h2, false_and, if_false]
      rw [e, e2, ih (pre ++ [ '/' ]) post _ (by simp only []; omega)]
      simp only [List.count_cons_self]
      congr 2
      omega
    · have hcount : (c :: l).count '/' = l.count '/' := by
        simp [List.count_cons, hc]
      rw [hcount] at h
      rw [topic_scan_step_other _ _ _ _ c (getElem?_mid pre l post c) hc]
      simp only []
      rw [e, e2, ih (pre ++ [c]) post s h, hcount]

/-- Once both ends are set they stay as they are. -/
theorem topic_scan_loop_closed (topic : List Char) (level a b : Nat) (n : Nat) :
    ∀ (i : Nat) (s : TopicScan), i + n ≤ topic.length → s.p_open = some a → s.p_close = some b →
      ∃ s1, topic_scan_loop topic level n i s = some s1 ∧ s1.p_open = some a ∧
        s1.p_close = some b := by
  induction n with
  | zero => intro i s _ ho hc; exact ⟨s, by simp [topic_scan_loop], ho, hc⟩
  | succ n ih =>
    intro i s hb ho hc
    have hi : i < topic.length := by omega
    simp only [topic_scan_loop]
    have hget : topic[i]? = some topic[i] := List.getElem?_eq_getElem hi
    by_cases hch : topic[i] = '/'
    · rw [hch] at hget
      rw [topic_scan_step_slash _ _ _ _ hget]
      simp only []
      apply ih (i + 1) _ (by omega)
      · simp [ho]
      · simp [hc]
    · rw [topic_scan_step_other _ _ _ _ _ hget hch]
      simp only []
      exact ih (i + 1) s (by omega) ho hc

/-- After the opening delimiter: the closing end is the next `/` met before
the final character, and the end of the topic when none is met. -/
theorem topic_scan_loop_open (level a : Nat) (hlevel : level < 65535) (x : Char) (hx : x ≠ '/')
    (R : List Char) :
    ∀ (pre post : List Char) (s : TopicScan), s.level_curr = level → s.p_open = some a →
      s.p_close = none →
      ∃ s1, topic_scan_loop (pre ++ R ++ (x :: post)) level R.length pre.length s = some s1 ∧
        s1.p_open = some a ∧
        s1.p_close.getD (pre.length + R.length + 1) =
          pre.length + ((R ++ [x]).takeWhile (fun c => c != '/')).length := by
  induction R with
  | nil =>
    intro pre post s _ ho hc
    refine ⟨s, by simp [topic_scan_loop], ho, ?_⟩
    simp [hc, List.takeWhile_cons, hx]
  | cons c R ih =>
    intro pre post s hl ho hc
    have e : pre ++ c :: R ++ (x :: post) = (pre ++ [c]) ++ R ++ (x :: post) := by simp
    have e2 : pre.length + 1 = (pre ++ [c]).length := by simp
    simp only [List.length_cons, topic_scan_loop]
    by_cases hch : c = '/'
    · subst hch
      rw [topic_scan_step_slash _ _ _ _ (getElem?_mid pre R (x :: post) '/')]
      have hm : (s.level_curr + 1) % 65536 = level + 1 := by
        rw [hl]; exact Nat.mod_eq_of_lt (by omega)
      have h1 : ¬ (level + 1 = level) := by omega
      simp only [hm, h1, hc, false_and, if_false, and_self, if_true]
      obtain ⟨s1, hs1, ho1, hc1⟩ := topic_scan_loop_closed (pre ++ '/' :: R ++ (x :: post)) level a
        pre.length R.length (pre.length + 1)
        { level_curr := level + 1, p_open := s.p_open, p_close := some pre.length }
        (by simp; omega) (by simp [ho]) (by simp)
      refine ⟨s1, hs1, ho1, ?_⟩
      simp [hc1, List.takeWhile_cons]
    · rw [topic_scan_step_other _ _ _ _ c (getElem?_mid pre R (x :: post) c) hch]
      simp only []
      rw [e, e2]
      obtain ⟨s1, hs1, ho1, hc1⟩ := ih (pre ++ [c]) post s hl ho hc
      refine ⟨s1, hs1, ho1, ?_⟩
      have e3 : pre.length + (R.length + 1) + 1 = (pre ++ [c]).length + R.length + 1 := by
        simp; omega
      rw [e3, hc1]
      simp [List.takeWhile_cons, hch]
      omega

/-- Locals at the end of the loop when the `level`-th delimiter of the topic
is followed by a rest whose final character is not `/`. -/
theorem topic_scan_final (level : Nat) (hlevel : level < 65535) (P R : List Char) (x : Char)
    (hx : x ≠ '/') (hP : P.count '/' + 1 = level) :
    ∃ s, topic_scan_loop (P ++ '/' :: (R ++ [x])) level (P.length + 1 + R.length) 0
        { level_curr := 0, p_open := none, p_close := none } = some s ∧
      s.p_open = some (P.length + 1) ∧
      s.p_close.getD (P.length + 1 + R.length + 1) =
        P.length + 1 + ((R ++ [x]).takeWhile (fun c => c != '/')).length := by
  have st1 : topic_scan_loop (P ++ '/' :: (R ++ [x])) level P.length 0
      { level_curr := 0, p_open := none, p_close := none } =
      some { level_curr := P.count '/', p_open := none, p_close := none } := by
    have h := topic_scan_loop_below level (by omega) P [] ('/' :: (R ++ [x]))
      { level_curr := 0, p_open := none, p_close := none } (by simp only []; omega)
    simpa using h
  have hget : (P ++ '/' :: (R ++ [x]))[P.length]? = some '/' := by
    rw [List.getElem?_append_right (Nat.le_refl _)]; simp
  have st2 : topic_scan_loop (P ++ '/' :: (R ++ [x])) level 1 P.length
      { level_curr := P.count '/', p_open := none, p_close := none } =
      some { level_curr := level, p_open := some (P.length + 1), p_close := none } := by
    simp only [topic_scan_loop]
    rw [topic_scan_step_slash _ _ _ _ hget]
    have hm : (P.count '/' + 1) % 65536 = level := by
      rw [hP]; exact Nat.mod_eq_of_lt (by omega)
    have h1 : ¬ (level = level + 1) := by omega
    simp only [hm, h1, false_and, if_false, and_self, if_true]
  obtain ⟨s, hs, ho, hc⟩ := topic_scan_loop_open level (P.length + 1) hlevel x hx R
    (P ++ [ '/' ]) [] { level_curr := level, p_open := some (P.length + 1), p_close := none }
    rfl rfl rfl
  refine ⟨s, ?_, ho, ?_⟩
  · rw [Nat.add_assoc, topic_scan_loop_add, st1]
    simp only [Option.some_bind, Nat.zero_add]
    rw [topic_scan_loop_add, st2]
    simp only [Option.some_bind]
    have e : P ++ '/' :: (R ++ [x]) = (P ++ [ '/' ]) ++ R ++ (x :: []) := by simp
    simp only [List.length_append, List.length_singleton] at hs
    rw [e]
    exact hs
  · have e2 : (P ++ [ '/' ]).length = P.length + 1 := by simp
    rw [e2] at hc
    exact hc

theorem take_length_takeWhile (p : Char → Bool) (l : List Char) :
    l.take (l.takeWhile p).length = l.takeWhile p := by
  have h := List.takeWhile_append_dropWhile p l
  calc l.take (l.takeWhile p).length
      = (l.takeWhile p ++ l.dropWhile p).take (l.takeWhile p).length := by rw [h]
    _ = l.takeWhile p := List.take_left _ _

/-- The parser on a topic whose `level`-th delimiter is followed by a rest
not ending in `/`: it returns the characters of the rest up to its first `/`,
cut to their number modulo `2^16`. -/
theorem dm_get_topic_level_segment_mod (level : Nat) (hlevel : level ≤ 255) (P R : List Char)
    (x : Char) (hx : x ≠ '/') (hP : P.count '/' + 1 = level)
    (hlen : (P ++ '/' :: (R ++ [x])).length < 4294967296)
    (w w1 : World) (addr : Nat)
    (ha : core_sysdep_malloc
      (((R ++ [x]).takeWhile (fun c => c != '/')).length % 65536 + 1) w = (some addr, w1)) :
    _dm_get_topic_level (P ++ '/' :: (R ++ [x])) (P ++ '/' :: (R ++ [x])).length level w =
      some (STATE_SUCCESS,
        some { addr := addr,
               data := ((R ++ [x]).takeWhile (fun c => c != '/')).take
                 (((R ++ [x]).takeWhile (fun c => c != '/')).length % 65536) }, w1) := by
  obtain ⟨s, hs, ho, hc⟩ := topic_scan_final level (by omega) P R x hx hP
  have hL : (P ++ '/' :: (R ++ [x])).length = P.length + 1 + R.length + 1 := by
    simp; omega
  have hf : ((((P ++ '/' :: (R ++ [x])).length : Int) - 1) % 4294967296).toNat
      = P.length + 1 + R.length := by
    rw [hL] at hlen ⊢; omega
  have htw : ((R ++ [x]).takeWhile (fun c => c != '/')).length ≤ R.length + 1 := by
    have := (List.takeWhile_sublist (fun c => c != '/') (l := R ++ [x])).length_le
    simpa using this
  unfold _dm_get_topic_level
  rw [hf, hs]
  simp only [ho]
  rw [hL, hc]
  have hn : ((((P.length + 1 + ((R ++ [x]).takeWhile (fun c => c != '/')).length : Nat) : Int)
      - ((P.length + 1 : Nat) : Int)) % 65536).toNat
      = ((R ++ [x]).takeWhile (fun c => c != '/')).length % 65536 := by
    omega
  rw [hn, ha]
  have hmod : ((R ++ [x]).takeWhile (fun c => c != '/')).length % 65536
      ≤ ((R ++ [x]).takeWhile (fun c => c != '/')).length := Nat.mod_le _ _
  have hb : P.length + 1 + ((R ++ [x]).takeWhile (fun c => c != '/')).length % 65536
      ≤ P.length + 1 + R.length + 1 := by omega
  simp only [hb, if_true]
  have hd : (P ++ '/' :: (R ++ [x])).drop (P.length + 1) = R ++ [x] := by
    have e : P ++ '/' :: (R ++ [x]) = (P ++ [ '/' ]) ++ (R ++ [x]) := by simp
    rw [e]
    exact List.drop_left' (by simp)
  rw [hd]
  have hpre : (R ++ [x]).take (((R ++ [x]).takeWhile (fun c => c != '/')).length % 65536)
      = ((R ++ [x]).takeWhile (fun c => c != '/')).take
          (((R ++ [x]).takeWhile (fun c => c != '/')).length % 65536) := by
    have hsplit := List.takeWhile_append_dropWhile (fun c => c != '/') (l := R ++ [x])
    calc (R ++ [x]).take (((R ++ [x]).takeWhile (fun c => c != '/')).length % 65536)
        = ((R ++ [x]).takeWhile (fun c => c != '/') ++
            (R ++ [x]).dropWhile (fun c => c != '/')).take
            (((R ++ [x]).takeWhile (fun c => c != '/')).length % 65536) := by rw [hsplit]
      _ = ((R ++ [x]).takeWhile (fun c => c != '/')).take
            (((R ++ [x]).takeWhile (fun c => c != '/')).length % 65536) :=
          List.take_append_of_le_length hmod
  rw [hpre]

/-- The same when the segment has fewer than `2^16` characters: it is returned
whole. -/
theorem dm_get_topic_level_segment (level : Nat) (hlevel : level ≤ 255) (P R : List Char)
    (x : Char) (hx : x ≠ '/') (hP : P.count '/' + 1 = level)
    (hlen : (P ++ '/' :: (R ++ [x])).length < 4294967296)
    (hseg : ((R ++ [x]).takeWhile (fun c => c != '/')).length < 65536)
    (w w1 : World) (addr : Nat)
    (ha : core_sysdep_malloc (((R ++ [x]).takeWhile (fun c => c != '/')).length + 1) w
      = (some addr, w1)) :
    _dm_get_topic_level (P ++ '/' :: (R ++ [x])) (P ++ '/' :: (R ++ [x])).length level w =
      some (STATE_SUCCESS,
        some { addr := addr, data := (R ++ [x]).takeWhile (fun c => c != '/') }, w1) := by
  have hm := Nat.mod_eq_of_lt hseg
  have h := dm_get_topic_level_segment_mod level hlevel P R x hx hP hlen w w1 addr
    (by rw [hm]; exact ha)
  rw [hm, List.take_length] at h
  exact h

/-- A topic made of one `/` and `n + 1` letters: level 1 yields the first
`(n + 1) mod 2^16` letters. -/
theorem dm_get_topic_level_long (n : Nat) (hn : n + 2 < 4294967296) (w w1 : World)
    (addr : Nat) (ha : core_sysdep_malloc ((n + 1) % 65536 + 1) w = (some addr, w1)) :
    _dm_get_topic_level ('/' :: List.replicate (n + 1) 'a') (n + 2) 1 w =
      some (STATE_SUCCESS,
        some { addr := addr, data := (List.replicate (n + 1) 'a').take ((n + 1) % 65536) },
        w1) := by
  have htw : (List.replicate n 'a' ++ [ 'a' ]).takeWhile (fun c => c != '/')
      = List.replicate (n + 1) 'a' := by
    rw [← List.replicate_succ']
    rw [List.takeWhile_eq_self_iff]
    intro c hc
    rw [List.eq_of_mem_replicate hc]
    decide
  have hlen : ([] ++ '/' :: (List.replicate n 'a' ++ [ 'a' ])).length = n + 2 := by
    simp only [List.nil_append, List.length_cons, List.length_append, List.length_replicate,
      List.length_singleton, List.length_nil]
  have h := dm_get_topic_level_segment_mod 1 (by omega) [] (List.replicate n 'a') 'a'
    (by decide) (by simp) (by rw [hlen]; exact hn) w w1 addr
    (by rw [htw, List.length_replicate]; exact ha)
  rw [hlen, htw, List.length_replicate, List.nil_append, ← List.replicate_succ'] at h
  exact h

theorem levelSegment_letters (n : Nat) :
    levelSegment 1 ('/' :: List.replicate n 'a') = some (List.replicate n 'a') := by
  have htw : (List.replicate n 'a').takeWhile (fun c => c != '/') = List.replicate n 'a' := by
    rw [List.takeWhile_eq_self_iff]
    intro c hc
    rw [List.eq_of_mem_replicate hc]
    decide
  simp only [levelSegment, afterSlash, if_true, Option.map_some', htw]

/-- The parser on a topic with fewer than `level` delimiters: the opening end
is never set, the structural error is returned and nothing else happens. -/
theorem dm_get_topic_level_too_few (level : Nat) (hlevel : level ≤ 255) (topic : List Char)
    (hne : topic ≠ []) (hlen : topic.length < 4294967296) (hcount : topic.count '/' < level)
    (w : World) :
    _dm_get_topic_level topic topic.length level w =
      some (STATE_DM_INTERNAL_TOPIC_ERROR, none, w) := by
  obtain ⟨t0, x, rfl⟩ : ∃ t0 x, topic = t0 ++ [x] := by
    rcases List.eq_nil_or_concat topic with h | ⟨t0, x, h⟩
    · exact absurd h hne
    · exact ⟨t0, x, by simpa using h⟩
  have hL : (t0 ++ [x]).length = t0.length + 1 := by simp
  have hf : ((((t0 ++ [x]).length : Int) - 1) % 4294967296).toNat = t0.length := by
    rw [hL] at hlen ⊢; omega
  have hc0 : t0.count '/' < level := by
    have : t0.count '/' ≤ (t0 ++ [x]).count '/' := by simp
    omega
  have h := topic_scan_loop_below level (by omega) t0 [] [x]
    { level_curr := 0, p_open := none, p_close := none } (by simp only []; omega)
  simp only [List.nil_append, List.length_nil] at h
  unfold _dm_get_topic_level
  rw [hf, h]

/-- A topic with at least `n + 1` delimiters splits at its `(n + 1)`-th one. -/
theorem afterSlash_split (topic : List Char) :
    ∀ n : Nat, n + 1 ≤ topic.count '/' →
      ∃ P R, topic = P ++ '/' :: R ∧ P.count '/' = n ∧ afterSlash (n + 1) topic = some R := by
  induction topic with
  | nil => intro n h; simp at h
  | cons c t ih =>
    intro n h
    by_cases hc : c = '/'
    · subst hc
      simp only [List.count_cons_self] at h
      cases n with
      | zero => exact ⟨[], t, by simp, by simp, by simp [afterSlash]⟩
      | succ m =>
        obtain ⟨P, R, hT, hP, hA⟩ := ih m (by omega)
        refine ⟨'/' :: P, R, by simp [hT], by simp [hP], ?_⟩
        simp only [afterSlash, if_true]
        exact hA
    · have hcount : (c :: t).count '/' = t.count '/' := by simp [List.count_cons, hc]
      rw [hcount] at h
      obtain ⟨P, R, hT, hP, hA⟩ := ih n h
      refine ⟨c :: P, R, by simp [hT], by simp [List.count_cons, hc, hP], ?_⟩
      simp only [afterSlash, hc, if_false]
      exact hA

/-! ### The loop invariant -/

theorem topic_scan_step_inv (topic : List Char) (level : Nat) (hl1 : 1 ≤ level)
    (hl2 : level ≤ 255) (i : Nat) (hi : i < topic.length) (s : TopicScan)
    (h : scan_inv topic level i s) :
    ∃ s1, topic_scan_step topic level i s = some s1 ∧ scan_inv topic level (i + 1) s1 := by
  obtain ⟨h1, h2, h3, h4⟩ := h
  have hget : topic[i]? = some topic[i] := List.getElem?_eq_getElem hi
  have htake : topic.take (i + 1) = topic.take i ++ [topic[i]] := by
    rw [List.take_succ, hget]; rfl
  by_cases hch : topic[i] = '/'
  · have hget1 : topic[i]? = some '/' := by rw [hget, hch]
    have hcnt : (topic.take (i + 1)).count '/' = (topic.take i).count '/' + 1 := by
      rw [htake, hch]; simp
    refine ⟨_, topic_scan_step_slash _ _ _ _ hget1, ?_, ?_, ?_, ?_⟩
    · simp only [hcnt, h1]; omega
    · simp only [hcnt]
      rcases ho : s.p_open with _ | a
      · have hlt := h2.mp ho
        have hm : (s.level_curr + 1) % 65536 = (topic.take i).count '/' + 1 := by
          rw [h1]; omega
        by_cases he : (topic.take i).count '/' + 1 = level
        · simp [hm, he]
        · simp [hm, he]; omega
      · have hge : ¬ (topic.take i).count '/' < level := fun hlt => by
          have := h2.mpr hlt; rw [ho] at this; exact absurd this (by simp)
        simp; omega
    · intro a ha
      simp only at ha
      split at ha
      · injection ha with ha; omega
      · have := h3 a ha; omega
    · intro b hb
      simp only at hb
      split at hb
      · rename_i hc
        injection hb with hb
        rcases ho : s.p_open with _ | a
        · exfalso
          have hlt := h2.mp ho
          have hm : (s.level_curr + 1) % 65536 = (topic.take i).count '/' + 1 := by
            rw [h1]; omega
          rw [hm] at hc; omega
        · have := h3 a ho
          exact ⟨a, by simp, by omega, by omega⟩
      · obtain ⟨a, ha, hab, hbi⟩ := h4 b hb
        exact ⟨a, by simp [ha], hab, by omega⟩
  · have hcnt : (topic.take (i + 1)).count '/' = (topic.take i).count '/' := by
      have hne : ¬ ('/' = topic[i]) := fun e => hch e.symm
      rw [htake, List.count_append]
      simp [List.count_cons, hch, hne]
    refine ⟨s, topic_scan_step_other _ _ _ _ _ hget hch, ?_, ?_, ?_, ?_⟩
    · rw [hcnt]; exact h1
    · rw [hcnt]; exact h2
    · intro a ha; have := h3 a ha; omega
    · intro b hb
      obtain ⟨a, ha, hab, hbi⟩ := h4 b hb
      exact ⟨a, ha, hab, by omega⟩

theorem topic_scan_loop_inv (topic : List Char) (level : Nat) (hl1 : 1 ≤ level)
    (hl2 : level ≤ 255) (n : Nat) :
    ∀ (i : Nat) (s : TopicScan), i + n ≤ topic.length → scan_inv topic level i s →
      ∃ s1, topic_scan_loop topic level n i s = some s1 ∧ scan_inv topic level (i + n) s1 := by
  induction n with
  | zero => intro i s _ h; exact ⟨s, rfl, h⟩
  | succ n ih =>
    intro i s hb h
    obtain ⟨s1, hs1, hinv1⟩ := topic_scan_step_inv topic level hl1 hl2 i (by omega) s h
    obtain ⟨s2, hs2, hinv2⟩ := ih (i + 1) s1 (by omega) hinv1
    refine ⟨s2, ?_, ?_⟩
    · simp only [topic_scan_loop, hs1]; exact hs2
    · have e : i + (n + 1) = i + 1 + n := by omega
      rw [e]; exact hinv2

theorem scan_inv_init (topic : List Char) (level : Nat) (hl1 : 1 ≤ level) :
    scan_inv topic level 0 { level_curr := 0, p_open := none, p_close := none } := by
  refine ⟨by simp, by simp; omega, by simp, by simp⟩

theorem core_sysdep_malloc_fail (n : Nat) (w : World) (h : w.alloc_plan.head? = some false) :
    core_sysdep_malloc n w =
      (none, { w with alloc_plan := w.alloc_plan.tail,
                      trace := w.trace ++ [Event.malloc n none] }) := by
  rcases hap : w.alloc_plan with _ | ⟨b, rest⟩
  · simp [hap] at h
  · simp [hap] at h
    subst h
    simp [core_sysdep_malloc, hap]

theorem core_sysdep_malloc_ok (n : Nat) (w : World) (h : ¬ w.alloc_plan.head? = some false) :
    core_sysdep_malloc n w =
      (some w.next_addr,
        { w with alloc_plan := w.alloc_plan.tail, next_addr := w.next_addr + 1,
                 trace := w.trace ++ [Event.malloc n (some w.next_addr)] }) := by
  rcases hap : w.alloc_plan with _ | ⟨b, rest⟩
  · simp [core_sysdep_malloc, hap]
  · simp [hap] at h
    subst h
    simp [core_sysdep_malloc, hap]

/-- The parser on a buffer of at least `topic_len` characters: it returns,
with the structural error when fewer than `level` delimiters precede the final
character, and else after one allocation, whose failure it reports. -/
theorem dm_get_topic_level_cases (topic : List Char) (topic_len level : Nat) (w : World)
    (hl1 : 1 ≤ level) (hl2 : level ≤ 255) (h1 : 1 ≤ topic_len)
    (h2 : topic_len ≤ topic.length) (h3 : topic_len < 4294967296) :
    ∃ n data, _dm_get_topic_level topic topic_len level w =
      if (topic.take (topic_len - 1)).count '/' < level then
        some (STATE_DM_INTERNAL_TOPIC_ERROR, none, w)
      else if w.alloc_plan.head? = some false then
        some (STATE_SYS_DEPEND_MALLOC_FAILED, none,
          { w with alloc_plan := w.alloc_plan.tail,
                   trace := w.trace ++ [Event.malloc n none] })
      else
        some (STATE_SUCCESS, some { addr := w.next_addr, data := data },
          { w with alloc_plan := w.alloc_plan.tail, next_addr := w.next_addr + 1,
                   trace := w.trace ++ [Event.malloc n (some w.next_addr)] }) := by
  have hf : (((topic_len : Int) - 1) % 4294967296).toNat = topic_len - 1 := by omega
  obtain ⟨s, hs, hi1, hi2, hi3, hi4⟩ := topic_scan_loop_inv topic level hl1 hl2 (topic_len - 1) 0
    { level_curr := 0, p_open := none, p_close := none } (by omega)
    (scan_inv_init topic level hl1)
  simp only [Nat.zero_add] at hi1 hi2 hi3 hi4
  unfold _dm_get_topic_level
  rw [hf, hs]
  rcases ho : s.p_open with _ | a
  · exact ⟨0, [], by simp only [ho, hi2.mp ho, if_true]⟩
  · have hge : ¬ (topic.take (topic_len - 1)).count '/' < level := fun hlt => by
      have := hi2.mpr hlt; rw [ho] at this; exact absurd this (by simp)
    have ha := hi3 a ho
    have hpc : a ≤ s.p_close.getD topic_len ∧ s.p_close.getD topic_len ≤ topic_len := by
      rcases hc : s.p_close with _ | b
      · simp; omega
      · obtain ⟨a1, ha1, hab, hb⟩ := hi4 b hc
        rw [ho] at ha1; injection ha1 with ha1
        simp; omega
    have hbound : a + (((s.p_close.getD topic_len : Int) - (a : Int)) % 65536).toNat
        ≤ topic.length := by omega
    refine ⟨(((s.p_close.getD topic_len : Int) - (a : Int)) % 65536).toNat + 1,
      (topic.drop a).take (((s.p_close.getD topic_len : Int) - (a : Int)) % 65536).toNat, ?_⟩
    simp only [ho, hge, if_false]
    by_cases hal : w.alloc_plan.head? = some false
    · simp only [hal, if_true]
      rw [core_sysdep_malloc_fail _ _ hal]
    · simp only [hal, if_false]
      rw [core_sysdep_malloc_ok _ _ hal]
      simp only [hbound, if_true]

/-! ### The send path -/


theorem core_sprintf_fail (f : List Char) (src : List (Option (List Char))) (w : World)
    (h : w.alloc_plan.head? = some false) :
    core_sprintf (some f) src w =
      some (STATE_SYS_DEPEND_MALLOC_FAILED, none,
        { w with alloc_plan := w.alloc_plan.tail,
                 trace := w.trace ++ [Event.malloc ((render_fmt f src).length + 1) none] }) := by
  rcases hap : w.alloc_plan with _ | ⟨b, rest⟩
  · simp [hap] at h
  · simp [hap] at h
    subst h
    simp [core_sprintf, core_sysdep_malloc, hap]

theorem core_sprintf_ok (f : List Char) (src : List (Option (List Char))) (w : World)
    (h : ¬ w.alloc_plan.head? = some false) :
    core_sprintf (some f) src w =
      some (STATE_SUCCESS, some { addr := w.next_addr, data := render_fmt f src },
        { w with alloc_plan := w.alloc_plan.tail, next_addr := w.next_addr + 1,
                 trace := w.trace ++
                   [Event.malloc ((render_fmt f src).length + 1) (some w.next_addr)] }) := by
  rcases hap : w.alloc_plan with _ | ⟨b, rest⟩
  · simp [core_sprintf, core_sysdep_malloc, hap]
  · simp [hap] at h
    subst h
    simp [core_sprintf, core_sysdep_malloc, hap]

theorem switch_accepts (E : DmMsgEnum) (t : Nat) (dn : Option (List Char)) :
    (if t = E.AIOT_DMMSG_PROPERTY_POST ∨ t = E.AIOT_DMMSG_PROPERTY_BATCH_POST ∨
         t = E.AIOT_DMMSG_PROPERTY_SET_REPLY ∨ t = E.AIOT_DMMSG_GET_DESIRED ∨
         t = E.AIOT_DMMSG_DELETE_DESIRED ∨ t = E.AIOT_DMMSG_RAW_DATA then some [dn]
      else if t = E.AIOT_DMMSG_EVENT_POST then some [dn]
      else if t = E.AIOT_DMMSG_ASYNC_SERVICE_REPLY then some [dn]
      else if t = E.AIOT_DMMSG_SYNC_SERVICE_REPLY then some [dn]
      else if t = E.AIOT_DMMSG_RAW_SERVICE_REPLY then some [dn]
      else none) = if t ∈ E.caseLabels then some [dn] else none := by
  simp only [DmMsgEnum.caseLabels, List.mem_cons, List.mem_singleton, List.not_mem_nil, or_false]
  by_cases h1 : t = E.AIOT_DMMSG_PROPERTY_POST <;>
  by_cases h2 : t = E.AIOT_DMMSG_PROPERTY_BATCH_POST <;>
  by_cases h3 : t = E.AIOT_DMMSG_PROPERTY_SET_REPLY <;>
  by_cases h4 : t = E.AIOT_DMMSG_GET_DESIRED <;>
  by_cases h5 : t = E.AIOT_DMMSG_DELETE_DESIRED <;>
  by_cases h6 : t = E.AIOT_DMMSG_RAW_DATA <;>
  simp only [h1, h2, h3, h4, h5, h6, true_or, or_true, false_or, if_true, if_false] <;>
  (split_ifs <;> simp_all)

theorem prepare_send_topic_eq (E : DmMsgEnum) (h : dm_handle_t) (m : aiot_dm_msg_t) (w : World) :
    _dm_prepare_send_topic E h m w =
      match m.device_name, h.mqtt_handle.bind (fun t => t.device_name) with
      | some d, _ =>
        if m.type ∈ E.caseLabels then
          core_sprintf (g_dm_send_topic_mapping m.type).topic [some d] w
        else some (STATE_USER_INPUT_OUT_RANGE, none, w)
      | none, none =>
        some (STATE_USER_INPUT_MISSING_DEVICE_NAME, none, queried h.mqtt_handle w)
      | none, some d =>
        if m.type ∈ E.caseLabels then
          core_sprintf (g_dm_send_topic_mapping m.type).topic [some d]
            (queried h.mqtt_handle (queried h.mqtt_handle w))
        else some (STATE_USER_INPUT_OUT_RANGE, none,
          queried h.mqtt_handle (queried h.mqtt_handle w)) := by
  unfold _dm_prepare_send_topic
  simp only [switch_accepts]
  rcases hd : m.device_name with _ | d
  · rcases hb : h.mqtt_handle.bind (fun t => t.device_name) with _ | d1
    · simp [core_mqtt_get_device_name, hb, queried]
    · simp only [core_mqtt_get_device_name, hb, queried]
      by_cases hc : m.type ∈ E.caseLabels <;> simp [hc]
  · by_cases hc : m.type ∈ E.caseLabels <;> simp [hc]




theorem send_reg_req_eq (h : dm_handle_t) (topic : Option Buf) (m : aiot_dm_msg_t) (w : World) :
    _dm_send_reg_req h topic (some m) w =
      send_req_common XJT_GET_DEVICE [m.data.get_reg_post.time] h topic w := rfl

theorem send_prop_req_eq (h : dm_handle_t) (topic : Option Buf) (m : aiot_dm_msg_t) (w : World) :
    _dm_send_prop_req h topic (some m) w =
      send_req_common XJT_PROP_POST [m.data.property_post.params] h topic w := rfl

theorem send_event_req_eq (h : dm_handle_t) (topic : Option Buf) (m : aiot_dm_msg_t) (w : World) :
    _dm_send_event_req h topic (some m) w =
      send_req_common XJT_EVENT_POST [m.data.xjt_event_post.time, m.data.xjt_event_post.event_id,
        m.data.xjt_event_post.params] h topic w := rfl

theorem send_service_req_eq (h : dm_handle_t) (topic : Option Buf) (m : aiot_dm_msg_t)
    (w : World) :
    _dm_send_service_req h topic (some m) w =
      send_req_common XJT_SERVICE_REPLY [m.data.xjt_service_rep.code,
        m.data.xjt_service_rep.params] h topic w := rfl

theorem send_req_common_fail (tpl : List Char) (fields : List (Option (List Char)))
    (h : dm_handle_t) (topic : Option Buf) (w : World) (ha : w.alloc_plan.head? = some false) :
    send_req_common tpl fields h topic w =
      some (STATE_SYS_DEPEND_MALLOC_FAILED,
        { alink_id := w.alink_id + 1, alloc_plan := w.alloc_plan.tail, pub_plan := w.pub_plan,
          next_addr := w.next_addr,
          trace := w.trace ++
            [Event.alink_id_next (w.alink_id + 1),
             Event.diag (diag_record DM_DIAG_MSG_TYPE_REQ (w.alink_id + 1)),
             Event.malloc ((render_fmt tpl
               (some (core_int2str (w.alink_id + 1)) :: fields)).length + 1) none] }) := by
  have hneg : STATE_SYS_DEPEND_MALLOC_FAILED < 0 := by decide
  simp [send_req_common, core_global_alink_id_next, _append_diag_data, core_diag,
    core_sprintf_fail, ha, hneg]

theorem send_req_common_ok (tpl : List Char) (fields : List (Option (List Char)))
    (h : dm_handle_t) (topic : Option Buf) (w : World) (ha : ¬ w.alloc_plan.head? = some false) :
    send_req_common tpl fields h topic w =
      some (if STATE_SUCCESS = w.pub_plan.headD STATE_SUCCESS then w.alink_id + 1
            else w.pub_plan.headD STATE_SUCCESS,
        { alink_id := w.alink_id + 1, alloc_plan := w.alloc_plan.tail,
          pub_plan := w.pub_plan.tail, next_addr := w.next_addr + 1,
          trace := w.trace ++
            [Event.alink_id_next (w.alink_id + 1),
             Event.diag (diag_record DM_DIAG_MSG_TYPE_REQ (w.alink_id + 1)),
             Event.malloc ((render_fmt tpl
               (some (core_int2str (w.alink_id + 1)) :: fields)).length + 1) (some w.next_addr),
             Event.mqtt_pub (h.mqtt_handle.map (fun t => t.id)) (topic.map Buf.data)
               (render_fmt tpl (some (core_int2str (w.alink_id + 1)) :: fields))
               (w.pub_plan.headD STATE_SUCCESS),
             Event.free w.next_addr] }) := by
  have hneg : ¬ STATE_SUCCESS < 0 := by decide
  simp only [send_req_common, core_global_alink_id_next, _append_diag_data, core_diag]
  rw [core_sprintf_ok _ _ _ (by simpa using ha)]
  simp only [hneg, if_false, aiot_mqtt_pub, core_sysdep_free]
  split <;> simp only [List.append_assoc, List.cons_append, List.nil_append]

theorem send_alink_rsp_fail (h : dm_handle_t) (topic : Option Buf) (msg_id code : Nat)
    (data : List Char) (w : World) (ha : w.alloc_plan.head? = some false) :
    _dm_send_alink_rsp h topic msg_id code (some data) w =
      some (STATE_SYS_DEPEND_MALLOC_FAILED,
        { w with alloc_plan := w.alloc_plan.tail,
                 trace := w.trace ++
                   [Event.malloc ((render_fmt ALINK_RESPONSE_FMT
                     [some (core_uint2str msg_id), some (core_uint2str code),
                      some data]).length + 1) none] }) := by
  have hneg : STATE_SYS_DEPEND_MALLOC_FAILED < 0 := by decide
  simp [_dm_send_alink_rsp, core_sprintf_fail, ha, hneg]

theorem send_alink_rsp_ok (h : dm_handle_t) (topic : Option Buf) (msg_id code : Nat)
    (data : List Char) (w : World) (ha : ¬ w.alloc_plan.head? = some false) :
    _dm_send_alink_rsp h topic msg_id code (some data) w =
      some (w.pub_plan.headD STATE_SUCCESS,
        { w with alloc_plan := w.alloc_plan.tail, pub_plan := w.pub_plan.tail,
                 next_addr := w.next_addr + 1,
                 trace := w.trace ++
                   [Event.malloc ((render_fmt ALINK_RESPONSE_FMT
                     [some (core_uint2str msg_id), some (core_uint2str code),
                      some data]).length + 1) (some w.next_addr),
                    Event.mqtt_pub (h.mqtt_handle.map (fun t => t.id)) (topic.map Buf.data)
                      (render_fmt ALINK_RESPONSE_FMT
                        [some (core_uint2str msg_id), some (core_uint2str code), some data])
                      (w.pub_plan.headD STATE_SUCCESS),
                    Event.free w.next_addr] }) := by
  have hneg : ¬ STATE_SUCCESS < 0 := by decide
  simp [_dm_send_alink_rsp, core_sprintf_ok, ha, hneg, aiot_mqtt_pub, core_sysdep_free]


/-- A send of an accepted tag whose table entry is `(tpl, func)`, with the
device name `d` resolved in the world `w0` (the world of the call when the
message overrides the name, else that world after two queries of the
transport): the topic is rendered, the encoder called and the topic freed. -/
theorem send_eq (E : DmMsgEnum) (h : dm_handle_t) (tr : MqttHandle) (m : aiot_dm_msg_t)
    (w w0 : World) (d tpl : List Char)
    (func : dm_handle_t → Option Buf → Option aiot_dm_msg_t → World → Option (Int × World))
    (hmax : ¬ E.AIOT_DMMSG_MAX ≤ m.type) (hmh : h.mqtt_handle = some tr)
    (hc : m.type ∈ E.caseLabels)
    (hres : (m.device_name = some d ∧ w0 = w) ∨
      (m.device_name = none ∧ tr.device_name = some d ∧
        w0 = queried (some tr) (queried (some tr) w)))
    (hgt : (g_dm_send_topic_mapping m.type).topic = some tpl)
    (hgf : (g_dm_send_topic_mapping m.type).func = some func) :
    aiot_dm_send E (some h) (some m) w =
      if w0.alloc_plan.head? = some false then
        some (STATE_SYS_DEPEND_MALLOC_FAILED,
          { w0 with alloc_plan := w0.alloc_plan.tail,
                    trace := w0.trace ++
                      [Event.malloc ((render_fmt tpl [some d]).length + 1) none] })
      else
        match func h (some { addr := w0.next_addr, data := render_fmt tpl [some d] }) (some m)
            { w0 with alloc_plan := w0.alloc_plan.tail, next_addr := w0.next_addr + 1,
                      trace := w0.trace ++
                        [Event.malloc ((render_fmt tpl [some d]).length + 1)
                          (some w0.next_addr)] } with
        | none => none
        | some (r, w2) => some (r, core_sysdep_free w0.next_addr w2) := by
  have hneg1 : STATE_SYS_DEPEND_MALLOC_FAILED < 0 := by decide
  have hneg2 : ¬ STATE_SUCCESS < 0 := by decide
  have hprep : _dm_prepare_send_topic E h m w = core_sprintf (some tpl) [some d] w0 := by
    rw [prepare_send_topic_eq, hgt]
    rcases hres with ⟨hd, rfl⟩ | ⟨hd, hb, rfl⟩
    · simp [hd, hc]
    · simp [hd, hmh, hb, hc]
  simp only [aiot_dm_send, hmax, if_false, hmh, hprep]
  by_cases ha : w0.alloc_plan.head? = some false
  · rw [core_sprintf_fail _ _ _ ha]
    simp [ha, hneg1]
  · rw [core_sprintf_ok _ _ _ ha]
    simp only [ha, hneg2, if_false, hgf]


theorem table_entry (t : Nat) (ht : t < 6) :
    ∃ tpl func, (g_dm_send_topic_mapping t).topic = some tpl ∧
      (g_dm_send_topic_mapping t).func = some func := by
  interval_cases t <;> exact ⟨_, _, rfl, rfl⟩

theorem newEvents_self (w : World) : newEvents w w = [] := by simp [newEvents]

theorem newEvents_append (w : World) (a : Int) (b : List Bool) (c : List Int) (n : Nat)
    (es : List Event) :
    newEvents w { alink_id := a, alloc_plan := b, pub_plan := c, next_addr := n,
                  trace := w.trace ++ es } = es := by
  simp [newEvents]

/-- A send that neither allocates nor publishes nor draws an id. -/
theorem send_obs_early (w w1 : World) (r : Int) (t : Nat) (hid : w1.alink_id = w.alink_id)
    (hp : pubStatuses (newEvents w w1) = []) (ha : allocations (newEvents w w1) = []) :
    w.alink_id ≤ w1.alink_id ∧
      (∀ s, pubStatuses (newEvents w w1) = [s] →
        if t = 3 then r = s
        else drawnIds (newEvents w w1) = [w.alink_id + 1] ∧ w1.alink_id = w.alink_id + 1 ∧
          r = if s = STATE_SUCCESS then w.alink_id + 1 else s) ∧
      (∀ a b, allocations (newEvents w w1) = [some a, some b] →
        ∃ s, pubStatuses (newEvents w w1) = [s]) ∧
      (none ∈ allocations (newEvents w w1) →
        r = STATE_SYS_DEPEND_MALLOC_FAILED ∧ pubStatuses (newEvents w w1) = []) ∧
      (pubStatuses (newEvents w w1)).length ≤ 1 := by
  rw [hp, ha, hid]
  simp

theorem pubStatuses_append (a b : List Event) :
    pubStatuses (a ++ b) = pubStatuses a ++ pubStatuses b := by
  simp [pubStatuses, List.filterMap_append]

theorem allocations_append (a b : List Event) :
    allocations (a ++ b) = allocations a ++ allocations b := by
  simp [allocations, List.filterMap_append]

theorem drawnIds_append (a b : List Event) :
    drawnIds (a ++ b) = drawnIds a ++ drawnIds b := by
  simp [drawnIds, List.filterMap_append]

theorem newEvents_pre (w : World) (a : Int) (b : List Bool) (c : List Int) (n : Nat)
    (pre es : List Event) :
    newEvents w { alink_id := a, alloc_plan := b, pub_plan := c, next_addr := n,
                  trace := w.trace ++ pre ++ es } = pre ++ es := by
  simp [newEvents]

theorem send_obs_resolved (E : DmMsgEnum) (h : dm_handle_t) (tr : MqttHandle)
    (m : aiot_dm_msg_t) (w w0 : World) (d : List Char) (ht : m.type < 6)
    (hmax : ¬ E.AIOT_DMMSG_MAX ≤ m.type) (hmh : h.mqtt_handle = some tr)
    (hc : m.type ∈ E.caseLabels)
    (hres : (m.device_name = some d ∧ w0 = w) ∨
      (m.device_name = none ∧ tr.device_name = some d ∧
        w0 = queried (some tr) (queried (some tr) w))) :
    ∃ r w1, aiot_dm_send E (some h) (some m) w = some (r, w1) ∧
      w.alink_id ≤ w1.alink_id ∧
      (∀ s, pubStatuses (newEvents w w1) = [s] →
        if m.type = 3 then r = s
        else drawnIds (newEvents w w1) = [w.alink_id + 1] ∧ w1.alink_id = w.alink_id + 1 ∧
          r = if s = STATE_SUCCESS then w.alink_id + 1 else s) ∧
      (∀ a b, allocations (newEvents w w1) = [some a, some b] →
        ∃ s, pubStatuses (newEvents w w1) = [s]) ∧
      (none ∈ allocations (newEvents w w1) →
        r = STATE_SYS_DEPEND_MALLOC_FAILED ∧ pubStatuses (newEvents w w1) = []) ∧
      (pubStatuses (newEvents w w1)).length ≤ 1 := by
  obtain ⟨tpl, func, hgt, hgf⟩ := table_entry m.type ht
  have hw0 : ∃ pre, w0 = { w with trace := w.trace ++ pre } ∧ pubStatuses pre = [] ∧
      allocations pre = [] ∧ drawnIds pre = [] := by
    rcases hres with ⟨_, rfl⟩ | ⟨_, _, rfl⟩
    · exact ⟨[], by simp, rfl, rfl, rfl⟩
    · exact ⟨[Event.get_device_name (some tr.id), Event.get_device_name (some tr.id)],
        by simp [queried], rfl, rfl, rfl⟩
  obtain ⟨pre, rfl, hpre1, hpre2, hpre3⟩ := hw0
  rw [send_eq E h tr m w _ d tpl func hmax hmh hc hres hgt hgf]
  by_cases ha1 : w.alloc_plan.head? = some false
  · refine ⟨_, _, by rw [if_pos ha1], ?_⟩
    simp only [newEvents_pre, pubStatuses_append, allocations_append, drawnIds_append, hpre1,
      hpre2, hpre3, List.nil_append]
    simp [pubStatuses, allocations, drawnIds]
  · rw [if_neg ha1]
    obtain ⟨dn, t, dat⟩ := m
    simp only at ht hgt hgf
    have hneg : ¬ STATE_SUCCESS < 0 := by decide
    rcases hdata : dat.property_set_reply.data with _ | data <;>
    by_cases ha2 : w.alloc_plan.tail.head? = some false <;>
    interval_cases t <;>
    simp only [g_dm_send_topic_mapping, Option.some.injEq] at hgf <;>
    subst hgf <;>
    simp only [_dm_send_get_reg_post, _dm_send_property_post, _dm_send_event_post,
      _dm_send_service_reply, _dm_send_property_batch_post, _dm_send_property_set_reply,
      send_reg_req_eq, send_prop_req_eq, send_event_req_eq, send_service_req_eq, hdata] <;>
    (first
      | rw [send_req_common_fail _ _ _ _ _ ha2]
      | rw [send_req_common_ok _ _ _ _ _ ha2]
      | rw [send_alink_rsp_fail _ _ _ _ _ _ ha2]
      | rw [send_alink_rsp_ok _ _ _ _ _ _ ha2]
      | simp only [_dm_send_alink_rsp]) <;>
    refine ⟨_, _, rfl, ?_⟩ <;>
    simp only [pubStatuses, allocations, drawnIds] at hpre1 hpre2 hpre3 ⊢ <;>
    simp [core_sysdep_free, List.append_assoc, newEvents_append, List.filterMap_append,
      hpre1, hpre2, hpre3] <;>
    simp only [@eq_comm Int STATE_SUCCESS]

/-- What a send of a tag with an initialised table entry does, read off the
calls it makes. -/
theorem send_obs (E : DmMsgEnum) (h : dm_handle_t) (m : aiot_dm_msg_t) (w : World)
    (ht : m.type < 6) :
    ∃ r w1, aiot_dm_send E (some h) (some m) w = some (r, w1) ∧
      w.alink_id ≤ w1.alink_id ∧
      (∀ s, pubStatuses (newEvents w w1) = [s] →
        if m.type = 3 then r = s
        else drawnIds (newEvents w w1) = [w.alink_id + 1] ∧ w1.alink_id = w.alink_id + 1 ∧
          r = if s = STATE_SUCCESS then w.alink_id + 1 else s) ∧
      (∀ a b, allocations (newEvents w w1) = [some a, some b] →
        ∃ s, pubStatuses (newEvents w w1) = [s]) ∧
      (none ∈ allocations (newEvents w w1) →
        r = STATE_SYS_DEPEND_MALLOC_FAILED ∧ pubStatuses (newEvents w w1) = []) ∧
      (pubStatuses (newEvents w w1)).length ≤ 1 := by
  by_cases hmax : E.AIOT_DMMSG_MAX ≤ m.type
  · exact ⟨STATE_USER_INPUT_OUT_RANGE, w, by simp [aiot_dm_send, hmax],
      send_obs_early w w _ _ rfl (by simp [newEvents_self, pubStatuses])
        (by simp [newEvents_self, allocations])⟩
  rcases hmh : h.mqtt_handle with _ | tr
  · exact ⟨STATE_DM_MQTT_HANDLE_IS_NULL, w, by simp [aiot_dm_send, hmax, hmh],
      send_obs_early w w _ _ rfl (by simp [newEvents_self, pubStatuses])
        (by simp [newEvents_self, allocations])⟩
  have hq1 : newEvents w (queried (some tr) w) = [Event.get_device_name (some tr.id)] := by
    simp [queried, newEvents]
  have hq2 : newEvents w (queried (some tr) (queried (some tr) w)) =
      [Event.get_device_name (some tr.id), Event.get_device_name (some tr.id)] := by
    simp [queried, newEvents]
  rcases hd : m.device_name with _ | d0
  · rcases hb : tr.device_name with _ | d1
    · exact ⟨STATE_USER_INPUT_MISSING_DEVICE_NAME, queried (some tr) w,
        by simp [aiot_dm_send, prepare_send_topic_eq, hmax, hmh, hb, hd,
          STATE_USER_INPUT_MISSING_DEVICE_NAME],
        send_obs_early _ _ _ _ rfl (by simp [hq1, pubStatuses]) (by simp [hq1, allocations])⟩
    · by_cases hc : m.type ∈ E.caseLabels
      · exact send_obs_resolved E h tr m w _ d1 ht hmax hmh hc (Or.inr ⟨hd, hb, rfl⟩)
      · exact ⟨STATE_USER_INPUT_OUT_RANGE, queried (some tr) (queried (some tr) w),
          by simp [aiot_dm_send, prepare_send_topic_eq, hmax, hmh, hb, hd, hc,
            STATE_USER_INPUT_OUT_RANGE],
          send_obs_early _ _ _ _ rfl (by simp [hq2, pubStatuses]) (by simp [hq2, allocations])⟩
  · by_cases hc : m.type ∈ E.caseLabels
    · exact send_obs_resolved E h tr m w w d0 ht hmax hmh hc (Or.inl ⟨hd, rfl⟩)
    · exact ⟨STATE_USER_INPUT_OUT_RANGE, w,
        by simp [aiot_dm_send, prepare_send_topic_eq, hmax, hmh, hd, hc,
          STATE_USER_INPUT_OUT_RANGE],
        send_obs_early w w _ _ rfl (by simp [newEvents_self, pubStatuses])
          (by simp [newEvents_self, allocations])⟩

/-! ### Sending -/

theorem table_entry_none (t : Nat) (ht : 6 ≤ t) :
    (g_dm_send_topic_mapping t).topic = none := by
  obtain ⟨k, rfl⟩ : ∃ k, t = k + 6 := ⟨t - 6, by omega⟩
  rfl

theorem case_label_above_table (E : DmMsgEnum) (hwf : E.wf) : ∃ t ∈ E.caseLabels, 6 ≤ t := by
  by_contra hno
  push_neg at hno
  have hsub : E.caseLabels ⊆ List.range 6 := by
    intro t ht
    exact List.mem_range.mpr (hno t ht)
  have hle := (List.subperm_of_subset hwf.1 hsub).length_le
  simp [DmMsgEnum.caseLabels] at hle

/-- Whatever values the absent header gives the message tags, one tag below
`AIOT_DMMSG_MAX` that the switch of `_dm_prepare_send_topic` accepts has no
initialiser in `g_dm_send_topic_mapping`: sending it on a context with a
transport and a resolved device name hands the null template of that entry
to the renderer, so no topic is rendered and nothing is published. -/
theorem send_tag_without_table_entry (E : DmMsgEnum) (hwf : E.wf) :
    ∃ t, t < E.AIOT_DMMSG_MAX ∧ t ∈ E.caseLabels ∧
      ∀ (h : dm_handle_t) (tr : MqttHandle) (m : aiot_dm_msg_t) (w : World),
        h.mqtt_handle = some tr → m.type = t →
        (m.device_name ≠ none ∨ tr.device_name ≠ none) →
        aiot_dm_send E (some h) (some m) w = none := by
  obtain ⟨t, htc, ht6⟩ := case_label_above_table E hwf
  refine ⟨t, hwf.2 t htc, htc, ?_⟩
  intro h tr m w hmh hmt hdn
  subst hmt
  have hmax : ¬ E.AIOT_DMMSG_MAX ≤ m.type := Nat.not_le.mpr (hwf.2 _ htc)
  have hprep : _dm_prepare_send_topic E h m w = none := by
    rw [prepare_send_topic_eq, table_entry_none _ ht6]
    rcases hd : m.device_name with _ | d0
    · rcases hb : tr.device_name with _ | d1
      · simp [hd, hb] at hdn
      · simp [hmh, hb, htc, core_sprintf]
    · simp [htc, core_sprintf]
  simp [aiot_dm_send, hmax, hmh, hprep]

/-- The sample enumeration has such a tag. -/
theorem sample_tag_without_table_entry :
    DmMsgEnum.sample.wf ∧
    ∃ t, t < DmMsgEnum.sample.AIOT_DMMSG_MAX ∧ t ∈ DmMsgEnum.sample.caseLabels ∧
      ∀ (h : dm_handle_t) (tr : MqttHandle) (m : aiot_dm_msg_t) (w : World),
        h.mqtt_handle = some tr → m.type = t →
        (m.device_name ≠ none ∨ tr.device_name ≠ none) →
        aiot_dm_send DmMsgEnum.sample (some h) (some m) w = none :=
  ⟨by decide, send_tag_without_table_entry DmMsgEnum.sample (by decide)⟩

theorem render_get_device (a b : List Char) :
    render_fmt XJT_GET_DEVICE [some a, some b] =
      "\x7b\"id\":\"".toList ++ a ++ "\",\"eventTime\":,\"".toList ++ b ++ "\"\x7d".toList := by
  simp [render_fmt, XJT_GET_DEVICE]

theorem render_prop_post (a b : List Char) :
    render_fmt XJT_PROP_POST [some a, some b] =
      "\x7b\"id\":\"".toList ++ a ++ "\",\"devices\":[".toList ++ b ++ "]\x7d".toList := by
  simp [render_fmt, XJT_PROP_POST]

theorem render_event_post (a b c d : List Char) :
    render_fmt XJT_EVENT_POST [some a, some b, some c, some d] =
      "\x7b\"id\":\"".toList ++ a ++ "\",\"time\":\"".toList ++ b ++
        "\",\"identifier\":\"".toList ++ c ++ "\",\"data\":".toList ++ d ++ "\x7d".toList := by
  simp [render_fmt, XJT_EVENT_POST]

theorem render_service_reply (a b c : List Char) :
    render_fmt XJT_SERVICE_REPLY [some a, some b, some c] =
      "\x7b\"id\":\"".toList ++ a ++ "\",\"code\":\"".toList ++ b ++
        "\",\"message\":\"".toList ++ c ++ "\"\x7d".toList := by
  simp [render_fmt, XJT_SERVICE_REPLY]

theorem render_alink_response (a b c : List Char) :
    render_fmt ALINK_RESPONSE_FMT [some a, some b, some c] =
      "\x7b\"id\":\"".toList ++ a ++ "\",\"code\":".toList ++ b ++ ",\"data\":".toList ++ c ++
        "\x7d".toList := by
  simp [render_fmt, ALINK_RESPONSE_FMT]


theorem event_post_fields (a b c d : List Char) :
    b <:+: render_fmt XJT_EVENT_POST [some a, some b, some c, some d] ∧
    c <:+: render_fmt XJT_EVENT_POST [some a, some b, some c, some d] ∧
    d <:+: render_fmt XJT_EVENT_POST [some a, some b, some c, some d] := by
  rw [render_event_post]
  refine ⟨⟨"\x7b\"id\":\"".toList ++ a ++ "\",\"time\":\"".toList,
      "\",\"identifier\":\"".toList ++ c ++ "\",\"data\":".toList ++ d ++ "\x7d".toList, ?_⟩,
    ⟨"\x7b\"id\":\"".toList ++ a ++ "\",\"time\":\"".toList ++ b ++
      "\",\"identifier\":\"".toList, "\",\"data\":".toList ++ d ++ "\x7d".toList, ?_⟩,
    ⟨_, _, rfl⟩⟩ <;>
  simp only [List.append_assoc]

theorem service_reply_fields (a b c : List Char) :
    b <:+: render_fmt XJT_SERVICE_REPLY [some a, some b, some c] ∧
    c <:+: render_fmt XJT_SERVICE_REPLY [some a, some b, some c] := by
  rw [render_service_reply]
  refine ⟨⟨"\x7b\"id\":\"".toList ++ a ++ "\",\"code\":\"".toList,
      "\",\"message\":\"".toList ++ c ++ "\"\x7d".toList, ?_⟩, ⟨_, _, rfl⟩⟩
  simp only [List.append_assoc]

theorem alink_response_fields (a b c : List Char) :
    a <:+: render_fmt ALINK_RESPONSE_FMT [some a, some b, some c] ∧
    b <:+: render_fmt ALINK_RESPONSE_FMT [some a, some b, some c] ∧
    c <:+: render_fmt ALINK_RESPONSE_FMT [some a, some b, some c] := by
  rw [render_alink_response]
  refine ⟨⟨"\x7b\"id\":\"".toList,
      "\",\"code\":".toList ++ b ++ ",\"data\":".toList ++ c ++ "\x7d".toList, ?_⟩,
    ⟨"\x7b\"id\":\"".toList ++ a ++ "\",\"code\":".toList,
      ",\"data\":".toList ++ c ++ "\x7d".toList, ?_⟩,
    ⟨_, _, rfl⟩⟩ <;>
  simp only [List.append_assoc]

theorem publishes_append (a b : List Event) :
    publishes (a ++ b) = publishes a ++ publishes b := by
  simp [publishes, List.filterMap_append]

theorem send_publishes_resolved (E : DmMsgEnum) (h : dm_handle_t) (tr : MqttHandle)
    (m : aiot_dm_msg_t) (w w0 : World) (d : List Char) (ht6 : m.type < 6)
    (hmax : m.type < E.AIOT_DMMSG_MAX) (hc : m.type ∈ E.caseLabels)
    (hmh : h.mqtt_handle = some tr)
    (hres : (m.device_name = some d ∧ w0 = w) ∨
      (m.device_name = none ∧ tr.device_name = some d ∧
        w0 = queried (some tr) (queried (some tr) w)))
    (hfields : ∀ f ∈ required_fields m, f ≠ none)
    (ha1 : ¬ w.alloc_plan.head? = some false) (ha2 : ¬ w.alloc_plan.tail.head? = some false) :
    ∃ r w1 payload, aiot_dm_send E (some h) (some m) w = some (r, w1) ∧
      publishes (newEvents w w1) =
        [(some ("/v1/device/up/".toList ++ send_operation m.type ++ '/' :: d), payload)] ∧
      ∀ v, some v ∈ required_fields m → v <:+: payload := by
  have hw0 : ∃ pre, w0 = { w with trace := w.trace ++ pre } ∧ publishes pre = [] := by
    rcases hres with ⟨_, rfl⟩ | ⟨_, _, rfl⟩
    · exact ⟨[], by simp, rfl⟩
    · exact ⟨[Event.get_device_name (some tr.id), Event.get_device_name (some tr.id)],
        by simp [queried], rfl⟩
  obtain ⟨pre, rfl, hpre⟩ := hw0
  obtain ⟨dn, t, dat⟩ := m
  simp only at ht6 hmax hc
  simp only [publishes] at hpre
  interval_cases t
  · have hf : dat.get_reg_post.time ≠ none := by simpa [required_fields] using hfields
    obtain ⟨v1, hv1⟩ := Option.ne_none_iff_exists'.mp hf
    rw [send_eq E h tr _ w _ d _ _ (Nat.not_le.mpr hmax) hmh hc hres rfl rfl]
    rw [if_neg ha1]
    simp only [_dm_send_get_reg_post, send_reg_req_eq]
    rw [send_req_common_ok _ _ _ _ _ ha2]
    refine ⟨_, _, render_fmt XJT_GET_DEVICE [some (core_int2str (w.alink_id + 1)), some v1],
      rfl, ?_, ?_⟩
    · simp [core_sysdep_free, List.append_assoc, newEvents_append, publishes,
        List.filterMap_append, hpre, hv1, render_fmt, send_operation]
    · intro v hv
      simp only [required_fields, hv1, List.mem_singleton, Option.some.injEq] at hv
      subst hv
      rw [render_get_device]
      exact ⟨_, _, rfl⟩
  · have hf : dat.property_post.params ≠ none := by simpa [required_fields] using hfields
    obtain ⟨v1, hv1⟩ := Option.ne_none_iff_exists'.mp hf
    rw [send_eq E h tr _ w _ d _ _ (Nat.not_le.mpr hmax) hmh hc hres rfl rfl]
    rw [if_neg ha1]
    simp only [_dm_send_property_post, send_prop_req_eq]
    rw [send_req_common_ok _ _ _ _ _ ha2]
    refine ⟨_, _, render_fmt XJT_PROP_POST [some (core_int2str (w.alink_id + 1)), some v1],
      rfl, ?_, ?_⟩
    · simp [core_sysdep_free, List.append_assoc, newEvents_append, publishes,
        List.filterMap_append, hpre, hv1, render_fmt, send_operation]
    · intro v hv
      simp only [required_fields, hv1, List.mem_singleton, Option.some.injEq] at hv
      subst hv
      rw [render_prop_post]
      exact ⟨_, _, rfl⟩
  · have hf : dat.xjt_event_post.time ≠ none ∧ dat.xjt_event_post.event_id ≠ none ∧
        dat.xjt_event_post.params ≠ none := by simpa [required_fields] using hfields
    obtain ⟨v1, hv1⟩ := Option.ne_none_iff_exists'.mp hf.1
    obtain ⟨v2, hv2⟩ := Option.ne_none_iff_exists'.mp hf.2.1
    obtain ⟨v3, hv3⟩ := Option.ne_none_iff_exists'.mp hf.2.2
    rw [send_eq E h tr _ w _ d _ _ (Nat.not_le.mpr hmax) hmh hc hres rfl rfl]
    rw [if_neg ha1]
    simp only [_dm_send_event_post, send_event_req_eq]
    rw [send_req_common_ok _ _ _ _ _ ha2]
    refine ⟨_, _, render_fmt XJT_EVENT_POST
      [some (core_int2str (w.alink_id + 1)), some v1, some v2, some v3], rfl, ?_, ?_⟩
    · simp [core_sysdep_free, List.append_assoc, newEvents_append, publishes,
        List.filterMap_append, hpre, hv1, hv2, hv3, render_fmt, send_operation]
    · intro v hv
      have hfl := event_post_fields (core_int2str (w.alink_id + 1)) v1 v2 v3
      simp only [required_fields, hv1, hv2, hv3, List.mem_cons, List.mem_singleton,
        Option.some.injEq, List.not_mem_nil, or_false] at hv
      rcases hv with rfl | rfl | rfl
      · exact hfl.1
      · exact hfl.2.1
      · exact hfl.2.2
  · have hf : dat.property_set_reply.data ≠ none := by simpa [required_fields] using hfields
    obtain ⟨v1, hv1⟩ := Option.ne_none_iff_exists'.mp hf
    rw [send_eq E h tr _ w _ d _ _ (Nat.not_le.mpr hmax) hmh hc hres rfl rfl]
    rw [if_neg ha1]
    simp only [_dm_send_property_set_reply, hv1]
    rw [send_alink_rsp_ok _ _ _ _ _ _ ha2]
    refine ⟨_, _, render_fmt ALINK_RESPONSE_FMT
      [some (core_uint2str dat.property_set_reply.msg_id),
       some (core_uint2str dat.property_set_reply.code), some v1], rfl, ?_, ?_⟩
    · simp [core_sysdep_free, List.append_assoc, newEvents_append, publishes,
        List.filterMap_append, hpre, render_fmt, send_operation]
    · intro v hv
      have hfl := alink_response_fields (core_uint2str dat.property_set_reply.msg_id)
        (core_uint2str dat.property_set_reply.code) v1
      simp only [required_fields, hv1, List.mem_cons, List.mem_singleton,
        Option.some.injEq, List.not_mem_nil, or_false] at hv
      rcases hv with rfl | rfl | rfl
      · exact hfl.1
      · exact hfl.2.1
      · exact hfl.2.2
  · have hf : dat.xjt_service_rep.code ≠ none ∧ dat.xjt_service_rep.params ≠ none := by
      simpa [required_fields] using hfields
    obtain ⟨v1, hv1⟩ := Option.ne_none_iff_exists'.mp hf.1
    obtain ⟨v2, hv2⟩ := Option.ne_none_iff_exists'.mp hf.2
    rw [send_eq E h tr _ w _ d _ _ (Nat.not_le.mpr hmax) hmh hc hres rfl rfl]
    rw [if_neg ha1]
    simp only [_dm_send_service_reply, send_service_req_eq]
    rw [send_req_common_ok _ _ _ _ _ ha2]
    refine ⟨_, _, render_fmt XJT_SERVICE_REPLY
      [some (core_int2str (w.alink_id + 1)), some v1, some v2], rfl, ?_, ?_⟩
    · simp [core_sysdep_free, List.append_assoc, newEvents_append, publishes,
        List.filterMap_append, hpre, hv1, hv2, render_fmt, send_operation]
    · intro v hv
      have hfl := service_reply_fields (core_int2str (w.alink_id + 1)) v1 v2
      simp only [required_fields, hv1, hv2, List.mem_cons, List.mem_singleton,
        Option.some.injEq, List.not_mem_nil, or_false] at hv
      rcases hv with rfl | rfl
      · exact hfl.1
      · exact hfl.2
  · have hf : dat.property_post.params ≠ none := by simpa [required_fields] using hfields
    obtain ⟨v1, hv1⟩ := Option.ne_none_iff_exists'.mp hf
    rw [send_eq E h tr _ w _ d _ _ (Nat.not_le.mpr hmax) hmh hc hres rfl rfl]
    rw [if_neg ha1]
    simp only [_dm_send_property_batch_post, send_prop_req_eq]
    rw [send_req_common_ok _ _ _ _ _ ha2]
    refine ⟨_, _, render_fmt XJT_PROP_POST [some (core_int2str (w.alink_id + 1)), some v1],
      rfl, ?_, ?_⟩
    · simp [core_sysdep_free, List.append_assoc, newEvents_append, publishes,
        List.filterMap_append, hpre, hv1, render_fmt, send_operation]
    · intro v hv
      simp only [required_fields, hv1, List.mem_singleton, Option.some.injEq] at hv
      subst hv
      rw [render_prop_post]
      exact ⟨_, _, rfl⟩

/-- C1, amended.  For a tag below `AIOT_DMMSG_MAX` that the switch of
`_dm_prepare_send_topic` accepts and whose entry of `g_dm_send_topic_mapping`
has an initialiser (index 0 to 5), on a context with a transport, with the
device name `d` resolved from the override of the message or else from the
default of the transport, with every field the payload template takes
present, and when the allocator returns the two buffers asked of it: the
entry's template is the literal `/v1/device/up/<operation>/%s`, the send
publishes once, on that template with `d` in place of `%s`, and every
required field value is a substring of the payload. -/
theorem send_publishes_on_template (E : DmMsgEnum) (h : dm_handle_t) (tr : MqttHandle)
    (m : aiot_dm_msg_t) (w : World) (d : List Char) (ht6 : m.type < 6)
    (hmax : m.type < E.AIOT_DMMSG_MAX) (hc : m.type ∈ E.caseLabels)
    (hmh : h.mqtt_handle = some tr)
    (hres : m.device_name = some d ∨ (m.device_name = none ∧ tr.device_name = some d))
    (hfields : ∀ f ∈ required_fields m, f ≠ none)
    (ha1 : ¬ w.alloc_plan.head? = some false) (ha2 : ¬ w.alloc_plan.tail.head? = some false) :
    (g_dm_send_topic_mapping m.type).topic =
        some ("/v1/device/up/".toList ++ send_operation m.type ++ "/%s".toList) ∧
    ∃ r w1 payload, aiot_dm_send E (some h) (some m) w = some (r, w1) ∧
      publishes (newEvents w w1) =
        [(some ("/v1/device/up/".toList ++ send_operation m.type ++ '/' :: d), payload)] ∧
      ∀ v, some v ∈ required_fields m → v <:+: payload := by
  constructor
  · have ht := ht6
    revert ht
    generalize m.type = t
    intro ht
    interval_cases t <;> rfl
  · rcases hres with hd | ⟨hd, hb⟩
    · exact send_publishes_resolved E h tr m w w d ht6 hmax hc hmh (Or.inl ⟨hd, rfl⟩) hfields
        ha1 ha2
    · exact send_publishes_resolved E h tr m w _ d ht6 hmax hc hmh (Or.inr ⟨hd, hb, rfl⟩)
        hfields ha1 ha2

/-- Witness for `send_publishes_on_template`: a property post on the sample
context, the device name coming from the transport. -/
theorem send_publishes_on_template_witness :
    (g_dm_send_topic_mapping (sample_msg 1).type).topic =
        some ("/v1/device/up/".toList ++ send_operation (sample_msg 1).type ++ "/%s".toList) ∧
    ∃ r w1 payload, aiot_dm_send DmMsgEnum.sample (some sample_handle) (some (sample_msg 1))
        World.init = some (r, w1) ∧
      publishes (newEvents World.init w1) =
        [(some ("/v1/device/up/".toList ++ send_operation (sample_msg 1).type ++
            '/' :: "devA".toList), payload)] ∧
      ∀ v, some v ∈ required_fields (sample_msg 1) → v <:+: payload :=
  send_publishes_on_template DmMsgEnum.sample sample_handle sample_transport (sample_msg 1)
    World.init "devA".toList (by decide) (by decide) (by decide) rfl (Or.inr ⟨rfl, rfl⟩)
    (by decide) (by decide) (by decide)

/-- C1, as stated, fails on the code.  Whatever values the header gives the
tags, some tag below `AIOT_DMMSG_MAX` that the switch accepts has a table
entry without initialiser, and a send of it hands a null template to the
renderer; with the tags numbered as in `DmMsgEnum.sample`, tag 7 is one.
And a send whose topic buffer the allocator refuses (tag 1 on the sample
context) returns `STATE_SYS_DEPEND_MALLOC_FAILED` and publishes nothing. -/
theorem send_claim_fails :
    (∀ E : DmMsgEnum, E.wf → ∃ t, t < E.AIOT_DMMSG_MAX ∧ t ∈ E.caseLabels ∧
      ∀ (h : dm_handle_t) (tr : MqttHandle) (m : aiot_dm_msg_t) (w : World),
        h.mqtt_handle = some tr → m.type = t →
        (m.device_name ≠ none ∨ tr.device_name ≠ none) →
        aiot_dm_send E (some h) (some m) w = none) ∧
    (7 < DmMsgEnum.sample.AIOT_DMMSG_MAX ∧ 7 ∈ DmMsgEnum.sample.caseLabels ∧
      aiot_dm_send DmMsgEnum.sample (some sample_handle) (some (sample_msg 7)) World.init
        = none) ∧
    (∃ w1, aiot_dm_send DmMsgEnum.sample (some sample_handle) (some (sample_msg 1))
        { World.init with alloc_plan := [false] }
          = some (STATE_SYS_DEPEND_MALLOC_FAILED, w1) ∧
      publishes (newEvents { World.init with alloc_plan := [false] } w1) = []) := by
  refine ⟨send_tag_without_table_entry, ⟨by decide, by decide, by decide⟩, ?_⟩
  refine ⟨world_after_send DmMsgEnum.sample sample_handle (sample_msg 1)
    { World.init with alloc_plan := [false] }, ?_, ?_⟩ <;> decide

/-- C2.  A send whose tag is at or above `AIOT_DMMSG_MAX` returns
`STATE_USER_INPUT_OUT_RANGE` and leaves the world as it was: the trace, the
id counter and the plans of the allocator and of the transport are unchanged,
so no device name was queried, nothing published, rendered or drawn. -/
theorem send_tag_out_of_range (E : DmMsgEnum) (h : dm_handle_t) (m : aiot_dm_msg_t) (w : World)
    (ht : E.AIOT_DMMSG_MAX ≤ m.type) :
    aiot_dm_send E (some h) (some m) w = some (STATE_USER_INPUT_OUT_RANGE, w) := by
  simp [aiot_dm_send, ht]

/-- Witness for `send_tag_out_of_range`: tag 11 under the sample enumeration. -/
theorem send_tag_out_of_range_witness :
    DmMsgEnum.sample.AIOT_DMMSG_MAX ≤ (sample_msg 11).type ∧
    aiot_dm_send DmMsgEnum.sample (some sample_handle) (some (sample_msg 11)) World.init =
      some (STATE_USER_INPUT_OUT_RANGE, World.init) :=
  ⟨by decide, send_tag_out_of_range DmMsgEnum.sample sample_handle (sample_msg 11) World.init
    (by decide)⟩

/-- C3.  With a transport attached, a tag in range, no override in the
message and no default in the transport, a send returns
`STATE_USER_INPUT_MISSING_DEVICE_NAME`; the only call it has made is the one
query of the transport's device name: nothing was allocated or rendered, no
id drawn, no diagnostic record appended, nothing published. -/
theorem send_missing_device_name (E : DmMsgEnum) (h : dm_handle_t) (tr : MqttHandle)
    (m : aiot_dm_msg_t) (w : World) (hh : h.mqtt_handle = some tr)
    (ht : m.type < E.AIOT_DMMSG_MAX) (hm : m.device_name = none) (hd : tr.device_name = none) :
    aiot_dm_send E (some h) (some m) w =
      some (STATE_USER_INPUT_MISSING_DEVICE_NAME,
        { w with trace := w.trace ++ [Event.get_device_name (some tr.id)] }) := by
  simp [aiot_dm_send, _dm_prepare_send_topic, core_mqtt_get_device_name, hh, hm, hd,
    Nat.not_le.mpr ht, STATE_USER_INPUT_MISSING_DEVICE_NAME]

/-- Witness for `send_missing_device_name`: a transport without device name. -/
theorem send_missing_device_name_witness :
    aiot_dm_send DmMsgEnum.sample
      (some { sample_handle with mqtt_handle := some { id := 7, device_name := none } })
      (some (sample_msg 1)) World.init =
      some (STATE_USER_INPUT_MISSING_DEVICE_NAME,
        { World.init with trace := World.init.trace ++ [Event.get_device_name (some 7)] }) :=
  send_missing_device_name DmMsgEnum.sample
    { sample_handle with mqtt_handle := some { id := 7, device_name := none } }
    { id := 7, device_name := none } (sample_msg 1) World.init rfl (by decide) rfl rfl

/-- C4.  After `CORE_MQTTEVT_DEINIT` has been delivered to a context, a send
of a tag in range on any context that still has the transport handle the
event left (no transport attached since) returns
`STATE_DM_MQTT_HANDLE_IS_NULL` and leaves the world as it was: no call is
made on the former transport. -/
theorem send_after_deinit (E : DmMsgEnum) (h h1 : dm_handle_t) (m : aiot_dm_msg_t) (w : World)
    (hh : h1.mqtt_handle = (_dm_core_mqtt_process_handler h
      (some core_mqtt_event_type_t.CORE_MQTTEVT_DEINIT)).mqtt_handle)
    (ht : m.type < E.AIOT_DMMSG_MAX) :
    aiot_dm_send E (some h1) (some m) w = some (STATE_DM_MQTT_HANDLE_IS_NULL, w) := by
  simp [_dm_core_mqtt_process_handler] at hh
  simp [aiot_dm_send, hh, Nat.not_le.mpr ht]

/-- Witness for `send_after_deinit`: the sample context after the event. -/
theorem send_after_deinit_witness :
    (_dm_core_mqtt_process_handler sample_handle
      (some core_mqtt_event_type_t.CORE_MQTTEVT_DEINIT)).mqtt_handle = none ∧
    aiot_dm_send DmMsgEnum.sample
      (some (_dm_core_mqtt_process_handler sample_handle
        (some core_mqtt_event_type_t.CORE_MQTTEVT_DEINIT)))
      (some (sample_msg 1)) World.init = some (STATE_DM_MQTT_HANDLE_IS_NULL, World.init) :=
  ⟨rfl, send_after_deinit DmMsgEnum.sample sample_handle _ (sample_msg 1) World.init rfl
    (by decide)⟩

/-- C5.  A send of a tag with an initialised table entry always returns.  When
it has published, with status `s`: for the set-reply entry (index 3) the
result is `s`; for the five request entries exactly one id was drawn from the
generator, and the result is that id when `s` is `STATE_SUCCESS` and `s`
itself otherwise.  When both renderings got their buffer, the publish has
taken place.  When a rendering failed, the result is its negative code
`STATE_SYS_DEPEND_MALLOC_FAILED` and nothing was published. -/
theorem send_returns_publish_outcome (E : DmMsgEnum) (h : dm_handle_t) (m : aiot_dm_msg_t)
    (w : World) (ht : m.type < 6) :
    ∃ r w1, aiot_dm_send E (some h) (some m) w = some (r, w1) ∧
      (∀ s, pubStatuses (newEvents w w1) = [s] →
        if m.type = 3 then r = s
        else ∃ id, drawnIds (newEvents w w1) = [id] ∧ (s = STATE_SUCCESS → r = id) ∧
          (s ≠ STATE_SUCCESS → r = s)) ∧
      (∀ a b, allocations (newEvents w w1) = [some a, some b] →
        ∃ s, pubStatuses (newEvents w w1) = [s]) ∧
      (none ∈ allocations (newEvents w w1) →
        r = STATE_SYS_DEPEND_MALLOC_FAILED ∧ r < 0 ∧ pubStatuses (newEvents w w1) = []) ∧
      (pubStatuses (newEvents w w1)).length ≤ 1 := by
  obtain ⟨r, w1, hs, _, hpub, hall, hfail, hlen⟩ := send_obs E h m w ht
  refine ⟨r, w1, hs, ?_, hall, ?_, hlen⟩
  · intro s hp
    have := hpub s hp
    by_cases h3 : m.type = 3
    · simpa [h3] using this
    · simp only [h3, if_false] at this ⊢
      obtain ⟨hd, _, hr⟩ := this
      refine ⟨_, hd, ?_, ?_⟩
      · intro hs0; simp [hr, hs0]
      · intro hs0; simp [hr, hs0]
  · intro hn
    obtain ⟨hr, hp⟩ := hfail hn
    exact ⟨hr, by rw [hr]; decide, hp⟩

/-- Witness for `send_returns_publish_outcome`: a property post on the sample
context. -/
theorem send_returns_publish_outcome_witness :
    ∃ r w1, aiot_dm_send DmMsgEnum.sample (some sample_handle) (some (sample_msg 1))
        World.init = some (r, w1) ∧
      (∀ s, pubStatuses (newEvents World.init w1) = [s] →
        if (sample_msg 1).type = 3 then r = s
        else ∃ id, drawnIds (newEvents World.init w1) = [id] ∧ (s = STATE_SUCCESS → r = id) ∧
          (s ≠ STATE_SUCCESS → r = s)) ∧
      (∀ a b, allocations (newEvents World.init w1) = [some a, some b] →
        ∃ s, pubStatuses (newEvents World.init w1) = [s]) ∧
      (none ∈ allocations (newEvents World.init w1) →
        r = STATE_SYS_DEPEND_MALLOC_FAILED ∧ r < 0 ∧
          pubStatuses (newEvents World.init w1) = []) ∧
      (pubStatuses (newEvents World.init w1)).length ≤ 1 :=
  send_returns_publish_outcome DmMsgEnum.sample sample_handle (sample_msg 1) World.init
    (by decide)

/-- No send moves the id counter backwards. -/
theorem send_alink_id_mono (E : DmMsgEnum) (h : Option dm_handle_t) (m : Option aiot_dm_msg_t)
    (w w1 : World) (r : Int) (hs : aiot_dm_send E h m w = some (r, w1)) :
    w.alink_id ≤ w1.alink_id := by
  rcases h with _ | h
  · simp [aiot_dm_send] at hs
    rw [← hs.2]
  rcases m with _ | m
  · simp [aiot_dm_send] at hs
    rw [← hs.2]
  by_cases ht : m.type < 6
  · obtain ⟨r0, w0, hs0, hmono, _⟩ := send_obs E h m w ht
    rw [hs0] at hs
    simp only [Option.some.injEq, Prod.mk.injEq] at hs
    rw [← hs.2]
    exact hmono
  · have ht6 : 6 ≤ m.type := Nat.le_of_not_lt ht
    by_cases hmax : E.AIOT_DMMSG_MAX ≤ m.type
    · simp [aiot_dm_send, hmax] at hs
      rw [← hs.2]
    rcases hmh : h.mqtt_handle with _ | tr
    · simp [aiot_dm_send, hmax, hmh] at hs
      rw [← hs.2]
    have hneg1 : STATE_USER_INPUT_MISSING_DEVICE_NAME < 0 := by decide
    have hneg2 : STATE_USER_INPUT_OUT_RANGE < 0 := by decide
    simp only [aiot_dm_send, hmax, if_false, hmh, prepare_send_topic_eq,
      table_entry_none _ ht6] at hs
    rcases hd : m.device_name with _ | d0
    · rcases hb : tr.device_name with _ | d1
      · simp [hd, hb, hneg1, queried] at hs
        rw [← hs.2]
      · by_cases hc : m.type ∈ E.caseLabels
        · simp [hd, hb, hc, core_sprintf] at hs
        · simp [hd, hb, hc, hneg2, queried] at hs
          rw [← hs.2]
    · by_cases hc : m.type ∈ E.caseLabels
      · simp [hd, hc, core_sprintf] at hs
      · simp [hd, hc, hneg2] at hs
        rw [← hs.2]

/-- No run of sends moves the id counter backwards. -/
theorem send_all_alink_id_mono (E : DmMsgEnum)
    (l : List (Option dm_handle_t × Option aiot_dm_msg_t)) :
    ∀ (w w1 : World), aiot_dm_send_all E l w = some w1 → w.alink_id ≤ w1.alink_id := by
  induction l with
  | nil =>
    intro w w1 hs
    simp [aiot_dm_send_all] at hs
    rw [hs]
  | cons p rest ih =>
    intro w w1 hs
    obtain ⟨h, m⟩ := p
    simp only [aiot_dm_send_all] at hs
    rcases hsend : aiot_dm_send E h m w with _ | ⟨r, w2⟩
    · simp [hsend] at hs
    · simp only [hsend] at hs
      exact le_trans (send_alink_id_mono E h m w w2 r hsend) (ih w2 w1 hs)

/-- A request that was published with success returns the id it drew, which is
the value of the counter after the send and above its value before. -/
theorem send_request_id (E : DmMsgEnum) (h : dm_handle_t) (m : aiot_dm_msg_t) (w w1 : World)
    (r : Int) (ht : m.type < 6) (h3 : m.type ≠ 3)
    (hs : aiot_dm_send E (some h) (some m) w = some (r, w1))
    (hok : pubStatuses (newEvents w w1) = [STATE_SUCCESS]) :
    r = w1.alink_id ∧ w.alink_id < r := by
  obtain ⟨r0, w0, hs0, _, hpub, _⟩ := send_obs E h m w ht
  rw [hs0] at hs
  simp only [Option.some.injEq, Prod.mk.injEq] at hs
  obtain ⟨rfl, rfl⟩ := hs
  have := hpub _ hok
  simp only [h3, if_false, if_true] at this
  obtain ⟨_, hid, hr⟩ := this
  rw [hr, hid]
  exact ⟨rfl, by omega⟩

/-- C6.  With the generator a counter that never wraps: when two sends through
request entries of the table (indices 0, 1, 2, 4, 5) are both published with
`STATE_SUCCESS`, the second after the first with any run of other sends in
between, the id the second returns is strictly greater than the id the first
returned. -/
theorem request_ids_strictly_increase (E : DmMsgEnum) (h1 h2 : dm_handle_t)
    (m1 m2 : aiot_dm_msg_t) (between : List (Option dm_handle_t × Option aiot_dm_msg_t))
    (w0 w1 w2 w3 : World) (r1 r2 : Int)
    (hk1 : m1.type < 6 ∧ m1.type ≠ 3) (hk2 : m2.type < 6 ∧ m2.type ≠ 3)
    (hs1 : aiot_dm_send E (some h1) (some m1) w0 = some (r1, w1))
    (hok1 : pubStatuses (newEvents w0 w1) = [STATE_SUCCESS])
    (hb : aiot_dm_send_all E between w1 = some w2)
    (hs2 : aiot_dm_send E (some h2) (some m2) w2 = some (r2, w3))
    (hok2 : pubStatuses (newEvents w2 w3) = [STATE_SUCCESS]) :
    r1 < r2 := by
  obtain ⟨e1, _⟩ := send_request_id E h1 m1 w0 w1 r1 hk1.1 hk1.2 hs1 hok1
  obtain ⟨_, e2⟩ := send_request_id E h2 m2 w2 w3 r2 hk2.1 hk2.2 hs2 hok2
  have hmid := send_all_alink_id_mono E between w1 w2 hb
  omega

/-- Witness for `request_ids_strictly_increase`: a property post, an event
post whose publish fails, then a batch post; the ids returned are 1 and 3. -/
theorem request_ids_strictly_increase_witness :
    aiot_dm_send DmMsgEnum.sample (some sample_handle) (some (sample_msg 1)) sample_w0
      = some (1, sample_w1) ∧
    aiot_dm_send DmMsgEnum.sample (some sample_handle) (some (sample_msg 5)) sample_w2
      = some (3, sample_w3) ∧
    (1 : Int) < 3 :=
  ⟨by decide, by decide,
    request_ids_strictly_increase DmMsgEnum.sample sample_handle sample_handle (sample_msg 1)
      (sample_msg 5) [(some sample_handle, some (sample_msg 2))]
      sample_w0 sample_w1 sample_w2 sample_w3 1 3 (by decide) (by decide) (by decide)
      (by decide) (by decide) (by decide) (by decide)⟩

/-- C7 (the code falls short of the claim).  A property post whose `params`
is null is not rejected with a message-invalid code: on the sample context
the send draws id 1, publishes the payload rendered around the missing value
and returns the id. -/
theorem send_null_params_is_published :
    ∃ w1, aiot_dm_send DmMsgEnum.sample (some sample_handle) (some null_params_msg) World.init
        = some (1, w1) ∧
      drawnIds (newEvents World.init w1) = [1] ∧
      publishes (newEvents World.init w1) =
        [(some "/v1/device/up/datas/devA".toList,
          "\x7b\"id\":\"1\",\"devices\":[]\x7d".toList)] := by
  refine ⟨world_after_send DmMsgEnum.sample sample_handle null_params_msg World.init,
    ?_, ?_, ?_⟩ <;> decide

/-! ### The topic level parser -/

/-- C8, as stated, fails on the code.  The final character of the topic is
never examined: on `/a/` level 1 yields `a/` where the segment is `a`, and
on `/` level 1 fails although the topic has one delimiter; `name_len` is a
`uint16_t`: a segment of 65536 characters comes back empty; and when the
allocator refuses the output buffer the call fails with
`STATE_SYS_DEPEND_MALLOC_FAILED`. -/
theorem topic_level_claim_fails :
    (levelSegment 1 "/a/".toList = some "a".toList ∧
      _dm_get_topic_level "/a/".toList 3 1 World.init =
        some (STATE_SUCCESS, some { addr := 0, data := "a/".toList },
          { World.init with next_addr := 1, trace := [Event.malloc 3 (some 0)] })) ∧
    (levelSegment 1 "/".toList = some [] ∧
      _dm_get_topic_level "/".toList 1 1 World.init =
        some (STATE_DM_INTERNAL_TOPIC_ERROR, none, World.init)) ∧
    (levelSegment 1 ('/' :: List.replicate 65536 'a') = some (List.replicate 65536 'a') ∧
      _dm_get_topic_level ('/' :: List.replicate 65536 'a') 65537 1 World.init =
        some (STATE_SUCCESS, some { addr := 0, data := [] },
          { World.init with next_addr := 1, trace := [Event.malloc 1 (some 0)] })) ∧
    (levelSegment 1 "/a".toList = some "a".toList ∧
      _dm_get_topic_level "/a".toList 2 1 { World.init with alloc_plan := [false] } =
        some (STATE_SYS_DEPEND_MALLOC_FAILED, none,
          { World.init with trace := [Event.malloc 2 none] })) := by
  refine ⟨⟨by decide, by decide⟩, ⟨by decide, by decide⟩,
    ⟨levelSegment_letters 65536, ?_⟩, ⟨by decide, by decide⟩⟩
  exact dm_get_topic_level_long 65535 (by decide) World.init _ 0 rfl

/-- C8, amended.  For a topic of length 1 to `2^32 - 1` whose final character
is not `/`, and a level from 1 to 255 with at least that many `/` in the
topic: the segment strictly between the `level`-th `/` and the next `/` (or
the end of the topic) exists, and when it has fewer than 65536 characters and
the allocator returns a buffer, `_dm_get_topic_level` succeeds and returns
exactly that segment. -/
theorem topic_level_returns_segment (topic : List Char) (level : Nat) (w : World)
    (h1 : 1 ≤ level) (h2 : level ≤ 255) (hne : topic ≠ []) (hlen : topic.length < 4294967296)
    (hlast : topic.getLast? ≠ some '/') (hcount : level ≤ topic.count '/') :
    ∃ seg, levelSegment level topic = some seg ∧
      (seg.length < 65536 → ∀ addr w1, core_sysdep_malloc (seg.length + 1) w = (some addr, w1) →
        _dm_get_topic_level topic topic.length level w =
          some (STATE_SUCCESS, some { addr := addr, data := seg }, w1)) := by
  obtain ⟨n, rfl⟩ : ∃ n, level = n + 1 := ⟨level - 1, by omega⟩
  obtain ⟨P, R, rfl, hP, hA⟩ := afterSlash_split topic n hcount
  obtain ⟨R0, x, rfl⟩ : ∃ R0 x, R = R0 ++ [x] := by
    rcases List.eq_nil_or_concat R with h | ⟨R0, x, h⟩
    · subst h
      exfalso
      apply hlast
      simp
    · exact ⟨R0, x, by simpa using h⟩
  have hx : x ≠ '/' := by
    intro hx
    apply hlast
    have e : P ++ '/' :: (R0 ++ [x]) = (P ++ '/' :: R0) ++ [x] := by simp
    rw [e, List.getLast?_concat, hx]
  refine ⟨(R0 ++ [x]).takeWhile (fun c => c != '/'), by simp [levelSegment, hA], ?_⟩
  intro hseg addr w1 ha
  exact dm_get_topic_level_segment (n + 1) h2 P R0 x hx (by omega) hlen hseg w w1 addr ha

/-- Witness for `topic_level_returns_segment`: level 2 of the property-set
topic. -/
theorem topic_level_returns_segment_witness :
    ∃ seg, levelSegment 2 "/v1/device/down/set/devA".toList = some seg ∧
      (seg.length < 65536 → ∀ addr w1,
        core_sysdep_malloc (seg.length + 1) World.init = (some addr, w1) →
        _dm_get_topic_level "/v1/device/down/set/devA".toList
            "/v1/device/down/set/devA".toList.length 2 World.init =
          some (STATE_SUCCESS, some { addr := addr, data := seg }, w1)) :=
  topic_level_returns_segment "/v1/device/down/set/devA".toList 2 World.init (by decide)
    (by decide) (by decide) (by decide) (by decide) (by decide)

/-- C9, as stated, fails on the code: when the allocator refuses the output
buffer, level 5 on `/v1/device/down/set/devA` does not succeed; the call
returns `STATE_SYS_DEPEND_MALLOC_FAILED` and hands back no string. -/
theorem topic_level_without_buffer :
    _dm_get_topic_level "/v1/device/down/set/devA".toList 24 5
        { World.init with alloc_plan := [false] } =
      some (STATE_SYS_DEPEND_MALLOC_FAILED, none,
        { World.init with trace := [Event.malloc 5 none] }) := by
  decide

/-- C9, amended.  For a level from 1 to 255 and a topic `P ++ "/" ++ D`
shorter than 65536 characters, where `P` holds exactly `level - 1` delimiters
and `D` is non-empty and without delimiter: when the allocator returns the
output buffer, `_dm_get_topic_level` succeeds and returns exactly `D` in
it. -/
theorem topic_level_of_last_segment (level : Nat) (P D : List Char) (w w1 : World) (addr : Nat)
    (hl1 : 1 ≤ level) (hl2 : level ≤ 255) (hlen : (P ++ '/' :: D).length < 65536)
    (hP : P.count '/' = level - 1) (hD : D ≠ []) (hDs : '/' ∉ D)
    (ha : core_sysdep_malloc (D.length + 1) w = (some addr, w1)) :
    _dm_get_topic_level (P ++ '/' :: D) (P ++ '/' :: D).length level w =
      some (STATE_SUCCESS, some { addr := addr, data := D }, w1) := by
  obtain ⟨D0, x, rfl⟩ : ∃ D0 x, D = D0 ++ [x] := by
    rcases List.eq_nil_or_concat D with h | ⟨D0, x, h⟩
    · exact absurd h hD
    · exact ⟨D0, x, by simpa using h⟩
  have hx : x ≠ '/' := by
    intro hx
    apply hDs
    simp [hx]
  have htw : (D0 ++ [x]).takeWhile (fun c => c != '/') = D0 ++ [x] := by
    rw [List.takeWhile_eq_self_iff]
    intro c hc
    have : c ≠ '/' := fun h => hDs (h ▸ hc)
    simpa using this
  have hseg : ((D0 ++ [x]).takeWhile (fun c => c != '/')).length < 65536 := by
    rw [htw]
    have hle : (D0 ++ [x]).length ≤ (P ++ '/' :: (D0 ++ [x])).length := by
      simp only [List.length_append, List.length_cons, List.length_singleton, List.length_nil]
      omega
    omega
  have h := dm_get_topic_level_segment level hl2 P D0 x hx (by omega) (by omega) hseg w w1 addr
    (by rw [htw]; exact ha)
  rw [htw] at h
  exact h

/-- Witness for `topic_level_of_last_segment`: level 5 on
`/v1/device/down/set/devA` returns `devA`. -/
theorem topic_level_of_last_segment_witness :
    _dm_get_topic_level "/v1/device/down/set/devA".toList 24 5 World.init =
      some (STATE_SUCCESS, some { addr := 0, data := "devA".toList },
        { World.init with next_addr := 1, trace := [Event.malloc 5 (some 0)] }) :=
  topic_level_of_last_segment 5 "/v1/device/down/set".toList "devA".toList World.init _ 0
    (by decide) (by decide) (by decide) (by decide) (by decide) (by decide) rfl

/-- C10, as stated, fails on the code: `/v1/device/down/set/devA` has five
delimiters and does not end in `/`, and level 6 of it is refused with
`STATE_DM_INTERNAL_TOPIC_ERROR`; no empty string is returned. -/
theorem topic_level_past_last_fails :
    "/v1/device/down/set/devA".toList.count '/' = 5 ∧
    "/v1/device/down/set/devA".toList.getLast? ≠ some '/' ∧
    _dm_get_topic_level "/v1/device/down/set/devA".toList 24 6 World.init =
      some (STATE_DM_INTERNAL_TOPIC_ERROR, none, World.init) := by
  refine ⟨by decide, by decide, by decide⟩

/-- C10, amended.  For a topic of length 1 to `2^32 - 1` that holds exactly
`k` delimiters, whether or not it ends in `/`, with `k + 1` a valid level (at
most 255), requesting level `k + 1` fails with
`STATE_DM_INTERNAL_TOPIC_ERROR`: no string is handed back, nothing is
allocated and the world is left as it was. -/
theorem topic_level_past_last_is_refused (topic : List Char) (k : Nat) (w : World)
    (hne : topic ≠ []) (hlen : topic.length < 4294967296) (hk : topic.count '/' = k)
    (hlevel : k + 1 ≤ 255) :
    _dm_get_topic_level topic topic.length (k + 1) w =
      some (STATE_DM_INTERNAL_TOPIC_ERROR, none, w) :=
  dm_get_topic_level_too_few (k + 1) hlevel topic hne hlen (by omega) w

/-- Witness for `topic_level_past_last_is_refused`: level 6 on
`/v1/device/down/set/devA`. -/
theorem topic_level_past_last_is_refused_witness :
    _dm_get_topic_level "/v1/device/down/set/devA".toList
        "/v1/device/down/set/devA".toList.length (5 + 1) World.init =
      some (STATE_DM_INTERNAL_TOPIC_ERROR, none, World.init) :=
  topic_level_past_last_is_refused "/v1/device/down/set/devA".toList 5 World.init (by decide)
    (by decide) (by decide) (by decide)

/-! ### Too few delimiters -/

/-- C11: for a topic buffer of which `topic_len >= 1` characters are passed
and a level (a `uint8_t`, at least 1 as soon as some count is below it), if
the `topic_len` characters hold fewer than `level` delimiters `/` then
`_dm_get_topic_level` returns `STATE_DM_INTERNAL_TOPIC_ERROR`, stores nothing
through the output pointer and leaves the world as it was: the allocator is
not called (no event is added to the trace). -/
theorem topic_level_too_few_delimiters (topic : List Char) (topic_len level : Nat) (w : World)
    (h1 : 1 ≤ topic_len) (h2 : topic_len ≤ topic.length) (h3 : topic_len < 4294967296)
    (hl : level ≤ 255) (hcount : (topic.take topic_len).count '/' < level) :
    _dm_get_topic_level topic topic_len level w =
      some (STATE_DM_INTERNAL_TOPIC_ERROR, none, w) := by
  have hsub : (topic.take (topic_len - 1)).count '/' ≤ (topic.take topic_len).count '/' := by
    have e : topic.take (topic_len - 1) = (topic.take topic_len).take (topic_len - 1) := by
      rw [List.take_take]; congr 1; omega
    rw [e]
    exact (List.take_sublist _ _).count_le _
  obtain ⟨n, data, h⟩ := dm_get_topic_level_cases topic topic_len level w (by omega) hl h1 h2 h3
  have hlt : (topic.take (topic_len - 1)).count '/' < level := by omega
  rw [h]
  simp only [hlt, if_true]

/-- C11 at level 3 of `/v1/device`, which holds two delimiters. -/
theorem topic_level_too_few_delimiters_witness :
    _dm_get_topic_level "/v1/device".toList 10 3 World.init =
      some (STATE_DM_INTERNAL_TOPIC_ERROR, none, World.init) :=
  topic_level_too_few_delimiters "/v1/device".toList 10 3 World.init (by decide) (by decide)
    (by decide) (by decide) (by decide)

/-! ### The diagnostic record -/

/-- C19: for every message type `t` and every `int32_t` id,
`_append_diag_data` makes one call to the diagnostic sink, with a record of
11 bytes: byte 3 is `t`, bytes 7 to 10 are four bytes `b3 b2 b1 b0`, most
significant first, of the id taken modulo `2^32`, and the seven other bytes
are the constants `00 30 01 .. 00 31 04`; read back big-endian and as an
`int32_t` the four bytes give the id, also when it is negative. -/
theorem append_diag_data_record (t : Nat) (id : Int) (w : World)
    (hlo : -2147483648 ≤ id) (hhi : id < 2147483648) :
    ∃ b3 b2 b1 b0 : Nat,
      _append_diag_data t id w =
        { w with trace := w.trace ++
          [Event.diag [0x00, 0x30, 0x01, t, 0x00, 0x31, 0x04, b3, b2, b1, b0]] } ∧
      [0x00, 0x30, 0x01, t, 0x00, 0x31, 0x04, b3, b2, b1, b0].length = 11 ∧
      b3 < 256 ∧ b2 < 256 ∧ b1 < 256 ∧ b0 < 256 ∧
      ((b3 * 16777216 + b2 * 65536 + b1 * 256 + b0 : Nat) : Int) = id % 4294967296 ∧
      int32_of_uint32 (b3 * 16777216 + b2 * 65536 + b1 * 256 + b0) = id := by
  refine ⟨((id / 16777216) % 256).toNat, ((id / 65536) % 256).toNat,
    ((id / 256) % 256).toNat, (id % 256).toNat, rfl, rfl, by omega, by omega, by omega,
    by omega, by omega, ?_⟩
  unfold int32_of_uint32
  split <;> omega

/-- C19 for a response record carrying the negative id `-2`. -/
theorem append_diag_data_record_witness :
    ∃ b3 b2 b1 b0 : Nat,
      _append_diag_data DM_DIAG_MSG_TYPE_RSP (-2) World.init =
        { World.init with trace := World.init.trace ++
          [Event.diag [0x00, 0x30, 0x01, DM_DIAG_MSG_TYPE_RSP, 0x00, 0x31, 0x04,
            b3, b2, b1, b0]] } ∧
      [0x00, 0x30, 0x01, DM_DIAG_MSG_TYPE_RSP, 0x00, 0x31, 0x04, b3, b2, b1, b0].length = 11 ∧
      b3 < 256 ∧ b2 < 256 ∧ b1 < 256 ∧ b0 < 256 ∧
      ((b3 * 16777216 + b2 * 65536 + b1 * 256 + b0 : Nat) : Int) = (-2) % 4294967296 ∧
      int32_of_uint32 (b3 * 16777216 + b2 * 65536 + b1 * 256 + b0) = -2 :=
  append_diag_data_record DM_DIAG_MSG_TYPE_RSP (-2) World.init (by decide) (by decide)

/-! ### The outbound table -/

theorem table_entry_func_none (t : Nat) (ht : 6 ≤ t) :
    (g_dm_send_topic_mapping t).func.isNone = true := by
  obtain ⟨k, rfl⟩ : ∃ k, t = k + 6 := ⟨t - 6, by omega⟩
  rfl

/-- C20, as the code has it: whatever distinct values below `AIOT_DMMSG_MAX`
the absent header gives the ten tags of the switch of
`_dm_prepare_send_topic`, one of these tags indexes an element of
`g_dm_send_topic_mapping` that has no initialiser: its topic template and its
encode function are both null. -/
theorem send_table_has_a_gap (E : DmMsgEnum) (hwf : E.wf) :
    ∃ t, t < E.AIOT_DMMSG_MAX ∧ t ∈ E.caseLabels ∧
      (g_dm_send_topic_mapping t).topic = none ∧
      (g_dm_send_topic_mapping t).func.isNone = true := by
  obtain ⟨t, htc, ht6⟩ := case_label_above_table E hwf
  exact ⟨t, hwf.2 t htc, htc, table_entry_none t ht6, table_entry_func_none t ht6⟩

/-- C20 for the sample numbering of the tags. -/
theorem send_table_has_a_gap_witness :
    DmMsgEnum.sample.wf ∧
    ∃ t, t < DmMsgEnum.sample.AIOT_DMMSG_MAX ∧ t ∈ DmMsgEnum.sample.caseLabels ∧
      (g_dm_send_topic_mapping t).topic = none ∧
      (g_dm_send_topic_mapping t).func.isNone = true :=
  ⟨by decide, send_table_has_a_gap DmMsgEnum.sample (by decide)⟩

/-! ### Decimal text and the field accessor -/

theorem digitChar_toNat (k : Nat) (hk : k < 10) : (Nat.digitChar k).toNat = 48 + k := by
  interval_cases k <;> rfl

theorem decimal_value_append (a b : List Char) (acc : Nat) :
    decimal_value (a ++ b) acc = decimal_value b (decimal_value a acc) := by
  simp [decimal_value, List.foldl_append]

/-- The digits `Nat.toDigitsCore` puts in front of `ds` denote `n`. -/
theorem toDigitsCore_digits (fuel : Nat) :
    ∀ (n : Nat) (ds : List Char), n < fuel →
      ∃ D, Nat.toDigitsCore 10 fuel n ds = D ++ ds ∧ D ≠ [] ∧
        (∀ c ∈ D, 48 ≤ c.toNat ∧ c.toNat ≤ 57) ∧ decimal_value D 0 = n := by
  induction fuel with
  | zero => intro n ds h; omega
  | succ fuel ih =>
    intro n ds h
    have hd := digitChar_toNat (n % 10) (Nat.mod_lt _ (by decide))
    simp only [Nat.toDigitsCore]
    by_cases h0 : n / 10 = 0
    · refine ⟨[Nat.digitChar (n % 10)], by simp [h0], by simp, ?_, ?_⟩
      · intro c hc
        simp only [List.mem_singleton] at hc
        subst hc; omega
      · simp only [decimal_value, List.foldl_cons, List.foldl_nil, hd]; omega
    · obtain ⟨D, hD, _, hdig, hval⟩ := ih (n / 10) (Nat.digitChar (n % 10) :: ds) (by omega)
      refine ⟨D ++ [Nat.digitChar (n % 10)], by simp [h0, hD], by simp, ?_, ?_⟩
      · intro c hc
        rcases List.mem_append.mp hc with hc | hc
        · exact hdig c hc
        · simp only [List.mem_singleton] at hc
          subst hc; omega
      · rw [decimal_value_append, hval]
        simp only [decimal_value, List.foldl_cons, List.foldl_nil, hd]; omega

/-- The decimal text of `n` is a non-empty run of decimal digits denoting `n`. -/
theorem core_uint2str_digits (n : Nat) :
    core_uint2str n ≠ [] ∧ (∀ c ∈ core_uint2str n, 48 ≤ c.toNat ∧ c.toNat ≤ 57) ∧
      decimal_value (core_uint2str n) 0 = n := by
  obtain ⟨D, hD, hne, hdig, hval⟩ := toDigitsCore_digits (n + 1) n [] (by omega)
  have e : core_uint2str n = D := by
    simp only [core_uint2str, Nat.repr, Nat.toDigits, hD, List.append_nil]
    rfl
  rw [e]
  exact ⟨hne, hdig, hval⟩

theorem decimal_value_ge (D : List Char) : ∀ acc : Nat, acc ≤ decimal_value D acc := by
  induction D with
  | nil => intro acc; simp [decimal_value]
  | cons c t ih =>
    intro acc
    have := ih (acc * 10 + (c.toNat - 48))
    simp only [decimal_value, List.foldl_cons] at this ⊢
    omega

/-- On a run of decimal digits whose value fits the width the conversion
loop returns that value. -/
theorem str2uint_loop_digits (bits : Nat) (D : List Char) :
    ∀ acc : Nat, (∀ c ∈ D, 48 ≤ c.toNat ∧ c.toNat ≤ 57) → decimal_value D acc < 2 ^ bits →
      str2uint_loop bits D acc = some (decimal_value D acc) := by
  induction D with
  | nil => intro acc _ _; simp [str2uint_loop, decimal_value]
  | cons c t ih =>
    intro acc hdig hlt
    have hc := hdig c (by simp)
    have ht : ∀ d ∈ t, 48 ≤ d.toNat ∧ d.toNat ≤ 57 := fun d hd => hdig d (by simp [hd])
    have hval : decimal_value (c :: t) acc = decimal_value t (acc * 10 + (c.toNat - 48)) := by
      simp [decimal_value]
    rw [hval] at hlt ⊢
    have hge := decimal_value_ge t (acc * 10 + (c.toNat - 48))
    have hm : (acc * 10 + (c.toNat - 48)) % 2 ^ bits = acc * 10 + (c.toNat - 48) :=
      Nat.mod_eq_of_lt (by omega)
    simp only [str2uint_loop, hc, and_self, if_true, hm]
    exact ih _ ht hlt

theorem core_str2uint_uint2str (n : Nat) (hn : n < 4294967296) :
    core_str2uint (core_uint2str n) = (STATE_SUCCESS, n) := by
  obtain ⟨_, hdig, hval⟩ := core_uint2str_digits n
  have h := str2uint_loop_digits 32 (core_uint2str n) 0 hdig (by rw [hval]; omega)
  simp only [core_str2uint, h, hval]

theorem core_str2uint64_uint2str (n : Nat) (hn : n < 18446744073709551616) :
    core_str2uint64 (core_uint2str n) = (STATE_SUCCESS, n) := by
  obtain ⟨_, hdig, hval⟩ := core_uint2str_digits n
  have h := str2uint_loop_digits 64 (core_uint2str n) 0 hdig (by rw [hval]; omega)
  simp only [core_str2uint64, h, hval]

theorem digit_ne (c : Char) (hc : 48 ≤ c.toNat ∧ c.toNat ≤ 57) :
    c ≠ '"' ∧ c ≠ ',' ∧ c ≠ '\x7b' ∧ c ≠ '\x7d' ∧ c ≠ '[' ∧ c ≠ ']' ∧ c ≠ 'c' := by
  refine ⟨?_, ?_, ?_, ?_, ?_, ?_, ?_⟩ <;> (intro h; subst h; revert hc; decide)

theorem takeWhile_stop (p : Char → Bool) (l r : List Char) (c : Char)
    (hl : ∀ x ∈ l, p x = true) (hc : p c = false) : (l ++ c :: r).takeWhile p = l := by
  induction l with
  | nil => simp [List.takeWhile_cons, hc]
  | cons x t ih =>
    have hx := hl x (by simp)
    simp only [List.cons_append, List.takeWhile_cons, hx, if_true]
    rw [ih (fun y hy => hl y (by simp [hy]))]

/-- No key starts inside a stretch without a quote. -/
theorem json_after_key_skip (key l r : List Char) (hl : ∀ c ∈ l, c ≠ '"') :
    json_after_key key (l ++ r) = json_after_key key r := by
  induction l with
  | nil => rfl
  | cons x t ih =>
    have hx : ('"' == x) = false := by
      simpa using fun e : '"' = x => hl x (by simp) e.symm
    have h := ih (fun y hy => hl y (by simp [hy]))
    simp only [List.cons_append, json_after_key, List.isPrefixOf, hx, Bool.false_and,
      Bool.false_eq_true, if_false]
    exact h

theorem core_json_value_whole (P key : List Char) :
    core_json_value P P.length key =
      match (json_after_key key P).bind json_value_at with
      | some v => (STATE_SUCCESS, some v)
      | none => (STATE_USER_INPUT_JSON_PARSE_FAILED, none) := by
  simp only [core_json_value, List.take_length]

/-- The accessor on a reply payload: the fields `id` and `code` are found and
their values are the two texts the template was filled with. -/
theorem alink_response_lookup (D1 D2 d : List Char)
    (h1 : ∀ c ∈ D1, 48 ≤ c.toNat ∧ c.toNat ≤ 57)
    (h2 : ∀ c ∈ D2, 48 ≤ c.toNat ∧ c.toNat ≤ 57) :
    core_json_value (render_fmt ALINK_RESPONSE_FMT [some D1, some D2, some d])
        (render_fmt ALINK_RESPONSE_FMT [some D1, some D2, some d]).length ALINK_JSON_KEY_ID =
      (STATE_SUCCESS, some D1) ∧
    core_json_value (render_fmt ALINK_RESPONSE_FMT [some D1, some D2, some d])
        (render_fmt ALINK_RESPONSE_FMT [some D1, some D2, some d]).length ALINK_JSON_KEY_CODE =
      (STATE_SUCCESS, some D2) := by
  have hq1 : ∀ c ∈ D1, c ≠ '"' := fun c hc => (digit_ne c (h1 c hc)).1
  have hP : render_fmt ALINK_RESPONSE_FMT [some D1, some D2, some d] =
      '\x7b' :: '"' :: 'i' :: 'd' :: '"' :: ':' :: '"' :: (D1 ++ ('"' :: ',' :: '"' :: 'c' ::
        'o' :: 'd' :: 'e' :: '"' :: ':' :: (D2 ++ (',' :: ('"' :: 'd' :: 'a' :: 't' :: 'a' ::
          '"' :: ':' :: (d ++ ['\x7d'])))))) := by
    rw [render_alink_response]; simp
  rw [core_json_value_whole, core_json_value_whole, hP]
  constructor
  · have hv : (D1 ++ '"' :: ',' :: '"' :: 'c' :: 'o' :: 'd' :: 'e' :: '"' :: ':' ::
        (D2 ++ (',' :: ('"' :: 'd' :: 'a' :: 't' :: 'a' :: '"' :: ':' ::
          (d ++ ['\x7d']))))).takeWhile (fun x => x != '"') = D1 :=
      takeWhile_stop _ _ _ _ (fun x hx => by simpa using hq1 x hx) (by decide)
    simp [json_after_key, ALINK_JSON_KEY_ID, List.isPrefixOf, json_value_at, hv]
  · have hk : ALINK_JSON_KEY_CODE = ['c', 'o', 'd', 'e'] := rfl
    rw [hk]
    have htail : json_after_key ['c', 'o', 'd', 'e']
        ('"' :: ',' :: '"' :: 'c' :: 'o' :: 'd' :: 'e' :: '"' :: ':' ::
          (D2 ++ (',' :: ('"' :: 'd' :: 'a' :: 't' :: 'a' :: '"' :: ':' :: (d ++ ['\x7d']))))) =
        some (D2 ++ (',' :: ('"' :: 'd' :: 'a' :: 't' :: 'a' :: '"' :: ':' ::
          (d ++ ['\x7d'])))) := by
      simp [json_after_key, List.isPrefixOf]
    have hmid := json_after_key_skip ['c', 'o', 'd', 'e'] D1
      ('"' :: ',' :: '"' :: 'c' :: 'o' :: 'd' :: 'e' :: '"' :: ':' ::
        (D2 ++ (',' :: ('"' :: 'd' :: 'a' :: 't' :: 'a' :: '"' :: ':' :: (d ++ ['\x7d']))))) hq1
    rw [htail] at hmid
    have hhead : (('c' :: 'o' :: 'd' :: 'e' :: '"' :: [ ':' ]).isPrefixOf
        (D1 ++ '"' :: ',' :: '"' :: 'c' :: 'o' :: 'd' :: 'e' :: '"' :: ':' ::
          (D2 ++ (',' :: ('"' :: 'd' :: 'a' :: 't' :: 'a' :: '"' :: ':' ::
            (d ++ ['\x7d'])))))) = false := by
      cases D1 with
      | nil => simp [List.isPrefixOf]
      | cons x t =>
        have hx : ('c' == x) = false := by
          simpa using fun e : 'c' = x => (digit_ne x (h1 x (by simp))).2.2.2.2.2.2 e.symm
        simp [List.isPrefixOf, hx]
    have hv : (D2 ++ ',' :: ('"' :: 'd' :: 'a' :: 't' :: 'a' :: '"' :: ':' ::
        (d ++ ['\x7d']))).takeWhile (fun x => x != ',' && x != '\x7d' && x != ']') = D2 :=
      takeWhile_stop _ _ _ _ (fun x hx => by
        have := digit_ne x (h2 x hx)
        simp [this.2.1, this.2.2.2.1, this.2.2.2.2.2.1]) (by decide)
    have hval : json_value_at (D2 ++ ',' :: ('"' :: 'd' :: 'a' :: 't' :: 'a' :: '"' :: ':' ::
        (d ++ ['\x7d']))) = some D2 := by
      cases D2 with
      | nil => simp [json_value_at]
      | cons x t =>
        have := digit_ne x (h2 x (by simp))
        simp only [List.cons_append, json_value_at, this.1, this.2.2.1, this.2.2.2.2.1,
          if_false, or_self]
        rw [← List.cons_append, hv]
    have htop : json_after_key ['c', 'o', 'd', 'e']
        ('\x7b' :: '"' :: 'i' :: 'd' :: '"' :: ':' :: '"' :: (D1 ++ ('"' :: ',' :: '"' :: 'c' ::
          'o' :: 'd' :: 'e' :: '"' :: ':' :: (D2 ++ (',' :: ('"' :: 'd' :: 'a' :: 't' :: 'a' ::
            '"' :: ':' :: (d ++ ['\x7d']))))))) =
        some (D2 ++ (',' :: ('"' :: 'd' :: 'a' :: 't' :: 'a' :: '"' :: ':' ::
          (d ++ ['\x7d'])))) := by
      simp only [List.cons_append, List.nil_append, List.singleton_append] at hhead
      simp [json_after_key, List.isPrefixOf, hhead, hmid]
    rw [htop]
    simp [hval]

/-! ### The property-set reply -/

theorem diagRecords_append (a b : List Event) :
    diagRecords (a ++ b) = diagRecords a ++ diagRecords b := by
  simp [diagRecords, List.filterMap_append]

/-- A send that adds at most queries of the device name to the trace. -/
theorem set_reply_obs_early (w w1 : World) (r : Int) (m : aiot_dm_msg_t)
    (hid : w1.alink_id = w.alink_id) (hr : r < 0)
    (htr : w1.trace = w.trace ++ newEvents w w1)
    (hev : newEvents w w1 = [] ∨ ∃ q, newEvents w w1 = [Event.get_device_name q] ∨
      newEvents w w1 = [Event.get_device_name q, Event.get_device_name q]) :
    w1.alink_id = w.alink_id ∧ w1.trace = w.trace ++ newEvents w w1 ∧
      drawnIds (newEvents w w1) = [] ∧ diagRecords (newEvents w w1) = [] ∧
      (0 ≤ r → (publishes (newEvents w w1)).length = 1) ∧
      ∀ p ∈ publishes (newEvents w w1), ∃ d, m.data.property_set_reply.data = some d ∧
        p.2 = render_fmt ALINK_RESPONSE_FMT
          [some (core_uint2str m.data.property_set_reply.msg_id),
           some (core_uint2str m.data.property_set_reply.code), some d] := by
  refine ⟨hid, htr, ?_, ?_, fun h0 => absurd h0 (by omega), ?_⟩ <;>
    (rcases hev with hev | ⟨q, hev | hev⟩ <;> rw [hev] <;>
      simp [drawnIds, diagRecords, publishes])

/-- What a send dispatched to `_dm_send_property_set_reply` (table entry 3)
does, read off the calls it makes: no id is drawn, no diagnostic record is
appended, and a payload that is published is the response template filled
with the decimal text of the message's `msg_id` and `code` and with its
`data`. -/
theorem send_set_reply_obs (E : DmMsgEnum) (h : dm_handle_t) (m : aiot_dm_msg_t) (w : World)
    (ht : m.type = 3) :
    ∃ r w1, aiot_dm_send E (some h) (some m) w = some (r, w1) ∧
      w1.alink_id = w.alink_id ∧ w1.trace = w.trace ++ newEvents w w1 ∧
      drawnIds (newEvents w w1) = [] ∧ diagRecords (newEvents w w1) = [] ∧
      (0 ≤ r → (publishes (newEvents w w1)).length = 1) ∧
      ∀ p ∈ publishes (newEvents w w1), ∃ d, m.data.property_set_reply.data = some d ∧
        p.2 = render_fmt ALINK_RESPONSE_FMT
          [some (core_uint2str m.data.property_set_reply.msg_id),
           some (core_uint2str m.data.property_set_reply.code), some d] := by
  by_cases hmax : E.AIOT_DMMSG_MAX ≤ m.type
  · exact ⟨STATE_USER_INPUT_OUT_RANGE, w, by simp [aiot_dm_send, hmax],
      set_reply_obs_early w w _ m rfl (by decide) (by simp [newEvents_self])
        (Or.inl (newEvents_self w))⟩
  rcases hmh : h.mqtt_handle with _ | tr
  · exact ⟨STATE_DM_MQTT_HANDLE_IS_NULL, w, by simp [aiot_dm_send, hmax, hmh],
      set_reply_obs_early w w _ m rfl (by decide) (by simp [newEvents_self])
        (Or.inl (newEvents_self w))⟩
  have hq1 : newEvents w (queried (some tr) w) = [Event.get_device_name (some tr.id)] := by
    simp [queried, newEvents]
  have hq2 : newEvents w (queried (some tr) (queried (some tr) w)) =
      [Event.get_device_name (some tr.id), Event.get_device_name (some tr.id)] := by
    simp [queried, newEvents]
  have hresolved : ∀ (w0 : World) (d : List Char), m.type ∈ E.caseLabels →
      ((m.device_name = some d ∧ w0 = w) ∨
        (m.device_name = none ∧ tr.device_name = some d ∧
          w0 = queried (some tr) (queried (some tr) w))) →
      ∃ r w1, aiot_dm_send E (some h) (some m) w = some (r, w1) ∧
        w1.alink_id = w.alink_id ∧ w1.trace = w.trace ++ newEvents w w1 ∧
        drawnIds (newEvents w w1) = [] ∧ diagRecords (newEvents w w1) = [] ∧
        (0 ≤ r → (publishes (newEvents w w1)).length = 1) ∧
        ∀ p ∈ publishes (newEvents w w1), ∃ d, m.data.property_set_reply.data = some d ∧
          p.2 = render_fmt ALINK_RESPONSE_FMT
            [some (core_uint2str m.data.property_set_reply.msg_id),
             some (core_uint2str m.data.property_set_reply.code), some d] := by
    intro w0 d hc hres
    have hn1 : ¬ (0 : Int) ≤ STATE_SYS_DEPEND_MALLOC_FAILED := by decide
    have hn2 : ¬ (0 : Int) ≤ STATE_DM_MSG_DATA_IS_NULL := by decide
    have hn3 : STATE_SYS_DEPEND_MALLOC_FAILED < 0 := by decide
    have hn4 : STATE_DM_MSG_DATA_IS_NULL < 0 := by decide
    have hgt : (g_dm_send_topic_mapping m.type).topic =
        some "/v1/device/up/set_reply/%s".toList := by rw [ht]; rfl
    have hgf : (g_dm_send_topic_mapping m.type).func = some _dm_send_property_set_reply := by
      rw [ht]; rfl
    have hw0 : ∃ pre, w0 = { w with trace := w.trace ++ pre } ∧ publishes pre = [] ∧
        diagRecords pre = [] ∧ drawnIds pre = [] := by
      rcases hres with ⟨_, rfl⟩ | ⟨_, _, rfl⟩
      · exact ⟨[], by simp, rfl, rfl, rfl⟩
      · exact ⟨[Event.get_device_name (some tr.id), Event.get_device_name (some tr.id)],
          by simp [queried], rfl, rfl, rfl⟩
    obtain ⟨pre, rfl, hpre1, hpre2, hpre3⟩ := hw0
    rw [send_eq E h tr m w _ d _ _ hmax hmh hc hres hgt hgf]
    by_cases ha1 : w.alloc_plan.head? = some false
    · refine ⟨_, _, by rw [if_pos ha1], ?_⟩
      simp only [newEvents_pre, publishes_append, diagRecords_append, drawnIds_append, hpre1,
        hpre2, hpre3, List.nil_append]
      simp [publishes, diagRecords, drawnIds, hn1, hn3]
    · rw [if_neg ha1]
      rcases hdata : m.data.property_set_reply.data with _ | data
      · simp only [_dm_send_property_set_reply, hdata, _dm_send_alink_rsp]
        refine ⟨_, _, rfl, ?_⟩
        simp only [publishes, diagRecords, drawnIds] at hpre1 hpre2 hpre3 ⊢
        simp [core_sysdep_free, List.append_assoc, newEvents_append, List.filterMap_append,
          hpre1, hpre2, hpre3, hn2, hn4]
      · by_cases ha2 : w.alloc_plan.tail.head? = some false
        · simp only [_dm_send_property_set_reply, hdata]
          rw [send_alink_rsp_fail _ _ _ _ _ _ ha2]
          refine ⟨_, _, rfl, ?_⟩
          simp only [publishes, diagRecords, drawnIds] at hpre1 hpre2 hpre3 ⊢
          simp [core_sysdep_free, List.append_assoc, newEvents_append, List.filterMap_append,
            hpre1, hpre2, hpre3, hn1, hn3]
        · simp only [_dm_send_property_set_reply, hdata]
          rw [send_alink_rsp_ok _ _ _ _ _ _ ha2]
          refine ⟨_, _, rfl, ?_⟩
          simp only [publishes, diagRecords, drawnIds] at hpre1 hpre2 hpre3 ⊢
          simp [core_sysdep_free, List.append_assoc, newEvents_append, List.filterMap_append,
            hpre1, hpre2, hpre3]
  rcases hd : m.device_name with _ | d0
  · rcases hb : tr.device_name with _ | d1
    · exact ⟨STATE_USER_INPUT_MISSING_DEVICE_NAME, queried (some tr) w,
        by simp [aiot_dm_send, prepare_send_topic_eq, hmax, hmh, hb, hd,
          STATE_USER_INPUT_MISSING_DEVICE_NAME],
        set_reply_obs_early _ _ _ m rfl (by decide) (by rw [hq1]; rfl)
          (Or.inr ⟨_, Or.inl hq1⟩)⟩
    · by_cases hc : m.type ∈ E.caseLabels
      · exact hresolved _ d1 hc (Or.inr ⟨hd, hb, rfl⟩)
      · exact ⟨STATE_USER_INPUT_OUT_RANGE, queried (some tr) (queried (some tr) w),
          by simp [aiot_dm_send, prepare_send_topic_eq, hmax, hmh, hb, hd, hc,
            STATE_USER_INPUT_OUT_RANGE],
          set_reply_obs_early _ _ _ m rfl (by decide) (by rw [hq2]; simp [queried])
            (Or.inr ⟨_, Or.inr hq2⟩)⟩
  · by_cases hc : m.type ∈ E.caseLabels
    · exact hresolved w d0 hc (Or.inl ⟨hd, rfl⟩)
    · exact ⟨STATE_USER_INPUT_OUT_RANGE, w,
        by simp [aiot_dm_send, prepare_send_topic_eq, hmax, hmh, hd, hc,
          STATE_USER_INPUT_OUT_RANGE],
        set_reply_obs_early w w _ m rfl (by decide) (by simp [newEvents_self])
        (Or.inl (newEvents_self w))⟩

/-- C17: for every `uint64_t` msg_id, `uint32_t` code and non-null data, a
send dispatched to `_dm_send_property_set_reply` returns; a payload it
publishes is exactly `{"id":"<decimal msg_id>","code":<decimal code>,
"data":<data>}`, and it publishes one whenever it returns a non-negative
status.  In that payload the field accessor finds the fields `id` and `code`,
and converting what it finds from decimal gives back msg_id and code. -/
theorem set_reply_payload_round_trip (E : DmMsgEnum) (h : dm_handle_t) (m : aiot_dm_msg_t)
    (w : World) (d : List Char) (ht : m.type = 3)
    (hd : m.data.property_set_reply.data = some d)
    (hid : m.data.property_set_reply.msg_id < 18446744073709551616)
    (hcode : m.data.property_set_reply.code < 4294967296) :
    ∃ r w1, aiot_dm_send E (some h) (some m) w = some (r, w1) ∧
      (0 ≤ r → (publishes (newEvents w w1)).length = 1) ∧
      ∀ p ∈ publishes (newEvents w w1),
        p.2 = "\x7b\"id\":\"".toList ++ core_uint2str m.data.property_set_reply.msg_id ++
          "\",\"code\":".toList ++ core_uint2str m.data.property_set_reply.code ++
          ",\"data\":".toList ++ d ++ "\x7d".toList ∧
        (core_json_value p.2 p.2.length ALINK_JSON_KEY_ID).1 = STATE_SUCCESS ∧
        core_str2uint64 ((core_json_value p.2 p.2.length ALINK_JSON_KEY_ID).2.getD []) =
          (STATE_SUCCESS, m.data.property_set_reply.msg_id) ∧
        (core_json_value p.2 p.2.length ALINK_JSON_KEY_CODE).1 = STATE_SUCCESS ∧
        core_str2uint ((core_json_value p.2 p.2.length ALINK_JSON_KEY_CODE).2.getD []) =
          (STATE_SUCCESS, m.data.property_set_reply.code) := by
  obtain ⟨r, w1, hs, _, _, _, _, hpub, hp⟩ := send_set_reply_obs E h m w ht
  refine ⟨r, w1, hs, hpub, ?_⟩
  intro p hmem
  obtain ⟨d1, hd1, hpl⟩ := hp p hmem
  rw [hd] at hd1
  injection hd1 with hd1
  subst hd1
  obtain ⟨hl1, hl2⟩ := alink_response_lookup
    (core_uint2str m.data.property_set_reply.msg_id)
    (core_uint2str m.data.property_set_reply.code) d
    (core_uint2str_digits _).2.1 (core_uint2str_digits _).2.1
  rw [hpl, hl1, hl2]
  exact ⟨render_alink_response _ _ _, rfl, core_str2uint64_uint2str _ hid, rfl,
    core_str2uint_uint2str _ hcode⟩

/-- C17 for id 42, code 200 and data `{}`, sent on the sample context: the
payload is published and both fields are recovered. -/
theorem set_reply_payload_round_trip_witness :
    (∃ r w1, aiot_dm_send DmMsgEnum.sample (some sample_handle) (some (sample_msg 3))
        World.init = some (r, w1) ∧
      (0 ≤ r → (publishes (newEvents World.init w1)).length = 1) ∧
      ∀ p ∈ publishes (newEvents World.init w1),
        p.2 = "\x7b\"id\":\"".toList ++ core_uint2str 42 ++
          "\",\"code\":".toList ++ core_uint2str 200 ++
          ",\"data\":".toList ++ "\x7b\x7d".toList ++ "\x7d".toList ∧
        (core_json_value p.2 p.2.length ALINK_JSON_KEY_ID).1 = STATE_SUCCESS ∧
        core_str2uint64 ((core_json_value p.2 p.2.length ALINK_JSON_KEY_ID).2.getD []) =
          (STATE_SUCCESS, 42) ∧
        (core_json_value p.2 p.2.length ALINK_JSON_KEY_CODE).1 = STATE_SUCCESS ∧
        core_str2uint ((core_json_value p.2 p.2.length ALINK_JSON_KEY_CODE).2.getD []) =
          (STATE_SUCCESS, 200)) ∧
    publishes (newEvents World.init
        (world_after_send DmMsgEnum.sample sample_handle (sample_msg 3) World.init)) =
      [(some "/v1/device/up/set_reply/devA".toList,
        "\x7b\"id\":\"42\",\"code\":200,\"data\":\x7b\x7d\x7d".toList)] :=
  ⟨set_reply_payload_round_trip DmMsgEnum.sample sample_handle (sample_msg 3) World.init
    "\x7b\x7d".toList rfl rfl (by decide) (by decide), by decide⟩

/-- C18: a send dispatched to `_dm_send_property_set_reply` returns, on every
context, message and world, with the request-id counter as it was, no id
drawn from the generator and the sequence of records given to the diagnostic
sink as it was; a payload it publishes starts with `{"id":"` followed by the
decimal text of the message's own `msg_id`. -/
theorem set_reply_keeps_generator_and_sink (E : DmMsgEnum) (h : dm_handle_t)
    (m : aiot_dm_msg_t) (w : World) (ht : m.type = 3) :
    ∃ r w1, aiot_dm_send E (some h) (some m) w = some (r, w1) ∧
      w1.alink_id = w.alink_id ∧ drawnIds w1.trace = drawnIds w.trace ∧
      diagRecords w1.trace = diagRecords w.trace ∧
      ∀ p ∈ publishes (newEvents w w1), ∃ rest,
        p.2 = "\x7b\"id\":\"".toList ++ core_uint2str m.data.property_set_reply.msg_id ++
          '"' :: rest := by
  obtain ⟨r, w1, hs, hid, htr, hdr, hdg, _, hp⟩ := send_set_reply_obs E h m w ht
  refine ⟨r, w1, hs, hid, ?_, ?_, ?_⟩
  · rw [htr, drawnIds_append, hdr, List.append_nil]
  · rw [htr, diagRecords_append, hdg, List.append_nil]
  · intro p hmem
    obtain ⟨d1, _, hpl⟩ := hp p hmem
    refine ⟨",\"code\":".toList ++ core_uint2str m.data.property_set_reply.code ++
      ",\"data\":".toList ++ d1 ++ "\x7d".toList, ?_⟩
    rw [hpl, render_alink_response]
    simp

/-- C18 on the sample context, after a property post has drawn id 1 and left
one diagnostic record: the reply with msg_id 42 leaves both as they are. -/
theorem set_reply_keeps_generator_and_sink_witness :
    (∃ r w1, aiot_dm_send DmMsgEnum.sample (some sample_handle) (some (sample_msg 3))
        sample_w1 = some (r, w1) ∧
      w1.alink_id = sample_w1.alink_id ∧ drawnIds w1.trace = drawnIds sample_w1.trace ∧
      diagRecords w1.trace = diagRecords sample_w1.trace ∧
      ∀ p ∈ publishes (newEvents sample_w1 w1), ∃ rest,
        p.2 = "\x7b\"id\":\"".toList ++ core_uint2str 42 ++ '"' :: rest) ∧
    sample_w1.alink_id = 1 ∧ (diagRecords sample_w1.trace).length = 1 :=
  ⟨set_reply_keeps_generator_and_sink DmMsgEnum.sample sample_handle (sample_msg 3) sample_w1
    rfl, by decide, by decide⟩

/-! ### The inbound handlers -/

theorem status_cases (input : List Char) (input_len : Nat) (key : List Char) :
    ((core_json_value input input_len key).1 = STATE_SUCCESS ∧
      ∃ v, (core_json_value input input_len key).2 = some v) ∨
    ((core_json_value input input_len key).1 = STATE_USER_INPUT_JSON_PARSE_FAILED ∧
      (core_json_value input input_len key).2 = none) := by
  unfold core_json_value
  split
  · exact Or.inl ⟨rfl, _, rfl⟩
  · exact Or.inr ⟨rfl, rfl⟩

/-- The register-info handler given what the topic parser returned. -/
theorem recv_register_eq (msg : aiot_mqtt_recv_t) (h : dm_handle_t) (w w1 : World) (cb : Nat)
    (res : Int) (buf : Option Buf) (hcb : h.recv_handler = some cb)
    (hp : _dm_get_topic_level msg.topic msg.topic_len 5 w = some (res, buf, w1)) :
    dm_recv_deliver 0 msg h w =
      some (h, DM_FREE buf
        (if res < 0 ∨ recv_required_decode 0 msg = false then w1
         else recv_handler_call cb (recv_decoded 0 msg none buf) h.userdata
           (_append_diag_data DM_DIAG_MSG_TYPE_RSP
             (int32_of_uint32 (core_str2uint (field_text msg XJT_JSON_KEY_ID)).2) w1))) := by
  have hn1 : STATE_USER_INPUT_JSON_PARSE_FAILED < 0 := by decide
  have hn2 : ¬ STATE_SUCCESS < 0 := by decide
  have hn3 : STATE_USER_INPUT_JSON_PARSE_FAILED ≠ STATE_SUCCESS := by decide
  have hn4 : ¬ (0 : Int) ≤ STATE_USER_INPUT_JSON_PARSE_FAILED := by decide
  simp only [dm_recv_deliver, g_dm_recv_topic_mapping, List.getElem?_cons_zero,
    _dm_recv_register_handler, hcb, hp]
  by_cases hres : res < 0
  · simp [hres]
  · rcases status_cases msg.payload msg.payload_len XJT_JSON_KEY_ID with ⟨hs, v, hv⟩ | ⟨hs, hv⟩
    · by_cases hnum : (core_str2uint v).1 < 0
      · simp [hres, hs, hv, hn2, hnum, recv_required_decode, field_uint32, field_present,
          field_text]
      · rcases status_cases msg.payload msg.payload_len XJT_JSON_KEY_DEV_INFO with
          ⟨hs2, v2, hv2⟩ | ⟨hs2, hv2⟩
        · simp [hres, hs, hv, hn2, hnum, recv_required_decode, field_uint32, field_present,
            field_text, hs2, hv2, recv_decoded, field_value, recv_kind, aiot_dm_recv_t.zero,
            Int.not_lt.mp hnum]
        · simp [hres, hs, hv, hn2, hnum, recv_required_decode, field_uint32, field_present,
            field_text, hs2, hv2, recv_decoded, field_value, recv_kind, aiot_dm_recv_t.zero,
            Int.not_lt.mp hnum, hn3]
    · simp [hres, hs, hv, hn1, recv_required_decode, field_uint32, field_present, hn4]

/-- The parser `_dm_parse_xjt_prop_request` on a record of zeros. -/
theorem parse_xjt_prop_request_eq (msg : aiot_mqtt_recv_t) :
    ((_dm_parse_xjt_prop_request msg.payload msg.payload_len
        (aiot_dm_recv_t.zero aiot_dm_recv_type_t.AIOT_DMRECV_PROPERTY_SET).data.xjt_property).1
          < 0 ↔ recv_required_decode 1 msg = false) ∧
    (recv_required_decode 1 msg = true →
      (_dm_parse_xjt_prop_request msg.payload msg.payload_len
        (aiot_dm_recv_t.zero aiot_dm_recv_type_t.AIOT_DMRECV_PROPERTY_SET).data.xjt_property).2
        = (recv_decoded 1 msg none none).data.xjt_property) := by
  have hn1 : STATE_USER_INPUT_JSON_PARSE_FAILED < 0 := by decide
  have hn2 : ¬ STATE_SUCCESS < 0 := by decide
  have hn4 : ¬ (0 : Int) ≤ STATE_USER_INPUT_JSON_PARSE_FAILED := by decide
  simp only [_dm_parse_xjt_prop_request, recv_required_decode, field_uint64, field_present,
    field_text, recv_decoded, field_value, recv_kind, aiot_dm_recv_t.zero]
  rcases status_cases msg.payload msg.payload_len XJT_JSON_KEY_ID with ⟨hs, v, hv⟩ | ⟨hs, hv⟩
  · by_cases hnum : (core_str2uint64 v).1 < 0
    · simp [hs, hv, hn2, hnum]
    · rcases status_cases msg.payload msg.payload_len XJT_JSON_KEY_SERVICE_ID with
        ⟨hs2, v2, hv2⟩ | ⟨hs2, hv2⟩
      · rcases status_cases msg.payload msg.payload_len XJT_JSON_KEY_EID with
          ⟨hs3, v3, hv3⟩ | ⟨hs3, hv3⟩
        · rcases status_cases msg.payload msg.payload_len XJT_JSON_KEY_PARAMS with
            ⟨hs4, v4, hv4⟩ | ⟨hs4, hv4⟩
          · simp [hs, hv, hn2, hnum, hs2, hv2, hs3, hv3, hs4, hv4, Int.not_lt.mp hnum]
          · simp [hs, hv, hn2, hnum, hs2, hv2, hs3, hv3, hs4, hv4, hn1, hn4]
        · simp [hs, hv, hn2, hnum, hs2, hv2, hs3, hv3, hn1, hn4]
      · simp [hs, hv, hn2, hnum, hs2, hv2, hn1, hn4]
  · simp [hs, hv, hn1, hn4]

/-- The parser `_dm_parse_xjt_service_request` on a record of zeros. -/
theorem parse_xjt_service_request_eq (msg : aiot_mqtt_recv_t) :
    ((_dm_parse_xjt_service_request msg.payload msg.payload_len
        (aiot_dm_recv_t.zero
          aiot_dm_recv_type_t.AIOT_DMRECV_ASYNC_SERVICE_INVOKE).data.service_down).1
          < 0 ↔ recv_required_decode 2 msg = false) ∧
    (recv_required_decode 2 msg = true →
      (_dm_parse_xjt_service_request msg.payload msg.payload_len
        (aiot_dm_recv_t.zero
          aiot_dm_recv_type_t.AIOT_DMRECV_ASYNC_SERVICE_INVOKE).data.service_down).2
        = (recv_decoded 2 msg none none).data.service_down) := by
  have hn1 : STATE_USER_INPUT_JSON_PARSE_FAILED < 0 := by decide
  have hn2 : ¬ STATE_SUCCESS < 0 := by decide
  have hn4 : ¬ (0 : Int) ≤ STATE_USER_INPUT_JSON_PARSE_FAILED := by decide
  simp only [_dm_parse_xjt_service_request, recv_required_decode, field_uint64, field_present,
    field_text, recv_decoded, field_value, recv_kind, aiot_dm_recv_t.zero]
  rcases status_cases msg.payload msg.payload_len XJT_JSON_KEY_ID with ⟨hs, v, hv⟩ | ⟨hs, hv⟩
  · by_cases hnum : (core_str2uint64 v).1 < 0
    · simp [hs, hv, hn2, hnum]
    · rcases status_cases msg.payload msg.payload_len XJT_JSON_KEY_IDENTIFIER with
        ⟨hs2, v2, hv2⟩ | ⟨hs2, hv2⟩
      · rcases status_cases msg.payload msg.payload_len XJT_JSON_KEY_DATA with
          ⟨hs3, v3, hv3⟩ | ⟨hs3, hv3⟩
        · simp [hs, hv, hn2, hnum, hs2, hv2, hs3, hv3, Int.not_lt.mp hnum]
        · simp [hs, hv, hn2, hnum, hs2, hv2, hs3, hv3, hn1, hn4]
      · simp [hs, hv, hn2, hnum, hs2, hv2, hn1, hn4]
  · simp [hs, hv, hn1, hn4]

/-- The property-set handler given what the topic parser returned. -/
theorem recv_property_set_eq (msg : aiot_mqtt_recv_t) (h : dm_handle_t) (w w1 : World)
    (cb : Nat) (res : Int) (buf : Option Buf) (hcb : h.recv_handler = some cb)
    (hp : _dm_get_topic_level msg.topic msg.topic_len 5 w = some (res, buf, w1)) :
    dm_recv_deliver 1 msg h w =
      some (h, DM_FREE buf
        (if res < 0 ∨ recv_required_decode 1 msg = false then w1
         else recv_handler_call cb (recv_decoded 1 msg none buf) h.userdata w1)) := by
  obtain ⟨hlt, hdec⟩ := parse_xjt_prop_request_eq msg
  simp only [dm_recv_deliver, g_dm_recv_topic_mapping, List.getElem?_cons_succ,
    List.getElem?_cons_zero, _dm_recv_property_set_handler, hcb, hp]
  by_cases hres : res < 0
  · simp [hres]
  · by_cases hd : recv_required_decode 1 msg = false
    · have hlt1 := hlt.mpr hd
      simp only [aiot_dm_recv_t.zero] at hlt1
      simp [hres, hd, aiot_dm_recv_t.zero, hlt1]
    · have hd1 : recv_required_decode 1 msg = true := by simpa using hd
      have hnl := fun hx => hd (hlt.mp hx)
      have he := hdec hd1
      simp only [aiot_dm_recv_t.zero] at hnl he
      simp [hres, hd1, aiot_dm_recv_t.zero, he, recv_decoded, recv_kind]
      rw [if_neg hnl]

/-- The pointer `identifier` that `_dm_parse_xjt_service_request` leaves on
a record of zeros, whatever status it returns. -/
theorem parse_xjt_service_request_identifier (msg : aiot_mqtt_recv_t) :
    (_dm_parse_xjt_service_request msg.payload msg.payload_len
        (aiot_dm_recv_t.zero
          aiot_dm_recv_type_t.AIOT_DMRECV_ASYNC_SERVICE_INVOKE).data.service_down).2.identifier
      = recv_identifier_ptr msg := by
  have hn1 : STATE_USER_INPUT_JSON_PARSE_FAILED < 0 := by decide
  have hn2 : ¬ STATE_SUCCESS < 0 := by decide
  have hn3 : STATE_USER_INPUT_JSON_PARSE_FAILED ≠ STATE_SUCCESS := by decide
  have hn4 : ¬ (0 : Int) ≤ STATE_USER_INPUT_JSON_PARSE_FAILED := by decide
  have hn5 : (0 : Int) ≤ STATE_SUCCESS := by decide
  simp only [_dm_parse_xjt_service_request, recv_identifier_ptr, field_uint64, field_present,
    field_text, field_value, aiot_dm_recv_t.zero]
  rcases status_cases msg.payload msg.payload_len XJT_JSON_KEY_ID with ⟨hs, v, hv⟩ | ⟨hs, hv⟩
  · by_cases hnum : (core_str2uint64 v).1 < 0
    · simp [hs, hv, hn2, hnum, hn5, Int.not_le.mpr hnum]
    · rcases status_cases msg.payload msg.payload_len XJT_JSON_KEY_IDENTIFIER with
        ⟨hs2, v2, hv2⟩ | ⟨hs2, hv2⟩
      · rcases status_cases msg.payload msg.payload_len XJT_JSON_KEY_DATA with
          ⟨hs3, v3, hv3⟩ | ⟨hs3, hv3⟩
        · simp [hs, hv, hn2, hnum, hs2, hv2, hs3, hv3, hn5, Int.not_lt.mp hnum]
        · simp [hs, hv, hn2, hnum, hs2, hv2, hs3, hv3, hn1, hn5, Int.not_lt.mp hnum]
      · simp [hs, hv, hn2, hnum, hs2, hv2, hn1, hn3, hn5, Int.not_lt.mp hnum]
  · simp [hs, hv, hn1, hn4]

/-- The service-invoke handler given what the topic parser returned: after
the device name it releases the pointer `identifier` of the payload parser. -/
theorem recv_service_invoke_eq (msg : aiot_mqtt_recv_t) (h : dm_handle_t) (w w1 : World)
    (cb : Nat) (res : Int) (buf : Option Buf) (hcb : h.recv_handler = some cb)
    (hp : _dm_get_topic_level msg.topic msg.topic_len 5 w = some (res, buf, w1)) :
    dm_recv_deliver 2 msg h w =
      some (h, DM_FREE_payload_ptr (if res < 0 then none else recv_identifier_ptr msg)
        (DM_FREE buf
          (if res < 0 ∨ recv_required_decode 2 msg = false then w1
           else recv_handler_call cb (recv_decoded 2 msg none buf) h.userdata w1))) := by
  obtain ⟨hlt, hdec⟩ := parse_xjt_service_request_eq msg
  have hid := parse_xjt_service_request_identifier msg
  simp only [dm_recv_deliver, g_dm_recv_topic_mapping, List.getElem?_cons_succ,
    List.getElem?_cons_zero, _dm_recv_async_service_invoke_handler, hcb, hp,
    dm_recv_data.async_service_invoke_service_id]
  by_cases hres : res < 0
  · simp [hres, DM_FREE, aiot_dm_recv_t.zero]
  · by_cases hd : recv_required_decode 2 msg = false
    · have hlt1 := hlt.mpr hd
      simp only [aiot_dm_recv_t.zero] at hlt1 hid
      simp [hres, hd, aiot_dm_recv_t.zero, hlt1, DM_FREE, hid]
    · have hd1 : recv_required_decode 2 msg = true := by simpa using hd
      have hnl := fun hx => hd (hlt.mp hx)
      have he := hdec hd1
      simp only [aiot_dm_recv_t.zero] at hnl he hid
      rw [he] at hid
      simp only [recv_decoded, aiot_dm_recv_t.zero] at hid
      simp [hres, hd1, aiot_dm_recv_t.zero, he, recv_decoded, recv_kind, DM_FREE, ← hid]
      rw [if_neg hnl]

/-- The generic-reply handler when the first topic segment is not obtained. -/
theorem recv_generic_reply_eq_first (msg : aiot_mqtt_recv_t) (h : dm_handle_t) (w w1 : World)
    (cb : Nat) (res : Int) (pk : Option Buf) (hcb : h.recv_handler = some cb)
    (hp : _dm_get_topic_level msg.topic msg.topic_len 2 w = some (res, pk, w1))
    (hres : res < 0) :
    dm_recv_deliver 3 msg h w = some (h, DM_FREE pk w1) := by
  simp [dm_recv_deliver, g_dm_recv_topic_mapping, _dm_recv_generic_reply_handler, hcb, hp, hres,
    DM_FREE, aiot_dm_recv_t.zero]

/-- The generic-reply handler given what the topic parser returned twice. -/
theorem recv_generic_reply_eq (msg : aiot_mqtt_recv_t) (h : dm_handle_t) (w w1 w2 : World)
    (cb : Nat) (res1 res : Int) (pk buf : Option Buf) (hcb : h.recv_handler = some cb)
    (hp1 : _dm_get_topic_level msg.topic msg.topic_len 2 w = some (res1, pk, w1))
    (hres1 : ¬ res1 < 0)
    (hp : _dm_get_topic_level msg.topic msg.topic_len 3 w1 = some (res, buf, w2)) :
    dm_recv_deliver 3 msg h w =
      some (h, DM_FREE buf (DM_FREE pk
        (if res < 0 ∨ recv_required_decode 3 msg = false then w2
         else recv_handler_call cb (recv_decoded 3 msg pk buf) h.userdata
           (_append_diag_data DM_DIAG_MSG_TYPE_RSP
             (int32_of_uint32 (core_str2uint (field_text msg ALINK_JSON_KEY_ID)).2) w2)))) := by
  have hn1 : STATE_USER_INPUT_JSON_PARSE_FAILED < 0 := by decide
  have hn2 : ¬ STATE_SUCCESS < 0 := by decide
  have hn3 : STATE_USER_INPUT_JSON_PARSE_FAILED ≠ STATE_SUCCESS := by decide
  have hn4 : ¬ (0 : Int) ≤ STATE_USER_INPUT_JSON_PARSE_FAILED := by decide
  simp only [dm_recv_deliver, g_dm_recv_topic_mapping, List.getElem?_cons_succ,
    List.getElem?_cons_zero, _dm_recv_generic_reply_handler, hcb, hp1, hres1, if_false, hp]
  by_cases hres : res < 0
  · simp [hres]
  · rcases status_cases msg.payload msg.payload_len ALINK_JSON_KEY_ID with ⟨hs, v, hv⟩ | ⟨hs, hv⟩
    · by_cases hnum : (core_str2uint v).1 < 0
      · simp [hres, hs, hv, hn2, hnum, recv_required_decode, field_uint32, field_present,
          field_text]
      · rcases status_cases msg.payload msg.payload_len ALINK_JSON_KEY_CODE with
          ⟨hs2, v2, hv2⟩ | ⟨hs2, hv2⟩
        · by_cases hnum2 : (core_str2uint v2).1 < 0
          · simp [hres, hs, hv, hn2, hnum, recv_required_decode, field_uint32, field_present,
              field_text, hs2, hv2, hnum2]
          · rcases status_cases msg.payload msg.payload_len ALINK_JSON_KEY_DATA with
              ⟨hs3, v3, hv3⟩ | ⟨hs3, hv3⟩
            · rcases status_cases msg.payload msg.payload_len ALINK_JSON_KEY_MESSAGE with
                ⟨hs4, v4, hv4⟩ | ⟨hs4, hv4⟩
              · simp [hres, hs, hv, hn2, hnum, recv_required_decode, field_uint32,
                  field_present, field_text, hs2, hv2, hnum2, hs3, hv3, hs4, hv4, recv_decoded,
                  field_value, recv_kind, aiot_dm_recv_t.zero, Int.not_lt.mp hnum,
                  Int.not_lt.mp hnum2]
              · simp [hres, hs, hv, hn2, hnum, recv_required_decode, field_uint32,
                  field_present, field_text, hs2, hv2, hnum2, hs3, hv3, hs4, hv4, recv_decoded,
                  field_value, recv_kind, aiot_dm_recv_t.zero, Int.not_lt.mp hnum,
                  Int.not_lt.mp hnum2, hn3]
            · simp [hres, hs, hv, hn2, hnum, recv_required_decode, field_uint32,
                field_present, field_text, hs2, hv2, hnum2, hs3, hv3, hn1, hn4]
        · simp [hres, hs, hv, hn2, hnum, recv_required_decode, field_uint32, field_present,
            field_text, hs2, hv2, hn1, hn4]
    · simp [hres, hs, hv, hn1, recv_required_decode, field_uint32, field_present, hn4]


/-! ### What a delivery adds to the trace -/

theorem deliveries_append (a b : List Event) :
    deliveries (a ++ b) = deliveries a ++ deliveries b := by
  simp [deliveries, List.filter_append]

theorem callbacks_append (a b : List Event) :
    callbacks (a ++ b) = callbacks a ++ callbacks b := by
  simp [callbacks, List.filterMap_append]

/-- Events among which there is neither a diagnostic record nor a callback. -/
theorem deliveries_nil (es : List Event) (h : deliveries es = []) :
    callbacks es = [] ∧ diagRecords es = [] := by
  induction es with
  | nil => exact ⟨rfl, rfl⟩
  | cons e t ih =>
    cases e <;> simp_all [deliveries, callbacks, diagRecords, List.filter_cons]

/-- The topic parser on a well-formed buffer returns, and adds to the trace
at most its one allocation; it returns a buffer exactly when its status is
not negative. -/
theorem dm_get_topic_level_quiet (topic : List Char) (topic_len level : Nat) (w : World)
    (hl1 : 1 ≤ level) (hl2 : level ≤ 255) (h1 : 1 ≤ topic_len)
    (h2 : topic_len ≤ topic.length) (h3 : topic_len < 4294967296) :
    ∃ res buf w1 es, _dm_get_topic_level topic topic_len level w = some (res, buf, w1) ∧
      w1.trace = w.trace ++ es ∧ deliveries es = [] := by
  obtain ⟨n, data, hp⟩ := dm_get_topic_level_cases topic topic_len level w hl1 hl2 h1 h2 h3
  rw [hp]
  split
  · exact ⟨_, _, _, [], rfl, by simp, rfl⟩
  · split
    · exact ⟨_, _, _, _, rfl, rfl, rfl⟩
    · exact ⟨_, _, _, _, rfl, rfl, rfl⟩

/-- The topic parser when at least `level` delimiters precede the final
character and the allocator returns the buffer. -/
theorem dm_get_topic_level_ok (topic : List Char) (topic_len level : Nat) (w : World)
    (hl1 : 1 ≤ level) (hl2 : level ≤ 255) (h1 : 1 ≤ topic_len)
    (h2 : topic_len ≤ topic.length) (h3 : topic_len < 4294967296)
    (hseg : level ≤ (topic.take (topic_len - 1)).count '/')
    (ha : ¬ w.alloc_plan.head? = some false) :
    ∃ n data, _dm_get_topic_level topic topic_len level w =
      some (STATE_SUCCESS, some { addr := w.next_addr, data := data },
        { w with alloc_plan := w.alloc_plan.tail, next_addr := w.next_addr + 1,
                 trace := w.trace ++ [Event.malloc n (some w.next_addr)] }) := by
  obtain ⟨n, data, hp⟩ := dm_get_topic_level_cases topic topic_len level w hl1 hl2 h1 h2 h3
  refine ⟨n, data, ?_⟩
  rw [hp, if_neg (by omega), if_neg ha]

theorem DM_FREE_quiet (buf : Option Buf) (w : World) :
    ∃ fs, (DM_FREE buf w).trace = w.trace ++ fs ∧ deliveries fs = [] := by
  cases buf with
  | none => exact ⟨[], by simp [DM_FREE], rfl⟩
  | some b => exact ⟨[Event.free b.addr], rfl, rfl⟩

theorem DM_FREE_payload_ptr_quiet (ptr : Option (List Char)) (w : World) :
    ∃ fs, (DM_FREE_payload_ptr ptr w).trace = w.trace ++ fs ∧ deliveries fs = [] := by
  cases ptr with
  | none => exact ⟨[], by simp [DM_FREE_payload_ptr], rfl⟩
  | some t => exact ⟨[Event.free_payload_ptr t], rfl, rfl⟩

theorem newEvents_of_trace (w w1 : World) (es : List Event) (h : w1.trace = w.trace ++ es) :
    newEvents w w1 = es := by
  simp [newEvents, h]

/-- A delivery to a handler with a callback, of a message of which a required
field does not decode: the handler returns, and the trace gains neither a
diagnostic record nor a callback. -/
theorem recv_deliver_abort (i : Nat) (hi : i < 4) (msg : aiot_mqtt_recv_t) (h : dm_handle_t)
    (w : World) (cb : Nat) (hcb : h.recv_handler = some cb) (h1 : 1 ≤ msg.topic_len)
    (h2 : msg.topic_len ≤ msg.topic.length) (h3 : msg.topic_len < 4294967296)
    (hdec : recv_required_decode i msg = false) :
    ∃ w1 es, dm_recv_deliver i msg h w = some (h, w1) ∧ w1.trace = w.trace ++ es ∧
      deliveries es = [] := by
  by_cases h3i : i = 3
  · subst h3i
    obtain ⟨res1, pk, w1, es1, hp1, ht1, hq1⟩ :=
      dm_get_topic_level_quiet msg.topic msg.topic_len 2 w (by omega) (by omega) h1 h2 h3
    by_cases hres1 : res1 < 0
    · obtain ⟨fs, hf, hfq⟩ := DM_FREE_quiet pk w1
      refine ⟨_, es1 ++ fs, recv_generic_reply_eq_first msg h w w1 cb res1 pk hcb hp1 hres1, ?_,
        ?_⟩
      · rw [hf, ht1, List.append_assoc]
      · rw [deliveries_append, hq1, hfq]; rfl
    · obtain ⟨res, buf, w2, es2, hp2, ht2, hq2⟩ :=
        dm_get_topic_level_quiet msg.topic msg.topic_len 3 w1 (by omega) (by omega) h1 h2 h3
      obtain ⟨fs1, hf1, hfq1⟩ := DM_FREE_quiet pk w2
      obtain ⟨fs2, hf2, hfq2⟩ := DM_FREE_quiet buf (DM_FREE pk w2)
      refine ⟨_, es1 ++ es2 ++ fs1 ++ fs2,
        recv_generic_reply_eq msg h w w1 w2 cb res1 res pk buf hcb hp1 hres1 hp2, ?_, ?_⟩
      · simp only [hdec, or_true, if_true]
        rw [hf2, hf1, ht2, ht1]
        simp only [List.append_assoc]
      · simp only [deliveries_append, hq1, hq2, hfq1, hfq2, List.append_nil]
  · obtain ⟨res, buf, w1, es, hp, ht, hq⟩ :=
      dm_get_topic_level_quiet msg.topic msg.topic_len 5 w (by omega) (by omega) h1 h2 h3
    obtain ⟨fs, hf, hfq⟩ := DM_FREE_quiet buf w1
    by_cases h2i : i = 2
    · subst h2i
      obtain ⟨gs, hg, hgq⟩ := DM_FREE_payload_ptr_quiet
        (if res < 0 then none else recv_identifier_ptr msg) (DM_FREE buf w1)
      refine ⟨DM_FREE_payload_ptr (if res < 0 then none else recv_identifier_ptr msg)
        (DM_FREE buf w1), es ++ fs ++ gs, ?_, ?_, ?_⟩
      · rw [recv_service_invoke_eq msg h w w1 cb res buf hcb hp]; simp [hdec]
      · rw [hg, hf, ht]; simp only [List.append_assoc]
      · simp only [deliveries_append, hq, hfq, hgq, List.append_nil]
    · have hfin : dm_recv_deliver i msg h w = some (h, DM_FREE buf w1) := by
        have hi3 : i < 2 := by omega
        interval_cases i
        · rw [recv_register_eq msg h w w1 cb res buf hcb hp]; simp [hdec]
        · rw [recv_property_set_eq msg h w w1 cb res buf hcb hp]; simp [hdec]
      refine ⟨_, es ++ fs, hfin, ?_, ?_⟩
      · rw [hf, ht, List.append_assoc]
      · rw [deliveries_append, hq, hfq]; rfl

/-- C15: for each of the four handlers of `g_dm_recv_topic_mapping`, on a
context without registered callback, and for every topic and payload (also a
topic of length 0, on which the topic parser would read outside the buffer),
the handler returns with the context and the world as they were: the trace
gains no call, so nothing is parsed, recorded or allocated. -/
theorem recv_without_callback_does_nothing (i : Nat) (hi : i < 4) (msg : aiot_mqtt_recv_t)
    (h : dm_handle_t) (w : World) (hcb : h.recv_handler = none) :
    dm_recv_deliver i msg h w = some (h, w) := by
  interval_cases i <;>
    simp [dm_recv_deliver, g_dm_recv_topic_mapping, _dm_recv_register_handler,
      _dm_recv_property_set_handler, _dm_recv_async_service_invoke_handler,
      _dm_recv_generic_reply_handler, hcb]

/-- C15 for the generic-reply handler, on a message whose topic length is 0. -/
theorem recv_without_callback_does_nothing_witness :
    dm_recv_deliver 3 { topic := [], topic_len := 0, payload := [], payload_len := 0 }
      sample_handle World.init = some (sample_handle, World.init) :=
  recv_without_callback_does_nothing 3 (by decide) _ sample_handle World.init rfl

/-- C13: for each of the four handlers, with a callback registered and a
topic buffer of `1 <= topic_len < 2^32` characters, if a field the handler
requires is absent from the payload or, for ids and status codes, does not
convert to a number, then the handler returns and the calls it made include
no callback invocation and no diagnostic record. -/
theorem recv_missing_field_is_dropped (i : Nat) (hi : i < 4) (msg : aiot_mqtt_recv_t)
    (h : dm_handle_t) (w : World) (cb : Nat) (hcb : h.recv_handler = some cb)
    (h1 : 1 ≤ msg.topic_len) (h2 : msg.topic_len ≤ msg.topic.length)
    (h3 : msg.topic_len < 4294967296) (hdec : recv_required_decode i msg = false) :
    ∃ w1, dm_recv_deliver i msg h w = some (h, w1) ∧
      callbacks (newEvents w w1) = [] ∧ diagRecords (newEvents w w1) = [] := by
  obtain ⟨w1, es, hs, ht, hq⟩ := recv_deliver_abort i hi msg h w cb hcb h1 h2 h3 hdec
  refine ⟨w1, hs, ?_⟩
  rw [newEvents_of_trace w w1 es ht]
  exact deliveries_nil es hq


/-- C13 for the generic-reply handler and a payload without `code`. -/
theorem recv_missing_field_is_dropped_witness :
    ∃ w1, dm_recv_deliver 3 event_reply_no_code_msg sample_recv_handle World.init =
        some (sample_recv_handle, w1) ∧
      callbacks (newEvents World.init w1) = [] ∧ diagRecords (newEvents World.init w1) = [] :=
  recv_missing_field_is_dropped 3 (by decide) event_reply_no_code_msg sample_recv_handle
    World.init 9 rfl (by decide) (by decide) (by decide) (by decide)

theorem callbacks_of_deliveries (es : List Event) : callbacks (deliveries es) = callbacks es := by
  induction es with
  | nil => rfl
  | cons e t ih =>
    cases e <;> simp_all [deliveries, callbacks, List.filter_cons]

theorem diagRecords_of_deliveries (es : List Event) :
    diagRecords (deliveries es) = diagRecords es := by
  induction es with
  | nil => rfl
  | cons e t ih =>
    cases e <;> simp_all [deliveries, diagRecords, List.filter_cons]

theorem alloc_plan_first (l : List Bool) (n : Nat) (h : ∀ b ∈ l.take (n + 1), b = true) :
    ¬ l.head? = some false := by
  cases l with
  | nil => simp
  | cons x t =>
    have := h x (by simp)
    simp [this]

theorem alloc_plan_second (l : List Bool) (n : Nat) (h : ∀ b ∈ l.take (n + 2), b = true) :
    ¬ l.tail.head? = some false := by
  cases l with
  | nil => simp
  | cons x t =>
    cases t with
    | nil => simp
    | cons y r =>
      have := h y (by simp)
      simp [this]

/-- A delivery to a handler with a callback, of a message whose required
fields decode, when the topic has the delimiters the handler's levels need
before its final character and the allocator returns the buffers: the handler
returns, and of diagnostic records and callbacks the trace gains the records
of `recv_diag` and then one callback, invoked with the decoded message that
carries the strings the topic parser returned. -/
theorem recv_deliver_ok (i : Nat) (hi : i < 4) (msg : aiot_mqtt_recv_t) (h : dm_handle_t)
    (w : World) (cb : Nat) (hcb : h.recv_handler = some cb) (h1 : 1 ≤ msg.topic_len)
    (h2 : msg.topic_len ≤ msg.topic.length) (h3 : msg.topic_len < 4294967296)
    (hseg : ∀ l ∈ recv_topic_levels i, l ≤ (msg.topic.take (msg.topic_len - 1)).count '/')
    (halloc : ∀ b ∈ w.alloc_plan.take (recv_topic_levels i).length, b = true)
    (hdec : recv_required_decode i msg = true) :
    ∃ w1 pk dn, dm_recv_deliver i msg h w = some (h, w1) ∧
      deliveries (newEvents w w1) =
        (recv_diag i msg).map Event.diag ++
          [Event.recv_handler cb (recv_decoded i msg pk dn) h.userdata] ∧
      (i ≠ 3 → pk = none ∧ ∃ b w2, dn = some b ∧
        _dm_get_topic_level msg.topic msg.topic_len 5 w = some (STATE_SUCCESS, dn, w2)) ∧
      (i = 3 → ∃ b1 b2 w2 w3, pk = some b1 ∧ dn = some b2 ∧
        _dm_get_topic_level msg.topic msg.topic_len 2 w = some (STATE_SUCCESS, pk, w2) ∧
        _dm_get_topic_level msg.topic msg.topic_len 3 w2 = some (STATE_SUCCESS, dn, w3)) := by
  have hneg : ¬ STATE_SUCCESS < 0 := by decide
  by_cases h3i : i = 3
  · subst h3i
    have ha1 := alloc_plan_first w.alloc_plan 1 halloc
    have ha2 := alloc_plan_second w.alloc_plan 0 halloc
    obtain ⟨n1, d1, hp1⟩ := dm_get_topic_level_ok msg.topic msg.topic_len 2 w (by omega)
      (by omega) h1 h2 h3 (hseg 2 (by simp [recv_topic_levels])) ha1
    obtain ⟨n2, d2, hp2⟩ := dm_get_topic_level_ok msg.topic msg.topic_len 3
      { w with alloc_plan := w.alloc_plan.tail, next_addr := w.next_addr + 1,
               trace := w.trace ++ [Event.malloc n1 (some w.next_addr)] } (by omega)
      (by omega) h1 h2 h3 (hseg 3 (by simp [recv_topic_levels])) ha2
    refine ⟨_, _, _, recv_generic_reply_eq msg h w _ _ cb _ _ _ _ hcb hp1 hneg hp2, ?_,
      fun hne => absurd rfl hne, fun _ => ⟨_, _, _, _, rfl, rfl, hp1, hp2⟩⟩
    simp [hneg, hdec, DM_FREE, core_sysdep_free, recv_handler_call, _append_diag_data, core_diag,
      newEvents, deliveries, recv_diag]
  · have ha1 : ¬ w.alloc_plan.head? = some false := by
      apply alloc_plan_first w.alloc_plan 0
      have hlen : (recv_topic_levels i).length = 1 := by
        have hi3 : i < 3 := by omega
        interval_cases i <;> rfl
      rw [hlen] at halloc
      exact halloc
    have hseg5 : 5 ≤ (msg.topic.take (msg.topic_len - 1)).count '/' := by
      apply hseg 5
      have hi3 : i < 3 := by omega
      interval_cases i <;> simp [recv_topic_levels]
    obtain ⟨n1, d1, hp1⟩ := dm_get_topic_level_ok msg.topic msg.topic_len 5 w (by omega)
      (by omega) h1 h2 h3 hseg5 ha1
    have hi3 : i < 3 := by omega
    interval_cases i
    · refine ⟨_, none, _, recv_register_eq msg h w _ cb _ _ hcb hp1, ?_,
        fun _ => ⟨rfl, _, _, rfl, hp1⟩, fun hx => absurd hx (by decide)⟩
      simp [hneg, hdec, DM_FREE, core_sysdep_free, recv_handler_call, _append_diag_data,
        core_diag, newEvents, deliveries, recv_diag]
    · refine ⟨_, none, _, recv_property_set_eq msg h w _ cb _ _ hcb hp1, ?_,
        fun _ => ⟨rfl, _, _, rfl, hp1⟩, fun hx => absurd hx (by decide)⟩
      simp [hneg, hdec, DM_FREE, core_sysdep_free, recv_handler_call, newEvents, deliveries,
        recv_diag]
    · refine ⟨_, none, _, recv_service_invoke_eq msg h w _ cb _ _ hcb hp1, ?_,
        fun _ => ⟨rfl, _, _, rfl, hp1⟩, fun hx => absurd hx (by decide)⟩
      cases hidp : recv_identifier_ptr msg <;>
        simp [hneg, hdec, DM_FREE, DM_FREE_payload_ptr, core_sysdep_free, recv_handler_call,
          newEvents, deliveries, recv_diag]


/-- C12, as the code has it: for every non-empty device name `dev` without
`/`, an event reply delivered on `/v1/device/down/event_reply/<dev>` with a
numeric id, a numeric code and a data field, to a context with a callback
and with an allocator that returns the two buffers, has the callback invoked
once with a decoded message whose device name is `down` and whose product key
is `device`: the generic-reply handler takes levels 2 and 3 of the topic, and
`<dev>` is level 5. -/
theorem recv_generic_reply_device_name (dev payload : List Char) (h : dm_handle_t) (w : World)
    (cb : Nat) (hcb : h.recv_handler = some cb) (hne : dev ≠ []) (hns : '/' ∉ dev)
    (hlen : dev.length < 4294967000)
    (halloc : ∀ b ∈ w.alloc_plan.take 2, b = true)
    (hdec : recv_required_decode 3
      (recv_msg ("/v1/device/down/event_reply/".toList ++ dev) payload) = true) :
    ∃ w1 recv,
      dm_recv_deliver 3 (recv_msg ("/v1/device/down/event_reply/".toList ++ dev) payload) h w =
        some (h, w1) ∧
      callbacks (newEvents w w1) = [(cb, recv, h.userdata)] ∧
      recv.device_name.map Buf.data = some "down".toList ∧
      recv.product_key.map Buf.data = some "device".toList := by
  have hx : dev.getLast hne ≠ '/' := fun e => hns (e ▸ List.getLast_mem hne)
  have hdev : dev.dropLast ++ [dev.getLast hne] = dev := List.dropLast_append_getLast hne
  have hT2 : "/v1/device/down/event_reply/".toList ++ dev =
      "/v1".toList ++ '/' :: (("device/down/event_reply/".toList ++ dev.dropLast) ++
        [dev.getLast hne]) := by
    rw [List.append_assoc, hdev]; rfl
  have hT3 : "/v1/device/down/event_reply/".toList ++ dev =
      "/v1/device".toList ++ '/' :: (("down/event_reply/".toList ++ dev.dropLast) ++
        [dev.getLast hne]) := by
    rw [List.append_assoc, hdev]; rfl
  have htw2 : (("device/down/event_reply/".toList ++ dev.dropLast) ++
      [dev.getLast hne]).takeWhile (fun c => c != '/') = "device".toList := by
    simp [List.takeWhile_cons]
  have htw3 : (("down/event_reply/".toList ++ dev.dropLast) ++
      [dev.getLast hne]).takeWhile (fun c => c != '/') = "down".toList := by
    simp [List.takeWhile_cons]
  have hL : ("/v1/device/down/event_reply/".toList ++ dev).length = 28 + dev.length := by
    rw [List.length_append]
    have : "/v1/device/down/event_reply/".toList.length = 28 := by decide
    omega
  have htake : ("/v1/device/down/event_reply/".toList ++ dev).take
      (("/v1/device/down/event_reply/".toList ++ dev).length - 1) =
      "/v1/device/down/event_reply/".toList ++ dev.dropLast := by
    rw [← List.dropLast_eq_take, List.dropLast_append_of_ne_nil _ hne]
  have hseg : ∀ l ∈ recv_topic_levels 3,
      l ≤ ((recv_msg ("/v1/device/down/event_reply/".toList ++ dev) payload).topic.take
        ((recv_msg ("/v1/device/down/event_reply/".toList ++ dev) payload).topic_len - 1)).count
          '/' := by
    intro l hl
    have hl3 : l ≤ 3 := by
      simp only [recv_topic_levels, List.mem_cons, List.mem_singleton, List.not_mem_nil,
        or_false] at hl
      omega
    have hc : 5 ≤ ("/v1/device/down/event_reply/".toList ++ dev.dropLast).count '/' := by
      rw [List.count_append]
      have : "/v1/device/down/event_reply/".toList.count '/' = 5 := by decide
      omega
    simp only [recv_msg]
    rw [htake]
    omega
  obtain ⟨w1, pk, dn, hs, hdl, _, hpb⟩ :=
    recv_deliver_ok 3 (by decide) (recv_msg ("/v1/device/down/event_reply/".toList ++ dev) payload)
      h w cb hcb (by simp [recv_msg]) (by simp [recv_msg]) (by simp only [recv_msg]; omega)
      hseg halloc hdec
  obtain ⟨b1, b2, w2, w3, hpk, hdn, hp2, hp3⟩ := hpb rfl
  have ha1 := alloc_plan_first w.alloc_plan 1 halloc
  have ha2 := alloc_plan_second w.alloc_plan 0 halloc
  have hseg2 := dm_get_topic_level_segment 2 (by decide) "/v1".toList
    ("device/down/event_reply/".toList ++ dev.dropLast) (dev.getLast hne) hx (by decide)
    (by rw [← hT2, hL]; omega) (by rw [htw2]; decide) w _ _
    (by rw [htw2]; exact core_sysdep_malloc_ok _ w ha1)
  rw [← hT2, htw2] at hseg2
  simp only [recv_msg] at hp2 hp3
  rw [hseg2] at hp2
  simp only [Option.some.injEq, Prod.mk.injEq, true_and] at hp2
  obtain ⟨hpk2, hw2⟩ := hp2
  have hseg3 := dm_get_topic_level_segment 3 (by decide) "/v1/device".toList
    ("down/event_reply/".toList ++ dev.dropLast) (dev.getLast hne) hx (by decide)
    (by rw [← hT3, hL]; omega) (by rw [htw3]; decide) w2 _ _
    (by rw [htw3]; exact core_sysdep_malloc_ok _ w2 (by rw [← hw2]; exact ha2))
  rw [← hT3, htw3] at hseg3
  rw [hseg3] at hp3
  simp only [Option.some.injEq, Prod.mk.injEq, true_and] at hp3
  obtain ⟨hdn3, _⟩ := hp3
  refine ⟨w1, recv_decoded 3 (recv_msg ("/v1/device/down/event_reply/".toList ++ dev) payload)
    pk dn, hs, ?_, ?_, ?_⟩
  · rw [← callbacks_of_deliveries, hdl]
    simp [recv_diag, callbacks]
  · rw [← hdn3]; rfl
  · rw [← hpk2]; rfl

/-- C12 on `/v1/device/down/event_reply/devA`: the callback is shown the
device name `down`. -/
theorem recv_generic_reply_device_name_witness :
    ∃ w1 recv,
      dm_recv_deliver 3 (recv_msg ("/v1/device/down/event_reply/".toList ++ "devA".toList)
          "\x7b\"id\":\"7\",\"code\":200,\"data\":\x7b\x7d\x7d".toList)
        sample_recv_handle World.init = some (sample_recv_handle, w1) ∧
      callbacks (newEvents World.init w1) = [(9, recv, sample_recv_handle.userdata)] ∧
      recv.device_name.map Buf.data = some "down".toList ∧
      recv.product_key.map Buf.data = some "device".toList :=
  recv_generic_reply_device_name "devA".toList
    "\x7b\"id\":\"7\",\"code\":200,\"data\":\x7b\x7d\x7d".toList sample_recv_handle World.init 9
    rfl (by decide) (by decide) (by decide) (by decide) (by decide)


/-! ### Delivery of inbound messages -/

/-- C14, where it fails: a property-set message whose required fields all
decode, on a topic with the five segments, delivered to a context with a
callback by an allocator that returns the buffer: the callback is invoked
once with the decoded message, and no diagnostic record is appended. -/
theorem recv_property_set_appends_no_record :
    recv_required_decode 1 property_set_msg = true ∧
    (dm_recv_deliver 1 property_set_msg sample_recv_handle World.init).isSome = true ∧
    callbacks (newEvents World.init
        (world_after_deliver 1 property_set_msg sample_recv_handle World.init)) =
      [(9, recv_decoded 1 property_set_msg none (some { addr := 0, data := "devA".toList }),
        some 5)] ∧
    diagRecords (newEvents World.init
        (world_after_deliver 1 property_set_msg sample_recv_handle World.init)) = [] := by
  decide

theorem recv_topic_levels_le (i : Nat) (c : Nat) (hc : 5 ≤ c) :
    ∀ l ∈ recv_topic_levels i, l ≤ c := by
  intro l hl
  unfold recv_topic_levels at hl
  split at hl <;> simp at hl <;> omega

theorem recv_topic_levels_length (i : Nat) :
    (recv_topic_levels i).length = if i = 3 then 2 else 1 := by
  unfold recv_topic_levels
  split
  · rfl
  · rename_i hne
    have : ¬ i = 3 := fun e => hne (by rw [e])
    simp [this]

/-- C14, amended: for each of the four handlers, with a callback registered,
a topic buffer of `1 <= topic_len < 2^32` characters that holds at least five
delimiters before its final character, an allocator that returns each buffer
asked of it (two by the generic-reply handler, one by the others), and
required payload fields that all decode: the handler returns; the
register-info and generic-reply handlers append exactly one diagnostic record,
of type response and carrying the message id, and then invoke the callback
exactly once; the property-set and service-invoke handlers append no
diagnostic record and invoke the callback exactly once; the callback is shown
the decoded message. -/
theorem recv_delivers_once (i : Nat) (hi : i < 4) (msg : aiot_mqtt_recv_t) (h : dm_handle_t)
    (w : World) (cb : Nat) (hcb : h.recv_handler = some cb) (h1 : 1 ≤ msg.topic_len)
    (h2 : msg.topic_len ≤ msg.topic.length) (h3 : msg.topic_len < 4294967296)
    (hseg : 5 ≤ (msg.topic.take (msg.topic_len - 1)).count '/')
    (halloc : ∀ b ∈ w.alloc_plan.take (if i = 3 then 2 else 1), b = true)
    (hdec : recv_required_decode i msg = true) :
    ∃ w1 pk dn, dm_recv_deliver i msg h w = some (h, w1) ∧
      deliveries (newEvents w w1) =
        (recv_diag i msg).map Event.diag ++
          [Event.recv_handler cb (recv_decoded i msg pk dn) h.userdata] ∧
      diagRecords (newEvents w w1) = recv_diag i msg ∧
      callbacks (newEvents w w1) = [(cb, recv_decoded i msg pk dn, h.userdata)] ∧
      (recv_diag i msg).length = (if i = 0 ∨ i = 3 then 1 else 0) ∧
      (∀ r ∈ recv_diag i msg, r[3]? = some DM_DIAG_MSG_TYPE_RSP) := by
  obtain ⟨w1, pk, dn, hs, hdl, _, _⟩ :=
    recv_deliver_ok i hi msg h w cb hcb h1 h2 h3 (recv_topic_levels_le i _ hseg)
      (by rw [recv_topic_levels_length]; exact halloc) hdec
  refine ⟨w1, pk, dn, hs, hdl, ?_, ?_, ?_, ?_⟩
  · rw [← diagRecords_of_deliveries, hdl]
    interval_cases i <;> simp [recv_diag, diagRecords]
  · rw [← callbacks_of_deliveries, hdl]
    interval_cases i <;> simp [recv_diag, callbacks]
  · interval_cases i <;> simp [recv_diag]
  · interval_cases i <;> simp [recv_diag, diag_record]

/-- C14, amended, for the generic-reply handler on the sample event reply. -/
theorem recv_delivers_once_witness :
    ∃ w1 pk dn, dm_recv_deliver 3 event_reply_msg sample_recv_handle World.init =
        some (sample_recv_handle, w1) ∧
      deliveries (newEvents World.init w1) =
        (recv_diag 3 event_reply_msg).map Event.diag ++
          [Event.recv_handler 9 (recv_decoded 3 event_reply_msg pk dn)
            sample_recv_handle.userdata] ∧
      diagRecords (newEvents World.init w1) = recv_diag 3 event_reply_msg ∧
      callbacks (newEvents World.init w1) =
        [(9, recv_decoded 3 event_reply_msg pk dn, sample_recv_handle.userdata)] ∧
      (recv_diag 3 event_reply_msg).length = (if 3 = 0 ∨ 3 = 3 then 1 else 0) ∧
      (∀ r ∈ recv_diag 3 event_reply_msg, r[3]? = some DM_DIAG_MSG_TYPE_RSP) :=
  recv_delivers_once 3 (by decide) event_reply_msg sample_recv_handle World.init 9 rfl
    (by decide) (by decide) (by decide) (by decide) (by decide) (by decide)

/-- C16, where it fails: a register-info message with a numeric id and no
`deviceInfos`, on a topic with the five segments, delivered to a context with
a callback while the allocator refuses the buffer of the device name: the
callback is not invoked. -/
theorem recv_register_info_without_buffer :
    field_uint32 register_info_msg XJT_JSON_KEY_ID = true ∧
    field_present register_info_msg XJT_JSON_KEY_DEV_INFO = false ∧
    (dm_recv_deliver 0 register_info_msg sample_recv_handle
      { World.init with alloc_plan := [false] }).isSome = true ∧
    callbacks (newEvents { World.init with alloc_plan := [false] }
        (world_after_deliver 0 register_info_msg sample_recv_handle
          { World.init with alloc_plan := [false] })) = [] := by
  decide

theorem field_value_absent (msg : aiot_mqtt_recv_t) (key : List Char)
    (h : field_present msg key = false) : field_value msg key = none := by
  have hs : ¬ STATE_SUCCESS < 0 := by decide
  simp only [field_present, decide_eq_false_iff_not, Int.not_le] at h
  have hne : (core_json_value msg.payload msg.payload_len key).1 ≠ STATE_SUCCESS :=
    fun e => hs (e ▸ h)
  simp [field_value, hne]

/-- C16, amended: for a register-info message with a numeric id and no
`deviceInfos` field (element 0), and for a generic-reply message with numeric
id and code, a data field and no `message` field (element 3), delivered to a
context with a callback on a topic buffer of `1 <= topic_len < 2^32`
characters that holds at least five delimiters before its final character,
when the allocator returns each buffer asked of it: the handler returns, the
callback is invoked exactly once, and the decoded message it is shown carries
the optional field as a null pointer with length 0. -/
theorem recv_optional_field_absent (i : Nat) (hi : i = 0 ∨ i = 3) (msg : aiot_mqtt_recv_t)
    (h : dm_handle_t) (w : World) (cb : Nat) (hcb : h.recv_handler = some cb)
    (h1 : 1 ≤ msg.topic_len) (h2 : msg.topic_len ≤ msg.topic.length)
    (h3 : msg.topic_len < 4294967296)
    (hseg : 5 ≤ (msg.topic.take (msg.topic_len - 1)).count '/')
    (halloc : ∀ b ∈ w.alloc_plan.take (if i = 3 then 2 else 1), b = true)
    (hdec : recv_required_decode i msg = true)
    (hopt : field_present msg
      (if i = 0 then XJT_JSON_KEY_DEV_INFO else ALINK_JSON_KEY_MESSAGE) = false) :
    ∃ w1 recv, dm_recv_deliver i msg h w = some (h, w1) ∧
      callbacks (newEvents w w1) = [(cb, recv, h.userdata)] ∧
      (i = 0 → recv.data.register_info.params = none ∧
        recv.data.register_info.params_len = 0) ∧
      (i = 3 → recv.data.generic_reply.message = none ∧
        recv.data.generic_reply.message_len = 0) := by
  have hi4 : i < 4 := by omega
  obtain ⟨w1, pk, dn, hs, hdl, _, _⟩ :=
    recv_deliver_ok i hi4 msg h w cb hcb h1 h2 h3 (recv_topic_levels_le i _ hseg)
      (by rw [recv_topic_levels_length]; exact halloc) hdec
  refine ⟨w1, recv_decoded i msg pk dn, hs, ?_, ?_, ?_⟩
  · rw [← callbacks_of_deliveries, hdl]
    rcases hi with rfl | rfl <;> simp [recv_diag, callbacks]
  · intro h0
    subst h0
    have := field_value_absent msg XJT_JSON_KEY_DEV_INFO (by simpa using hopt)
    simp [recv_decoded, this]
  · intro h0
    subst h0
    have := field_value_absent msg ALINK_JSON_KEY_MESSAGE (by simpa using hopt)
    simp [recv_decoded, this]

/-- C16, amended, on the sample register-info message and the sample event
reply. -/
theorem recv_optional_field_absent_witness :
    (∃ w1 recv, dm_recv_deliver 0 register_info_msg sample_recv_handle World.init =
        some (sample_recv_handle, w1) ∧
      callbacks (newEvents World.init w1) = [(9, recv, sample_recv_handle.userdata)] ∧
      (0 = 0 → recv.data.register_info.params = none ∧
        recv.data.register_info.params_len = 0) ∧
      (0 = 3 → recv.data.generic_reply.message = none ∧
        recv.data.generic_reply.message_len = 0)) ∧
    (∃ w1 recv, dm_recv_deliver 3 event_reply_msg sample_recv_handle World.init =
        some (sample_recv_handle, w1) ∧
      callbacks (newEvents World.init w1) = [(9, recv, sample_recv_handle.userdata)] ∧
      (3 = 0 → recv.data.register_info.params = none ∧
        recv.data.register_info.params_len = 0) ∧
      (3 = 3 → recv.data.generic_reply.message = none ∧
        recv.data.generic_reply.message_len = 0)) :=
  ⟨recv_optional_field_absent 0 (Or.inl rfl) register_info_msg sample_recv_handle World.init 9
      rfl (by decide) (by decide) (by decide) (by decide) (by decide) (by decide) (by decide),
    recv_optional_field_absent 3 (Or.inr rfl) event_reply_msg sample_recv_handle World.init 9
      rfl (by decide) (by decide) (by decide) (by decide) (by decide) (by decide) (by decide)⟩

/-! ### Setting options -/

theorem opt_labels (O : DmOptEnum) (hwf : O.wf) :
    O.AIOT_DMOPT_MQTT_HANDLE ≠ O.AIOT_DMOPT_RECV_HANDLER ∧
    O.AIOT_DMOPT_MQTT_HANDLE ≠ O.AIOT_DMOPT_USERDATA ∧
    O.AIOT_DMOPT_MQTT_HANDLE ≠ O.AIOT_DMOPT_POST_REPLY ∧
    O.AIOT_DMOPT_RECV_HANDLER ≠ O.AIOT_DMOPT_USERDATA ∧
    O.AIOT_DMOPT_RECV_HANDLER ≠ O.AIOT_DMOPT_POST_REPLY ∧
    O.AIOT_DMOPT_USERDATA ≠ O.AIOT_DMOPT_POST_REPLY ∧
    O.AIOT_DMOPT_MQTT_HANDLE < O.AIOT_DMOPT_MAX ∧
    O.AIOT_DMOPT_RECV_HANDLER < O.AIOT_DMOPT_MAX ∧
    O.AIOT_DMOPT_USERDATA < O.AIOT_DMOPT_MAX ∧
    O.AIOT_DMOPT_POST_REPLY < O.AIOT_DMOPT_MAX := by
  obtain ⟨hnd, hlt⟩ := hwf
  simp only [DmOptEnum.caseLabels, List.nodup_cons, List.mem_cons, List.mem_singleton,
    List.not_mem_nil, not_or, or_false, List.nodup_nil, and_true, not_false_eq_true] at hnd
  simp only [DmOptEnum.caseLabels, List.mem_cons, List.mem_singleton, List.not_mem_nil,
    or_false, forall_eq_or_imp, forall_eq] at hlt
  obtain ⟨⟨a, b, c⟩, ⟨d, e⟩, f⟩ := hnd
  obtain ⟨g, h, i, j⟩ := hlt
  exact ⟨a, b, c, d, e, f, g, h, i, j⟩

/-- C22: for each of the options `AIOT_DMOPT_RECV_HANDLER`,
`AIOT_DMOPT_USERDATA` and `AIOT_DMOPT_POST_REPLY` and every non-null `data`,
`aiot_dm_setopt` returns `STATE_SUCCESS`; the context after it is the context
before it with the one field the option names replaced (the callback or the
user data by the pointer, the reply policy by the byte pointed to), so every
other field, the transport handle among them, is as before; the world is
unchanged, so no call is made on the transport; and the same call on the
context so obtained returns it unchanged. -/
theorem setopt_sets_one_field (O : DmOptEnum) (hwf : O.wf) (h : dm_handle_t) (d : dm_opt_data)
    (w : World) (option : Nat)
    (hopt : option = O.AIOT_DMOPT_RECV_HANDLER ∨ option = O.AIOT_DMOPT_USERDATA ∨
      option = O.AIOT_DMOPT_POST_REPLY) :
    ∃ h1, aiot_dm_setopt O (some h) option (some d) w = some (STATE_SUCCESS, some h1, w) ∧
      h1 = (if option = O.AIOT_DMOPT_RECV_HANDLER then { h with recv_handler := some d.ptr }
            else if option = O.AIOT_DMOPT_USERDATA then { h with userdata := some d.ptr }
            else { h with post_reply := d.uint8 % 256 }) ∧
      h1.mqtt_handle = h.mqtt_handle ∧
      aiot_dm_setopt O (some h1) option (some d) w = some (STATE_SUCCESS, some h1, w) := by
  obtain ⟨h12, h13, h14, h23, h24, h34, l1, l2, l3, l4⟩ := opt_labels O hwf
  rcases hopt with rfl | rfl | rfl
  · have hmax : ¬ O.AIOT_DMOPT_RECV_HANDLER ≥ O.AIOT_DMOPT_MAX := by omega
    refine ⟨{ h with recv_handler := some d.ptr }, ?_, ?_, rfl, ?_⟩ <;>
      simp [aiot_dm_setopt, hmax, h12.symm]
  · have hmax : ¬ O.AIOT_DMOPT_USERDATA ≥ O.AIOT_DMOPT_MAX := by omega
    refine ⟨{ h with userdata := some d.ptr }, ?_, ?_, rfl, ?_⟩ <;>
      simp [aiot_dm_setopt, hmax, h13.symm, h23.symm]
  · have hmax : ¬ O.AIOT_DMOPT_POST_REPLY ≥ O.AIOT_DMOPT_MAX := by omega
    refine ⟨{ h with post_reply := d.uint8 % 256 }, ?_, ?_, rfl, ?_⟩ <;>
      simp [aiot_dm_setopt, hmax, h14.symm, h24.symm, h34.symm]

/-- C22 for setting the callback on the sample context. -/
theorem setopt_sets_one_field_witness :
    ∃ h1, aiot_dm_setopt DmOptEnum.sample (some sample_handle) 1
        (some (data_of_transport sample_transport)) World.init =
          some (STATE_SUCCESS, some h1, World.init) ∧
      h1 = (if 1 = DmOptEnum.sample.AIOT_DMOPT_RECV_HANDLER then
              { sample_handle with recv_handler := some (data_of_transport sample_transport).ptr }
            else if 1 = DmOptEnum.sample.AIOT_DMOPT_USERDATA then
              { sample_handle with userdata := some (data_of_transport sample_transport).ptr }
            else { sample_handle with
                   post_reply := (data_of_transport sample_transport).uint8 % 256 }) ∧
      h1.mqtt_handle = sample_handle.mqtt_handle ∧
      aiot_dm_setopt DmOptEnum.sample (some h1) 1 (some (data_of_transport sample_transport))
        World.init = some (STATE_SUCCESS, some h1, World.init) :=
  setopt_sets_one_field DmOptEnum.sample (by decide) sample_handle
    (data_of_transport sample_transport) World.init 1 (Or.inl rfl)

/-- The attach of a transport without default device name. -/
theorem setopt_attach_nameless (O : DmOptEnum) (hwf : O.wf) (h : dm_handle_t)
    (d : dm_opt_data) (w : World) (hname : d.mqtt.device_name = none) :
    aiot_dm_setopt O (some h) O.AIOT_DMOPT_MQTT_HANDLE (some d) w =
      some (STATE_USER_INPUT_MISSING_DEVICE_NAME, some { h with mqtt_handle := some d.mqtt },
        queried (some d.mqtt) w) := by
  obtain ⟨_, _, _, _, _, _, l1, _, _, _⟩ := opt_labels O hwf
  have hmax : ¬ O.AIOT_DMOPT_MQTT_HANDLE ≥ O.AIOT_DMOPT_MAX := by omega
  have hneg : ¬ STATE_USER_INPUT_MISSING_DEVICE_NAME ≥ STATE_SUCCESS := by decide
  simp [aiot_dm_setopt, hmax, _dm_setup_topic_mapping, core_mqtt_get_device_name, hname, hneg,
    queried]

/-- C25: `aiot_dm_setopt` with `AIOT_DMOPT_MQTT_HANDLE` and a transport whose
default device name is null returns `STATE_USER_INPUT_MISSING_DEVICE_NAME`;
the one call it makes is the query of the device name, so no topic and no
process handler is registered; the context it leaves has the new transport as
its handle.  On that context a later send that carries its own device name,
of a tag with an initialised table entry and complete fields, with the
allocator returning its two buffers, publishes on the topic of that device
name, while the same send on a context without transport returns
`STATE_DM_MQTT_HANDLE_IS_NULL`. -/
theorem failed_attach_keeps_transport (O : DmOptEnum) (hwf : O.wf) (E : DmMsgEnum)
    (h : dm_handle_t) (d : dm_opt_data) (w : World) (hname : d.mqtt.device_name = none) :
    ∃ h1 w1, aiot_dm_setopt O (some h) O.AIOT_DMOPT_MQTT_HANDLE (some d) w =
        some (STATE_USER_INPUT_MISSING_DEVICE_NAME, some h1, w1) ∧
      newEvents w w1 = [Event.get_device_name (some d.mqtt.id)] ∧
      topicsAdded (newEvents w w1) = [] ∧ processHandlers (newEvents w w1) = [] ∧
      h1 = { h with mqtt_handle := some d.mqtt } ∧
      ∀ (m : aiot_dm_msg_t) (w2 : World) (dn : List Char), m.device_name = some dn →
        m.type < 6 → m.type < E.AIOT_DMMSG_MAX → m.type ∈ E.caseLabels →
        (∀ f ∈ required_fields m, f ≠ none) →
        ¬ w2.alloc_plan.head? = some false → ¬ w2.alloc_plan.tail.head? = some false →
        (∃ r w3 payload, aiot_dm_send E (some h1) (some m) w2 = some (r, w3) ∧
          publishes (newEvents w2 w3) =
            [(some ("/v1/device/up/".toList ++ send_operation m.type ++ '/' :: dn), payload)]) ∧
        aiot_dm_send E (some { h1 with mqtt_handle := none }) (some m) w2 =
          some (STATE_DM_MQTT_HANDLE_IS_NULL, w2) := by
  refine ⟨_, _, setopt_attach_nameless O hwf h d w hname, by simp [queried, newEvents],
    by simp [queried, newEvents, topicsAdded], by simp [queried, newEvents, processHandlers],
    rfl, ?_⟩
  intro m w2 dn hdn ht6 hmax hc hfields ha1 ha2
  constructor
  · obtain ⟨r, w3, payload, hs, hp, _⟩ := send_publishes_resolved E
      { h with mqtt_handle := some d.mqtt } d.mqtt m w2 w2 dn ht6 hmax hc rfl
      (Or.inl ⟨hdn, rfl⟩) hfields ha1 ha2
    exact ⟨r, w3, payload, hs, hp⟩
  · have hm : ¬ m.type ≥ E.AIOT_DMMSG_MAX := by omega
    simp [aiot_dm_send, hm]

/-- C25 on a fresh context and the transport without name: afterwards a
property post for `devB` is published. -/
theorem failed_attach_keeps_transport_witness :
    (∃ h1 w1, aiot_dm_setopt DmOptEnum.sample (some fresh_handle)
        DmOptEnum.sample.AIOT_DMOPT_MQTT_HANDLE (some (data_of_transport nameless_transport))
        World.init = some (STATE_USER_INPUT_MISSING_DEVICE_NAME, some h1, w1) ∧
      newEvents World.init w1 =
        [Event.get_device_name (some (data_of_transport nameless_transport).mqtt.id)] ∧
      topicsAdded (newEvents World.init w1) = [] ∧
      processHandlers (newEvents World.init w1) = [] ∧
      h1 = { fresh_handle with mqtt_handle := some (data_of_transport nameless_transport).mqtt } ∧
      ∀ (m : aiot_dm_msg_t) (w2 : World) (dn : List Char), m.device_name = some dn →
        m.type < 6 → m.type < DmMsgEnum.sample.AIOT_DMMSG_MAX →
        m.type ∈ DmMsgEnum.sample.caseLabels →
        (∀ f ∈ required_fields m, f ≠ none) →
        ¬ w2.alloc_plan.head? = some false → ¬ w2.alloc_plan.tail.head? = some false →
        (∃ r w3 payload, aiot_dm_send DmMsgEnum.sample (some h1) (some m) w2 = some (r, w3) ∧
          publishes (newEvents w2 w3) =
            [(some ("/v1/device/up/".toList ++ send_operation m.type ++ '/' :: dn), payload)]) ∧
        aiot_dm_send DmMsgEnum.sample (some { h1 with mqtt_handle := none }) (some m) w2 =
          some (STATE_DM_MQTT_HANDLE_IS_NULL, w2)) ∧
    publishes (newEvents World.init
        (world_after_send DmMsgEnum.sample
          (handle_after_setopt DmOptEnum.sample fresh_handle 0
            (data_of_transport nameless_transport) World.init)
          { sample_msg 1 with device_name := some "devB".toList } World.init)) =
      [(some "/v1/device/up/datas/devB".toList,
        "\x7b\"id\":\"1\",\"devices\":[\x7b\"temp\":21\x7d]\x7d".toList)] :=
  ⟨failed_attach_keeps_transport DmOptEnum.sample (by decide) DmMsgEnum.sample fresh_handle
    (data_of_transport nameless_transport) World.init rfl, by decide⟩

/-! ### Attach and teardown -/

theorem render_recv_topics (d : List Char) :
    render_fmt "/v1/device/down/registerInfo/%s".toList [some d] =
      "/v1/device/down/registerInfo/".toList ++ d ∧
    render_fmt "/v1/device/down/set/%s".toList [some d] =
      "/v1/device/down/set/".toList ++ d ∧
    render_fmt "/v1/device/down/service/%s".toList [some d] =
      "/v1/device/down/service/".toList ++ d ∧
    render_fmt "/v1/device/down/event_reply/%s".toList [some d] =
      "/v1/device/down/event_reply/".toList ++ d := by
  refine ⟨?_, ?_, ?_, ?_⟩ <;> simp [render_fmt]

/-- The attach of a transport with default device name `d`, when neither
the allocator nor the transport refuses: the four patterns of
`g_dm_recv_topic_mapping` are rendered with `d` and registered, then the
process handler is. -/
theorem setopt_attach_eq (O : DmOptEnum) (hwf : O.wf) (h : dm_handle_t) (dat : dm_opt_data)
    (d : List Char) (w : World) (hname : dat.mqtt.device_name = some d)
    (hA : w.alloc_plan = []) (hP : w.pub_plan = []) :
    aiot_dm_setopt O (some h) O.AIOT_DMOPT_MQTT_HANDLE (some dat) w =
      some (STATE_SUCCESS, some { h with mqtt_handle := some dat.mqtt },
        { w with
          next_addr := w.next_addr + 4
          trace := w.trace ++
            [Event.get_device_name (some dat.mqtt.id),
             Event.malloc (("/v1/device/down/registerInfo/".toList ++ d).length + 1)
               (some w.next_addr),
             Event.topic_map (some dat.mqtt.id) true
               ("/v1/device/down/registerInfo/".toList ++ d) 0 true STATE_SUCCESS,
             Event.malloc (("/v1/device/down/set/".toList ++ d).length + 1)
               (some (w.next_addr + 1)),
             Event.topic_map (some dat.mqtt.id) true
               ("/v1/device/down/set/".toList ++ d) 1 true STATE_SUCCESS,
             Event.malloc (("/v1/device/down/service/".toList ++ d).length + 1)
               (some (w.next_addr + 2)),
             Event.topic_map (some dat.mqtt.id) true
               ("/v1/device/down/service/".toList ++ d) 2 true STATE_SUCCESS,
             Event.malloc (("/v1/device/down/event_reply/".toList ++ d).length + 1)
               (some (w.next_addr + 3)),
             Event.topic_map (some dat.mqtt.id) true
               ("/v1/device/down/event_reply/".toList ++ d) 3 true STATE_SUCCESS,
             Event.process_handler (some dat.mqtt.id) true STATE_SUCCESS] }) := by
  obtain ⟨_, _, _, _, _, _, l1, _, _, _⟩ := opt_labels O hwf
  obtain ⟨r1, r2, r3, r4⟩ := render_recv_topics d
  have hmax : ¬ O.AIOT_DMOPT_MQTT_HANDLE ≥ O.AIOT_DMOPT_MAX := by omega
  have hneg : ¬ STATE_SUCCESS < 0 := by decide
  have hge : STATE_SUCCESS ≥ STATE_SUCCESS := le_refl _
  simp only [aiot_dm_setopt, hmax, if_false, if_true, _dm_setup_topic_mapping,
    core_mqtt_get_device_name, hname, Option.bind_some, g_dm_recv_topic_mapping,
    _dm_setup_topic_mapping_loop, core_sprintf, core_sysdep_malloc, hA, hP, List.tail_nil,
    aiot_mqtt_setopt, List.headD_nil, hneg, r1, r2, r3, r4, hge,
    _dm_core_mqtt_operate_process_handler, core_mqtt_setopt, Option.map_some']
  simp [hname, render_fmt, Nat.add_assoc, hneg, hge]

/-- The teardown of a context: the process handler is removed, then the
transport is asked to remove the four pattern strings of
`g_dm_recv_topic_mapping` as the table holds them. -/
theorem deinit_eq (h : dm_handle_t) (w : World) (hP : w.pub_plan = []) :
    aiot_dm_deinit (some (some h)) w =
      (STATE_SUCCESS, some none,
        { w with
          trace := w.trace ++
            [Event.process_handler (h.mqtt_handle.map (fun t => t.id)) false STATE_SUCCESS,
             Event.topic_map (h.mqtt_handle.map (fun t => t.id)) false
               "/v1/device/down/registerInfo/%s".toList 0 false STATE_SUCCESS,
             Event.topic_map (h.mqtt_handle.map (fun t => t.id)) false
               "/v1/device/down/set/%s".toList 1 false STATE_SUCCESS,
             Event.topic_map (h.mqtt_handle.map (fun t => t.id)) false
               "/v1/device/down/service/%s".toList 2 false STATE_SUCCESS,
             Event.topic_map (h.mqtt_handle.map (fun t => t.id)) false
               "/v1/device/down/event_reply/%s".toList 3 false STATE_SUCCESS,
             Event.free_context, Event.global_deinit] }) := by
  simp [aiot_dm_deinit, _dm_core_mqtt_operate_process_handler, core_mqtt_setopt,
    aiot_dm_deinit_loop, g_dm_recv_topic_mapping, aiot_mqtt_setopt, hP]

/-- C23, as the code has it: for every transport default device name `d`
other than the text `%s`, when neither the allocator nor the transport
refuses a call, attaching the transport asks it to add the four patterns of
`g_dm_recv_topic_mapping` rendered with `d`, and `aiot_dm_deinit` on the
context so attached asks it to remove the four unrendered pattern strings
`/v1/device/down/<operation>/%s`, with the same handlers: the strings removed
are not the strings added, and the subscription table after attach and
deinit still holds the four topics added. -/
theorem deinit_removes_unrendered_patterns (O : DmOptEnum) (hwf : O.wf) (h : dm_handle_t)
    (dat : dm_opt_data) (d : List Char) (w : World) (hname : dat.mqtt.device_name = some d)
    (hd : d ≠ "%s".toList) (hA : w.alloc_plan = []) (hP : w.pub_plan = []) :
    ∃ h1 w1 w2,
      aiot_dm_setopt O (some h) O.AIOT_DMOPT_MQTT_HANDLE (some dat) w =
        some (STATE_SUCCESS, some h1, w1) ∧
      aiot_dm_deinit (some (some h1)) w1 = (STATE_SUCCESS, some none, w2) ∧
      topicsAdded (newEvents w w1) =
        [("/v1/device/down/registerInfo/".toList ++ d, 0),
         ("/v1/device/down/set/".toList ++ d, 1),
         ("/v1/device/down/service/".toList ++ d, 2),
         ("/v1/device/down/event_reply/".toList ++ d, 3)] ∧
      topicsRemoved (newEvents w1 w2) =
        [("/v1/device/down/registerInfo/%s".toList, 0),
         ("/v1/device/down/set/%s".toList, 1),
         ("/v1/device/down/service/%s".toList, 2),
         ("/v1/device/down/event_reply/%s".toList, 3)] ∧
      topicsRemoved (newEvents w1 w2) ≠ topicsAdded (newEvents w w1) ∧
      topic_table (newEvents w w2) [] = topicsAdded (newEvents w w1) := by
  have hneg : ¬ STATE_SUCCESS < 0 := by decide
  have hd1 : ¬ d = ['%', 's'] := hd
  refine ⟨_, _, _, setopt_attach_eq O hwf h dat d w hname hA hP, deinit_eq _ _ hP, ?_, ?_, ?_,
    ?_⟩
  · simp [newEvents, topicsAdded]
  · simp [newEvents, topicsRemoved]
  · simp only [newEvents, topicsAdded, topicsRemoved]
    simp
    intro e
    exact absurd e.symm hd1
  · simp only [newEvents, topicsAdded]
    simp [topic_table, hneg, List.filter_cons, hd1]

/-- C23 for the sample transport, whose default device name is `devA`. -/
theorem deinit_removes_unrendered_patterns_witness :
    ∃ h1 w1 w2,
      aiot_dm_setopt DmOptEnum.sample (some fresh_handle)
        DmOptEnum.sample.AIOT_DMOPT_MQTT_HANDLE (some (data_of_transport sample_transport))
        World.init = some (STATE_SUCCESS, some h1, w1) ∧
      aiot_dm_deinit (some (some h1)) w1 = (STATE_SUCCESS, some none, w2) ∧
      topicsAdded (newEvents World.init w1) =
        [("/v1/device/down/registerInfo/".toList ++ "devA".toList, 0),
         ("/v1/device/down/set/".toList ++ "devA".toList, 1),
         ("/v1/device/down/service/".toList ++ "devA".toList, 2),
         ("/v1/device/down/event_reply/".toList ++ "devA".toList, 3)] ∧
      topicsRemoved (newEvents w1 w2) =
        [("/v1/device/down/registerInfo/%s".toList, 0),
         ("/v1/device/down/set/%s".toList, 1),
         ("/v1/device/down/service/%s".toList, 2),
         ("/v1/device/down/event_reply/%s".toList, 3)] ∧
      topicsRemoved (newEvents w1 w2) ≠ topicsAdded (newEvents World.init w1) ∧
      topic_table (newEvents World.init w2) [] = topicsAdded (newEvents World.init w1) :=
  deinit_removes_unrendered_patterns DmOptEnum.sample (by decide) fresh_handle
    (data_of_transport sample_transport) "devA".toList World.init rfl (by decide) rfl rfl

/-! ### Release of the topic strings and of a payload pointer -/

/-- What the topic parser returns on a well-formed buffer, without the
condition that decides between the three outcomes. -/
theorem dm_get_topic_level_outcomes (topic : List Char) (topic_len level : Nat) (w : World)
    (hl1 : 1 ≤ level) (hl2 : level ≤ 255) (h1 : 1 ≤ topic_len)
    (h2 : topic_len ≤ topic.length) (h3 : topic_len < 4294967296) :
    (∃ res, res < 0 ∧
      _dm_get_topic_level topic topic_len level w = some (res, none, w)) ∨
    (∃ res n, res < 0 ∧
      _dm_get_topic_level topic topic_len level w =
        some (res, none,
          { w with alloc_plan := w.alloc_plan.tail,
                   trace := w.trace ++ [Event.malloc n none] })) ∨
    (∃ n data,
      _dm_get_topic_level topic topic_len level w =
        some (STATE_SUCCESS, some { addr := w.next_addr, data := data },
          { w with alloc_plan := w.alloc_plan.tail, next_addr := w.next_addr + 1,
                   trace := w.trace ++ [Event.malloc n (some w.next_addr)] })) := by
  obtain ⟨n, data, hp⟩ := dm_get_topic_level_cases topic topic_len level w hl1 hl2 h1 h2 h3
  rw [hp]
  split
  · exact Or.inl ⟨_, by decide, rfl⟩
  · split
    · exact Or.inr (Or.inl ⟨_, n, by decide, rfl⟩)
    · exact Or.inr (Or.inr ⟨n, data, rfl⟩)

/-- C21, as the code has it: for each of the four handlers, with or without
a callback, on every topic buffer of `1 <= topic_len < 2^32` characters, every
payload and every world, the handler returns.  Every buffer the topic parser
allocated is released exactly once, whether the callback was reached or the
handler aborted before it: with the releases of payload pointers left out,
the set of live buffers, empty at the call, is never asked for a buffer it
does not hold and is empty at the return.  The register-info, property-set
and generic-reply handlers release nothing else.  The service-invoke handler
(2), once the topic parser has returned the device name (a callback is
registered, five `/` precede the final character of the topic, the allocator
returns the buffer), releases last the pointer `identifier` that the payload
parser has stored, a pointer into the payload that the topic parser did not
allocate: on the success path, and on the abort at a missing `data` after
`identifier` was found.  So the run releases only what was allocated exactly
when no payload pointer is released. -/
theorem recv_releases_payload_pointer (i : Nat) (hi : i < 4) (msg : aiot_mqtt_recv_t)
    (h : dm_handle_t) (w : World) (h1 : 1 ≤ msg.topic_len)
    (h2 : msg.topic_len ≤ msg.topic.length) (h3 : msg.topic_len < 4294967296) :
    ∃ w1, dm_recv_deliver i msg h w = some (h, w1) ∧
      live_buffers (withoutPayloadReleases (newEvents w w1)) [] = some [] ∧
      payloadReleases (newEvents w w1) =
        (if i = 2 ∧ h.recv_handler ≠ none ∧
            5 ≤ (msg.topic.take (msg.topic_len - 1)).count '/' ∧
            ¬ w.alloc_plan.head? = some false
         then (recv_identifier_ptr msg).toList else []) ∧
      live_buffers (newEvents w w1) [] =
        (if payloadReleases (newEvents w w1) = [] then some [] else none) := by
  have hneg : ¬ STATE_SUCCESS < 0 := by decide
  rcases hcb : h.recv_handler with _ | cb
  · refine ⟨w, ?_, by simp [newEvents_self, live_buffers, withoutPayloadReleases],
      by simp [newEvents_self, payloadReleases],
      by simp [newEvents_self, live_buffers, payloadReleases]⟩
    interval_cases i <;>
      simp [dm_recv_deliver, g_dm_recv_topic_mapping, _dm_recv_register_handler,
        _dm_recv_property_set_handler, _dm_recv_async_service_invoke_handler,
        _dm_recv_generic_reply_handler, hcb]
  · by_cases h3i : i = 3
    · subst h3i
      rcases dm_get_topic_level_outcomes msg.topic msg.topic_len 2 w (by omega) (by omega)
        h1 h2 h3 with ⟨res, hres, hp⟩ | ⟨res, n, hres, hp⟩ | ⟨n, data, hp⟩
      · refine ⟨_, recv_generic_reply_eq_first msg h w _ cb res _ hcb hp hres, ?_, ?_, ?_⟩ <;>
          simp [DM_FREE, newEvents_self, live_buffers, withoutPayloadReleases, payloadReleases]
      · refine ⟨_, recv_generic_reply_eq_first msg h w _ cb res _ hcb hp hres, ?_, ?_, ?_⟩ <;>
          simp [DM_FREE, newEvents, live_buffers, withoutPayloadReleases, payloadReleases]
      · rcases dm_get_topic_level_outcomes msg.topic msg.topic_len 3
          { w with alloc_plan := w.alloc_plan.tail, next_addr := w.next_addr + 1,
                   trace := w.trace ++ [Event.malloc n (some w.next_addr)] }
          (by omega) (by omega) h1 h2 h3 with
          ⟨res, hres, hp2⟩ | ⟨res, n2, hres, hp2⟩ | ⟨n2, data2, hp2⟩
        · refine ⟨_, recv_generic_reply_eq msg h w _ _ cb _ res _ _ hcb hp hneg hp2,
            ?_, ?_, ?_⟩ <;>
            simp [hres, DM_FREE, core_sysdep_free, newEvents, live_buffers,
              withoutPayloadReleases, payloadReleases]
        · refine ⟨_, recv_generic_reply_eq msg h w _ _ cb _ res _ _ hcb hp hneg hp2,
            ?_, ?_, ?_⟩ <;>
            simp [hres, DM_FREE, core_sysdep_free, newEvents, live_buffers,
              withoutPayloadReleases, payloadReleases]
        · refine ⟨_, recv_generic_reply_eq msg h w _ _ cb _ _ _ _ hcb hp hneg hp2,
            ?_, ?_, ?_⟩ <;>
            by_cases hd : recv_required_decode 3 msg = false <;>
            simp [hd, hneg, DM_FREE, core_sysdep_free, newEvents, live_buffers,
              withoutPayloadReleases, payloadReleases, recv_handler_call, _append_diag_data,
              core_diag]
    · by_cases h2i : i = 2
      · subst h2i
        obtain ⟨n, data, hp⟩ := dm_get_topic_level_cases msg.topic msg.topic_len 5 w
          (by omega) (by omega) h1 h2 h3
        by_cases hcnt : (msg.topic.take (msg.topic_len - 1)).count '/' < 5
        · rw [if_pos hcnt] at hp
          have hres : STATE_DM_INTERNAL_TOPIC_ERROR < 0 := by decide
          have hcnt1 : ¬ 5 ≤ (msg.topic.take (msg.topic_len - 1)).count '/' := by omega
          refine ⟨_, recv_service_invoke_eq msg h w _ cb _ _ hcb hp, ?_, ?_, ?_⟩ <;>
            simp [hres, hcnt1, DM_FREE, DM_FREE_payload_ptr, newEvents_self, live_buffers,
              withoutPayloadReleases, payloadReleases]
        · rw [if_neg hcnt] at hp
          have hcnt1 : 5 ≤ (msg.topic.take (msg.topic_len - 1)).count '/' := by omega
          by_cases hal : w.alloc_plan.head? = some false
          · rw [if_pos hal] at hp
            have hres : STATE_SYS_DEPEND_MALLOC_FAILED < 0 := by decide
            refine ⟨_, recv_service_invoke_eq msg h w _ cb _ _ hcb hp, ?_, ?_, ?_⟩ <;>
              simp [hres, hal, DM_FREE, DM_FREE_payload_ptr, newEvents, live_buffers,
                withoutPayloadReleases, payloadReleases]
          · rw [if_neg hal] at hp
            refine ⟨_, recv_service_invoke_eq msg h w _ cb _ _ hcb hp, ?_, ?_, ?_⟩ <;>
              cases hidp : recv_identifier_ptr msg <;>
              by_cases hd : recv_required_decode 2 msg = false <;>
              simp [hd, hneg, hal, hcnt1, DM_FREE, DM_FREE_payload_ptr, core_sysdep_free,
                newEvents, live_buffers, withoutPayloadReleases, payloadReleases,
                recv_handler_call]
      · have hi2 : i < 2 := by omega
        rcases dm_get_topic_level_outcomes msg.topic msg.topic_len 5 w (by omega) (by omega)
          h1 h2 h3 with ⟨res, hres, hp⟩ | ⟨res, n, hres, hp⟩ | ⟨n, data, hp⟩
        · interval_cases i
          · refine ⟨_, recv_register_eq msg h w _ cb res _ hcb hp, ?_, ?_, ?_⟩ <;>
              simp [hres, DM_FREE, newEvents_self, live_buffers, withoutPayloadReleases,
                payloadReleases]
          · refine ⟨_, recv_property_set_eq msg h w _ cb res _ hcb hp, ?_, ?_, ?_⟩ <;>
              simp [hres, DM_FREE, newEvents_self, live_buffers, withoutPayloadReleases,
                payloadReleases]
        · interval_cases i
          · refine ⟨_, recv_register_eq msg h w _ cb res _ hcb hp, ?_, ?_, ?_⟩ <;>
              simp [hres, DM_FREE, newEvents, live_buffers, withoutPayloadReleases,
                payloadReleases]
          · refine ⟨_, recv_property_set_eq msg h w _ cb res _ hcb hp, ?_, ?_, ?_⟩ <;>
              simp [hres, DM_FREE, newEvents, live_buffers, withoutPayloadReleases,
                payloadReleases]
        · interval_cases i
          · refine ⟨_, recv_register_eq msg h w _ cb _ _ hcb hp, ?_, ?_, ?_⟩ <;>
              by_cases hd : recv_required_decode 0 msg = false <;>
              simp [hd, hneg, DM_FREE, core_sysdep_free, newEvents, live_buffers,
                withoutPayloadReleases, payloadReleases, recv_handler_call, _append_diag_data,
                core_diag]
          · refine ⟨_, recv_property_set_eq msg h w _ cb _ _ hcb hp, ?_, ?_, ?_⟩ <;>
              by_cases hd : recv_required_decode 1 msg = false <;>
              simp [hd, hneg, DM_FREE, core_sysdep_free, newEvents, live_buffers,
                withoutPayloadReleases, payloadReleases, recv_handler_call]

/-- C21 for the service-invoke handler on a message for `devA` with the
identifier `reboot`: the device name is allocated, the callback is invoked,
the device name is released, and then the pointer to `reboot` inside the
payload is handed to the allocator's `free`; on the same message without
`data` the callback is not reached and the pointer is released all the same. -/
theorem recv_releases_payload_pointer_witness :
    (∃ w1, dm_recv_deliver 2 service_invoke_msg sample_recv_handle World.init =
        some (sample_recv_handle, w1) ∧
      live_buffers (withoutPayloadReleases (newEvents World.init w1)) [] = some [] ∧
      payloadReleases (newEvents World.init w1) =
        (if 2 = 2 ∧ sample_recv_handle.recv_handler ≠ none ∧
            5 ≤ (service_invoke_msg.topic.take (service_invoke_msg.topic_len - 1)).count '/' ∧
            ¬ World.init.alloc_plan.head? = some false
         then (recv_identifier_ptr service_invoke_msg).toList else []) ∧
      live_buffers (newEvents World.init w1) [] =
        (if payloadReleases (newEvents World.init w1) = [] then some [] else none)) ∧
    payloadReleases (newEvents World.init
        (world_after_deliver 2 service_invoke_msg sample_recv_handle World.init)) =
      [ "reboot".toList ] ∧
    live_buffers (newEvents World.init
        (world_after_deliver 2 service_invoke_msg sample_recv_handle World.init)) [] = none ∧
    newEvents World.init
        (world_after_deliver 2 service_invoke_no_data_msg sample_recv_handle World.init) =
      [Event.malloc 5 (some 0), Event.free 0, Event.free_payload_ptr "reboot".toList] :=
  ⟨recv_releases_payload_pointer 2 (by decide) service_invoke_msg sample_recv_handle World.init
    (by decide) (by decide) (by decide), by decide, by decide, by decide⟩

/-! ### The reads of the topic parser -/

/-- The loop on indices below `k` does not depend on the characters from
index `k` on. -/
theorem topic_scan_loop_take (topic : List Char) (level k : Nat) (n : Nat) :
    ∀ (i : Nat) (s : TopicScan), i + n ≤ k →
      topic_scan_loop (topic.take k) level n i s = topic_scan_loop topic level n i s := by
  induction n with
  | zero => intro i s _; rfl
  | succ n ih =>
    intro i s hb
    have hget : (topic.take k)[i]? = topic[i]? := by
      rw [List.getElem?_take]; simp [show i < k by omega]
    have hstep : topic_scan_step (topic.take k) level i s = topic_scan_step topic level i s := by
      simp only [topic_scan_step, hget]
    simp only [topic_scan_loop, hstep]
    cases topic_scan_step topic level i s with
    | none => rfl
    | some s1 => exact ih (i + 1) s1 (by omega)

/-- A loop that runs past the end of the buffer reads outside it. -/
theorem topic_scan_loop_past_end (topic : List Char) (level : Nat) (n : Nat) :
    ∀ (i : Nat) (s : TopicScan), i ≤ topic.length → topic.length < i + n →
      topic_scan_loop topic level n i s = none := by
  induction n with
  | zero => intro i s h1 h2; omega
  | succ n ih =>
    intro i s h1 h2
    simp only [topic_scan_loop]
    by_cases hi : i < topic.length
    · cases hs : topic_scan_step topic level i s with
      | none => rfl
      | some s1 => exact ih (i + 1) s1 (by omega) (by omega)
    · have hget : topic[i]? = none := List.getElem?_eq_none (by omega)
      simp [topic_scan_step, hget]

/-- With a length of 0 the loop bound is `2^32 - 1`, and the parser reads
outside every buffer shorter than that. -/
theorem dm_get_topic_level_len_zero (topic : List Char) (level : Nat) (w : World)
    (h : topic.length < 4294967295) : _dm_get_topic_level topic 0 level w = none := by
  have hf : ((((0 : Nat) : Int) - 1) % 4294967296).toNat = 4294967295 := by decide
  unfold _dm_get_topic_level
  rw [hf, topic_scan_loop_past_end topic level 4294967295 0 _ (Nat.zero_le _) (by omega)]

/-- At level 0, as long as the counter stays below `2^16`, the opening end is
never set. -/
theorem topic_scan_loop_level_zero (topic : List Char) (n : Nat) :
    ∀ (i : Nat) (s : TopicScan), i + n ≤ topic.length → s.p_open = none →
      s.level_curr + ((topic.drop i).take n).count '/' < 65536 →
      ∃ s1, topic_scan_loop topic 0 n i s = some s1 ∧ s1.p_open = none := by
  induction n with
  | zero => intro i s _ ho _; exact ⟨s, rfl, ho⟩
  | succ n ih =>
    intro i s hb ho hc
    have hi : i < topic.length := by omega
    have hget : topic[i]? = some topic[i] := List.getElem?_eq_getElem hi
    have hdrop : (topic.drop i).take (n + 1) = topic[i] :: (topic.drop (i + 1)).take n := by
      rw [List.drop_eq_getElem_cons hi, List.take_succ_cons]
    rw [hdrop] at hc
    simp only [topic_scan_loop]
    by_cases hch : topic[i] = '/'
    · have hget1 : topic[i]? = some '/' := by rw [hget, hch]
      rw [topic_scan_step_slash _ _ _ _ hget1]
      rw [hch, List.count_cons_self] at hc
      have hm : (s.level_curr + 1) % 65536 = s.level_curr + 1 := Nat.mod_eq_of_lt (by omega)
      have hn0 : ¬ (s.level_curr + 1 = 0) := by omega
      simp only [hm, hn0, false_and, if_false]
      exact ih (i + 1) _ (by omega) ho (by simp only []; omega)
    · rw [topic_scan_step_other _ _ _ _ _ hget hch]
      have hne : ¬ ('/' = topic[i]) := fun e => hch e.symm
      have hc1 : s.level_curr + ((topic.drop (i + 1)).take n).count '/' < 65536 := by
        simpa [List.count_cons, hne] using hc
      exact ih (i + 1) s (by omega) ho hc1

/-- At level 0, a run of `k` delimiters met once the closing end is set, while
the counter stays below `2^16`, moves only the counter. -/
theorem topic_scan_loop_level_zero_run (k : Nat) :
    ∀ (pre post : List Char) (s : TopicScan), s.level_curr + k < 65536 → s.p_open = none →
      s.p_close ≠ none →
      topic_scan_loop (pre ++ List.replicate k '/' ++ post) 0 k pre.length s =
        some { s with level_curr := s.level_curr + k } := by
  induction k with
  | zero => intro pre post s _ _ _; simp [topic_scan_loop]
  | succ k ih =>
    intro pre post s h2 ho h3
    have e : pre ++ List.replicate (k + 1) '/' ++ post =
        (pre ++ [ '/' ]) ++ List.replicate k '/' ++ post := by
      simp [List.replicate_succ]
    have e2 : pre.length + 1 = (pre ++ [ '/' ]).length := by simp
    have hget : (pre ++ List.replicate (k + 1) '/' ++ post)[pre.length]? = some '/' := by
      rw [List.replicate_succ]
      exact getElem?_mid pre (List.replicate k '/') post '/'
    simp only [topic_scan_loop]
    rw [topic_scan_step_slash _ _ _ _ hget]
    have hm : (s.level_curr + 1) % 65536 = s.level_curr + 1 := Nat.mod_eq_of_lt (by omega)
    have hn0 : ¬ (s.level_curr + 1 = 0) := by omega
    simp only [hm, hn0, false_and, if_false, h3, and_false]
    have hrec := ih (pre ++ [ '/' ]) post
      { level_curr := s.level_curr + 1, p_open := s.p_open, p_close := s.p_close }
      (by simp only []; omega) ho h3
    rw [e, e2, hrec]
    simp only [Option.some.injEq, TopicScan.mk.injEq, and_true]
    omega

/-- Level 0 on a topic made of `/`, a letter, `n + 1` further `/` and a
letter, with `n + 2 = 2^16`: the counter wraps to 0 at the last `/`, where the
opening end is set behind the closing end set at the first `/`; the length
`close - open`, taken as a `uint16_t`, is `2^16 - 1`, and the copy reads
outside the buffer. -/
theorem dm_get_topic_level_zero_wrap (n : Nat) (hn : n + 2 = 65536) (topic_len : Nat)
    (hlen : topic_len = n + 4) (w : World) (ha : ¬ w.alloc_plan.head? = some false) :
    topic_scan_loop ('/' :: 'x' :: (List.replicate n '/' ++ [ '/', 'y' ])) 0 (topic_len - 1) 0
        { level_curr := 0, p_open := none, p_close := none } =
      some { level_curr := 0, p_open := some (n + 3), p_close := some 0 } ∧
    _dm_get_topic_level ('/' :: 'x' :: (List.replicate n '/' ++ [ '/', 'y' ])) topic_len 0 w =
      none := by
  subst hlen
  have hf : ((((n + 4 : Nat) : Int) - 1) % 4294967296).toNat = n + 4 - 1 := by omega
  have hf2 : n + 4 - 1 = 1 + 1 + n + 1 := by omega
  have st1 : topic_scan_loop ('/' :: 'x' :: (List.replicate n '/' ++ [ '/', 'y' ])) 0 (1 + 1) 0
      { level_curr := 0, p_open := none, p_close := none } =
      some { level_curr := 1, p_open := none, p_close := some 0 } := by
    simp [topic_scan_loop, topic_scan_step]
  have st2 := topic_scan_loop_level_zero_run n [ '/', 'x' ] [ '/', 'y' ]
    { level_curr := 1, p_open := none, p_close := some 0 } (by simp only []; omega) rfl
    (by simp)
  have hget : ('/' :: 'x' :: (List.replicate n '/' ++ [ '/', 'y' ]))[n + 2]? = some '/' := by
    have h0 : (List.replicate n '/' ++ [ '/', 'y' ])[n]? = some '/' := by
      rw [List.getElem?_append_right (by simp)]
      simp
    rw [List.getElem?_cons_succ, List.getElem?_cons_succ]
    exact h0
  have st3 : topic_scan_loop ('/' :: 'x' :: (List.replicate n '/' ++ [ '/', 'y' ])) 0 1 (n + 2)
      { level_curr := 1 + n, p_open := none, p_close := some 0 } =
      some { level_curr := 0, p_open := some (n + 3), p_close := some 0 } := by
    simp only [topic_scan_loop]
    rw [topic_scan_step_slash _ _ _ _ hget]
    have hm : (1 + n + 1) % 65536 = 0 := by omega
    simp [hm]
  have e : [ '/', 'x' ] ++ List.replicate n '/' ++ [ '/', 'y' ] =
      '/' :: 'x' :: (List.replicate n '/' ++ [ '/', 'y' ]) := by simp
  rw [e] at st2
  simp only [List.length_cons, List.length_nil] at st2
  have e1 : (0 : Nat) + 1 + 1 = 0 + (1 + 1) := by omega
  rw [e1] at st2
  have e2 : 0 + (1 + 1) + n = n + 2 := by omega
  have hrun : topic_scan_loop ('/' :: 'x' :: (List.replicate n '/' ++ [ '/', 'y' ])) 0
      (n + 4 - 1) 0 { level_curr := 0, p_open := none, p_close := none } =
      some { level_curr := 0, p_open := some (n + 3), p_close := some 0 } := by
    rw [hf2, topic_scan_loop_add, topic_scan_loop_add, st1]
    simp only [Option.some_bind]
    rw [st2]
    simp only [Option.some_bind]
    have e3 : ∀ m, m = n + 2 →
        topic_scan_loop ('/' :: 'x' :: (List.replicate n '/' ++ [ '/', 'y' ])) 0 1 m
          { level_curr := 1 + n, p_open := none, p_close := some 0 } =
        some { level_curr := 0, p_open := some (n + 3), p_close := some 0 } := by
      intro m hm; rw [hm]; exact st3
    exact e3 _ (by omega)
  refine ⟨hrun, ?_⟩
  unfold _dm_get_topic_level
  rw [hf, hrun]
  simp only [Option.getD_some]
  have hnl : ((((0 : Nat) : Int) - ((n + 3 : Nat) : Int)) % 65536).toNat = 65535 := by omega
  rw [hnl, core_sysdep_malloc_ok _ _ ha]
  have hb : ¬ (n + 3 + 65535 ≤ ('/' :: 'x' :: (List.replicate n '/' ++ [ '/', 'y' ])).length) := by
    simp only [List.length_cons, List.length_append, List.length_replicate, List.length_nil]
    omega
  simp only [hb, if_false]

/-- The parser, once its loop has returned the locals `s` with the opening
end at most at the closing end and the closing end at most at `topic_len`:
it returns, the same on the first `topic_len` characters alone, and on
success the buffer holds the characters from the opening end on, `close -
open` of them taken modulo `2^16`. -/
theorem dm_get_topic_level_of_scan (topic : List Char) (topic_len level : Nat) (w : World)
    (s : TopicScan) (h1 : 1 ≤ topic_len) (h2 : topic_len ≤ topic.length)
    (h3 : topic_len < 4294967296)
    (hs : topic_scan_loop topic level (topic_len - 1) 0
      { level_curr := 0, p_open := none, p_close := none } = some s)
    (hb : ∀ a, s.p_open = some a →
      a ≤ s.p_close.getD topic_len ∧ s.p_close.getD topic_len ≤ topic_len) :
    ∃ r, _dm_get_topic_level topic topic_len level w = some r ∧
      _dm_get_topic_level (topic.take topic_len) topic_len level w = some r ∧
      (r.1 = STATE_SUCCESS → ∃ a addr, s.p_open = some a ∧
        r.2.1 = some { addr := addr,
                       data := (topic.drop a).take ((s.p_close.getD topic_len - a) % 65536) }) := by
  have hf : (((topic_len : Int) - 1) % 4294967296).toNat = topic_len - 1 := by omega
  have hs1 : topic_scan_loop (topic.take topic_len) level (topic_len - 1) 0
      { level_curr := 0, p_open := none, p_close := none } = some s := by
    rw [topic_scan_loop_take topic level topic_len (topic_len - 1) 0 _ (by omega)]
    exact hs
  unfold _dm_get_topic_level
  rw [hf, hs, hs1]
  rcases ho : s.p_open with _ | a
  · simp only [ho]
    refine ⟨_, rfl, rfl, ?_⟩
    intro h
    have hne : ¬ (STATE_DM_INTERNAL_TOPIC_ERROR = STATE_SUCCESS) := by decide
    exact absurd h hne
  · obtain ⟨hac, hct⟩ := hb a ho
    have hn : (((s.p_close.getD topic_len : Int) - (a : Int)) % 65536).toNat =
        (s.p_close.getD topic_len - a) % 65536 := by omega
    simp only [ho, hn]
    by_cases hal : w.alloc_plan.head? = some false
    · rw [core_sysdep_malloc_fail _ _ hal]
      refine ⟨_, rfl, rfl, ?_⟩
      intro h
      have hne : ¬ (STATE_SYS_DEPEND_MALLOC_FAILED = STATE_SUCCESS) := by decide
      exact absurd h hne
    · rw [core_sysdep_malloc_ok _ _ hal]
      have hle : (s.p_close.getD topic_len - a) % 65536 ≤ s.p_close.getD topic_len - a :=
        Nat.mod_le _ _
      have hb1 : a + (s.p_close.getD topic_len - a) % 65536 ≤ topic.length := by omega
      have hb2 : a + (s.p_close.getD topic_len - a) % 65536 ≤ (topic.take topic_len).length := by
        rw [List.length_take]; omega
      have hd : ((topic.take topic_len).drop a).take ((s.p_close.getD topic_len - a) % 65536) =
          (topic.drop a).take ((s.p_close.getD topic_len - a) % 65536) := by
        rw [List.drop_take, List.take_take]
        congr 1
        omega
      simp only [hb1, hb2, if_true, hd]
      exact ⟨_, rfl, rfl, fun _ => ⟨a, _, rfl, rfl⟩⟩

/-- C24, counterexample.  At level 0 the claim fails: on `wrap_topic`, of
65538 characters with a `/` at index 0 and 65535 further ones, the 16-bit
counter wraps to 0 at the last `/`; the loop ends with the opening end at
65537 behind the closing end at 0, and the copy of `2^16 - 1` characters from
index 65537 reads outside the buffer. -/
theorem topic_level_zero_wraps :
    wrap_topic.length = 65538 ∧
    topic_scan_loop wrap_topic 0 65537 0 { level_curr := 0, p_open := none, p_close := none } =
      some { level_curr := 0, p_open := some 65537, p_close := some 0 } ∧
    _dm_get_topic_level wrap_topic 65538 0 World.init = none := by
  have hlen : ∀ n : Nat,
      ('/' :: 'x' :: (List.replicate n '/' ++ [ '/', 'y' ])).length = n + 4 := by
    intro n; simp
  have h := dm_get_topic_level_zero_wrap 65534 (by decide) 65538 (by decide) World.init
    (by decide)
  exact ⟨hlen 65534, h.1, h.2⟩

/-- C24, amended.  For every buffer holding at least `topic_len ≥ 1`
characters and every level from 1 to 255, and for level 0 when fewer than
`2^16` delimiters precede the final character, `_dm_get_topic_level` returns,
and returns the same on the first `topic_len` characters alone, so it reads
only indices below `topic_len`; when it succeeds, the ends found by its loop
satisfy `0 < open ≤ close ≤ topic_len` and the buffer holds the characters
from `open` on, `close - open` of them taken modulo `2^16`.  With
`topic_len = 0` the loop bound is `2^32 - 1` and the parser reads outside any
buffer shorter than that. -/
theorem topic_level_reads_inside (topic : List Char) (topic_len level : Nat) (w : World)
    (hl2 : level ≤ 255)
    (hl1 : 1 ≤ level ∨ (topic.take (topic_len - 1)).count '/' < 65536)
    (h1 : 1 ≤ topic_len) (h2 : topic_len ≤ topic.length) (h3 : topic_len < 4294967296) :
    ∃ r s, _dm_get_topic_level topic topic_len level w = some r ∧
      _dm_get_topic_level (topic.take topic_len) topic_len level w = some r ∧
      topic_scan_loop topic level (topic_len - 1) 0
        { level_curr := 0, p_open := none, p_close := none } = some s ∧
      (r.1 = STATE_SUCCESS → ∃ a addr, s.p_open = some a ∧
        0 < a ∧ a ≤ s.p_close.getD topic_len ∧ s.p_close.getD topic_len ≤ topic_len ∧
        a + (s.p_close.getD topic_len - a) % 65536 ≤ topic_len ∧
        r.2.1 = some { addr := addr,
                       data := (topic.drop a).take ((s.p_close.getD topic_len - a) % 65536) }) ∧
      (topic.length < 4294967295 → _dm_get_topic_level topic 0 level w = none) := by
  have hscan : ∃ s, topic_scan_loop topic level (topic_len - 1) 0
      { level_curr := 0, p_open := none, p_close := none } = some s ∧
      ∀ a, s.p_open = some a →
        0 < a ∧ a ≤ s.p_close.getD topic_len ∧ s.p_close.getD topic_len ≤ topic_len := by
    by_cases hl : 1 ≤ level
    · obtain ⟨s, hs, _, _, hi3, hi4⟩ := topic_scan_loop_inv topic level hl hl2 (topic_len - 1) 0
        { level_curr := 0, p_open := none, p_close := none } (by omega)
        (scan_inv_init topic level hl)
      simp only [Nat.zero_add] at hi3 hi4
      refine ⟨s, hs, ?_⟩
      intro a ho
      have ha := hi3 a ho
      rcases hc : s.p_close with _ | b
      · simp; omega
      · obtain ⟨a1, ha1, hab, hb⟩ := hi4 b hc
        rw [ho] at ha1; injection ha1 with ha1
        simp; omega
    · have hl0 : level = 0 := by omega
      have hcnt : (topic.take (topic_len - 1)).count '/' < 65536 := by
        rcases hl1 with h | h
        · exact absurd h hl
        · exact h
      subst hl0
      obtain ⟨s, hs, ho⟩ := topic_scan_loop_level_zero topic (topic_len - 1) 0
        { level_curr := 0, p_open := none, p_close := none } (by omega) rfl
        (by simpa using hcnt)
      refine ⟨s, hs, ?_⟩
      intro a ha
      rw [ho] at ha
      exact absurd ha (by simp)
  obtain ⟨s, hs, hb⟩ := hscan
  obtain ⟨r, hr, hr1, hr2⟩ := dm_get_topic_level_of_scan topic topic_len level w s h1 h2 h3 hs
    (fun a ho => (hb a ho).2)
  refine ⟨r, s, hr, hr1, hs, ?_, dm_get_topic_level_len_zero topic level w⟩
  intro hok
  obtain ⟨a, addr, ho, hd⟩ := hr2 hok
  obtain ⟨hb1, hb2, hb3⟩ := hb a ho
  have hle : (s.p_close.getD topic_len - a) % 65536 ≤ s.p_close.getD topic_len - a :=
    Nat.mod_le _ _
  exact ⟨a, addr, ho, hb1, hb2, hb3, by omega, hd⟩

/-- C24 at level 5 of `/v1/device/down/set/devA`, passed with length 24 in a
buffer of 27 characters. -/
theorem topic_level_reads_inside_witness :
    ∃ r s, _dm_get_topic_level "/v1/device/down/set/devAxyz".toList 24 5 World.init = some r ∧
      _dm_get_topic_level ("/v1/device/down/set/devAxyz".toList.take 24) 24 5 World.init =
        some r ∧
      topic_scan_loop "/v1/device/down/set/devAxyz".toList 5 (24 - 1) 0
        { level_curr := 0, p_open := none, p_close := none } = some s ∧
      (r.1 = STATE_SUCCESS → ∃ a addr, s.p_open = some a ∧
        0 < a ∧ a ≤ s.p_close.getD 24 ∧ s.p_close.getD 24 ≤ 24 ∧
        a + (s.p_close.getD 24 - a) % 65536 ≤ 24 ∧
        r.2.1 = some { addr := addr,
                       data := ("/v1/device/down/set/devAxyz".toList.drop a).take
                         ((s.p_close.getD 24 - a) % 65536) }) ∧
      ("/v1/device/down/set/devAxyz".toList.length < 4294967295 →
        _dm_get_topic_level "/v1/device/down/set/devAxyz".toList 0 5 World.init = none) :=
  topic_level_reads_inside "/v1/device/down/set/devAxyz".toList 24 5 World.init (by decide)
    (Or.inl (by decide)) (by decide) (by decide) (by decide)

end AiotDm
